import Mathlib

/-!
# Verification of libproxyprotocol (src/proxy_protocol.c)

A shallow embedding of the PROXY protocol v1/v2 codec from
`src/proxy_protocol.c`.  Byte buffers are `List Nat` whose elements are
meant as octets; reads from buffers reduce mod 256 to reflect `uint8_t`
storage, and `uint16_t` arithmetic carries explicit `% 65536`.  Heap
allocation is modelled as always succeeding, and uninitialised heap bytes
read as 0.  The host is modelled as little-endian (the source stores
`uint32_t` values such as the SSL verify word and the computed CRC with
`memcpy` in native layout; the test-suite targets of the repository are
little-endian).
-/

namespace LibPP

/-- Modelled from the spec: the numeric error constants of
`proxy_protocol.h` (the header is not under `src/`).  Their values are
fixed by the `errors[]` table in `proxy_protocol.c`, which `pp_strerror`
indexes as `errors[-error]`, so each named constant is the positive index
of its message, negated at return sites. -/
def ERR_NULL : Int := 0
def ERR_PP_VERSION : Int := 1
def ERR_PP2_SIG : Int := 2
def ERR_PP2_VERSION : Int := 3
def ERR_PP2_CMD : Int := 4
def ERR_PP2_ADDR_FAMILY : Int := 5
def ERR_PP2_TRANSPORT_PROTOCOL : Int := 6
def ERR_PP2_LENGTH : Int := 7
def ERR_PP2_IPV4_SRC_IP : Int := 8
def ERR_PP2_IPV4_DST_IP : Int := 9
def ERR_PP2_IPV6_SRC_IP : Int := 10
def ERR_PP2_IPV6_DST_IP : Int := 11
def ERR_PP2_TLV_LENGTH : Int := 12
def ERR_PP2_TYPE_CRC32C : Int := 13
def ERR_PP2_TYPE_SSL : Int := 14
def ERR_PP2_TYPE_UNIQUE_ID : Int := 15
def ERR_PP2_TYPE_AWS : Int := 16
def ERR_PP2_TYPE_AZURE : Int := 17
def ERR_PP1_CRLF : Int := 18
def ERR_PP1_PROXY : Int := 19
def ERR_PP1_SPACE : Int := 20
def ERR_PP1_TRANSPORT_FAMILY : Int := 21
def ERR_PP1_IPV4_SRC_IP : Int := 22
def ERR_PP1_IPV4_DST_IP : Int := 23
def ERR_PP1_IPV6_SRC_IP : Int := 24
def ERR_PP1_IPV6_DST_IP : Int := 25
def ERR_PP1_SRC_PORT : Int := 26
def ERR_PP1_DST_PORT : Int := 27
def ERR_HEAP_ALLOC : Int := 28

/-- Modelled from the spec: address-family enum of `proxy_protocol.h`
(wire encoding, spec section 3). -/
def ADDR_FAMILY_UNSPEC : Nat := 0
def ADDR_FAMILY_INET : Nat := 1
def ADDR_FAMILY_INET6 : Nat := 2
def ADDR_FAMILY_UNIX : Nat := 3

/-- Modelled from the spec: transport-protocol enum of `proxy_protocol.h`
(wire encoding, spec section 3). -/
def TRANSPORT_PROTOCOL_UNSPEC : Nat := 0
def TRANSPORT_PROTOCOL_STREAM : Nat := 1
def TRANSPORT_PROTOCOL_DGRAM : Nat := 2

/-- TLV type constants from `proxy_protocol.c`. -/
def PP2_TYPE_ALPN : Nat := 0x01
def PP2_TYPE_AUTHORITY : Nat := 0x02
def PP2_TYPE_CRC32C : Nat := 0x03
def PP2_TYPE_NOOP : Nat := 0x04
def PP2_TYPE_UNIQUE_ID : Nat := 0x05
def PP2_TYPE_SSL : Nat := 0x20
def PP2_SUBTYPE_SSL_VERSION : Nat := 0x21
def PP2_SUBTYPE_SSL_CN : Nat := 0x22
def PP2_SUBTYPE_SSL_CIPHER : Nat := 0x23
def PP2_SUBTYPE_SSL_SIG_ALG : Nat := 0x24
def PP2_SUBTYPE_SSL_KEY_ALG : Nat := 0x25
def PP2_TYPE_NETNS : Nat := 0x30
def PP2_TYPE_AWS : Nat := 0xEA
def PP2_TYPE_AZURE : Nat := 0xEE
def PP2_SUBTYPE_AWS_VPCE_ID : Nat := 0x01
def PP2_SUBTYPE_AZURE_PRIVATEENDPOINT_LINKID : Nat := 0x01

/-- The 12-byte v2 signature PP2_SIG. -/
def pp2_sig : List Nat := [0x0D, 0x0A, 0x0D, 0x0A, 0x00, 0x0D, 0x0A, 0x51, 0x55, 0x49, 0x54, 0x0A]

/-- ASCII bytes of a string literal (used for the v1 tokens). -/
def strBytes (s : String) : List Nat := s.data.map Char.toNat

/-- Big-endian 16-bit write (htons followed by memcpy of the two bytes). -/
def be16 (n : Nat) : List Nat := [n / 256 % 256, n % 256]

/-- Big-endian 16-bit read of two stored octets (value_hi << 8 | value_lo). -/
def rd16 (hi lo : Nat) : Nat := hi % 256 * 256 + lo % 256

/-- Little-endian (host layout) bytes of a `uint32_t` value. -/
def le32 (n : Nat) : List Nat := [n % 256, n / 256 % 256, n / 65536 % 256, n / 16777216 % 256]

/-- Little-endian (host layout) read of a `uint32_t` from 4 stored octets. -/
def rdle32 (b0 b1 b2 b3 : Nat) : Nat :=
  b0 % 256 + b1 % 256 * 256 + b2 % 256 * 65536 + b3 % 256 * 16777216

/-- A C string read: the bytes of a `char` array up to the first NUL. -/
def cstr (l : List Nat) : List Nat := l.takeWhile (· ≠ 0)

/-- memcpy of `src` onto the front of array `dst` (the tail of `dst` is kept). -/
def memcpyFront (dst src : List Nat) : List Nat := src ++ dst.drop src.length

/-- inet_ntop-style store: the text plus its NUL terminator written onto the
front of the destination array. -/
def storeCStr (dst text : List Nat) : List Nat := memcpyFront dst (text ++ [0])

/-- The content of a `char[108]` field holding the list `l` (zero padded). -/
def arr108 (l : List Nat) : List Nat := List.takeD 108 l 0

/-- memset of `n` zero bytes at offset `off` (writes past the end are dropped,
they model out-of-bounds stores which no verified path performs in bounds). -/
def memsetZero (l : List Nat) (off n : Nat) : List Nat :=
  (List.range n).foldl (fun acc i => acc.set (off + i) 0) l

/-! ## Data model (`pp_info_t` and friends)

Modelled from the spec: the record layout of `pp_info_t`, `pp2_info_t`,
`pp2_ssl_info_t` and `tlv_array_t` lives in `proxy_protocol.h`, which is
not under `src/`; the fields below are exactly the ones the source file
reads and writes (spec section 3).  The TLV array is modelled as a list
(the capacity-doubling of `tlv_array_t` is not observable).  A stored TLV
keeps the split big-endian length bytes of `struct _pp2_tlv_t`. -/

structure pp2_tlv_t where
  type : Nat
  length_hi : Nat
  length_lo : Nat
  value : List Nat
deriving DecidableEq, Repr

/-- The declared length of a stored TLV (length_hi << 8 | length_lo). -/
def pp2_tlv_t.len (t : pp2_tlv_t) : Nat := rd16 t.length_hi t.length_lo

structure pp2_ssl_info_t where
  ssl : Nat
  cert_in_connection : Nat
  cert_in_session : Nat
  cert_verified : Nat
deriving DecidableEq, Repr

structure pp2_info_t where
  /-- the field is called local in the source; that word is reserved in Lean -/
  local_flag : Nat
  crc32c : Nat
  alignment_power : Nat
  pp2_ssl_info : pp2_ssl_info_t
  tlv_array : List pp2_tlv_t
deriving DecidableEq, Repr

structure pp_info_t where
  address_family : Nat
  transport_protocol : Nat
  src_addr : List Nat
  dst_addr : List Nat
  src_port : Nat
  dst_port : Nat
  pp2_info : pp2_info_t
deriving DecidableEq, Repr

def zero_ssl_info : pp2_ssl_info_t := ⟨0, 0, 0, 0⟩

def zero_pp2_info : pp2_info_t := ⟨0, 0, 0, zero_ssl_info, []⟩

/-- The all-zero `pp_info_t` produced by `memset(pp_info, 0, sizeof(*pp_info))`. -/
def zero_pp_info : pp_info_t :=
  ⟨0, 0, List.replicate 108 0, List.replicate 108 0, 0, 0, zero_pp2_info⟩

/-! ## TLV construction (tlv_new and the append helpers) -/

/-- `tlv_new`: allocate a TLV record with the given type, 16-bit length and
`length` bytes copied from `value` (missing source bytes read as 0,
modelling the out-of-bounds reads the source can perform). -/
def tlv_new (ty length : Nat) (value : List Nat) : pp2_tlv_t :=
  let len := length % 65536
  { type := ty % 256
    length_hi := len / 256
    length_lo := len % 256
    value := List.takeD len (value.map (· % 256)) 0 }

/-- `tlv_array_append_tlv_new` (allocation modelled as succeeding). -/
def tlv_array_append_tlv_new (arr : List pp2_tlv_t) (ty length : Nat) (value : List Nat) :
    List pp2_tlv_t :=
  arr ++ [tlv_new ty length value]

/-- `tlv_array_append_tlv_new_usascii`: stores length+1 bytes and NUL-terminates. -/
def tlv_array_append_tlv_new_usascii (arr : List pp2_tlv_t) (ty length : Nat)
    (value : List Nat) : List pp2_tlv_t :=
  let t := tlv_new ty (length + 1) value
  arr ++ [{ t with value := t.value.set (length % 65536) 0 }]

/-- Append a TLV to the record's array (the common parse/builder action). -/
def info_append_tlv (pp_info : pp_info_t) (ty length : Nat) (value : List Nat) : pp_info_t :=
  { pp_info with pp2_info.tlv_array :=
      (tlv_array_append_tlv_new pp_info.pp2_info.tlv_array ty length value) }

/-- Append a NUL-terminated TLV to the record's array. -/
def info_append_tlv_usascii (pp_info : pp_info_t) (ty length : Nat) (value : List Nat) :
    pp_info_t :=
  { pp_info with pp2_info.tlv_array :=
      (tlv_array_append_tlv_new_usascii pp_info.pp2_info.tlv_array ty length value) }

/-- Set the crc32c presence flag. -/
def info_set_crc (pp_info : pp_info_t) : pp_info_t :=
  { pp_info with pp2_info.crc32c := 1 }

/-- Store the SSL flags. -/
def info_set_ssl (pp_info : pp_info_t) (s : pp2_ssl_info_t) : pp_info_t :=
  { pp_info with pp2_info.pp2_ssl_info := s }

/-- Store the parsed local flag. -/
def info_set_local (pp_info : pp_info_t) (v : Nat) : pp_info_t :=
  { pp_info with pp2_info.local_flag := v }

/-- Store the parsed address family. -/
def info_set_af (pp_info : pp_info_t) (v : Nat) : pp_info_t :=
  { pp_info with address_family := v }

/-- Store the parsed transport protocol. -/
def info_set_tp (pp_info : pp_info_t) (v : Nat) : pp_info_t :=
  { pp_info with transport_protocol := v }

/-- Store both endpoint texts (inet_ntop writes, NUL-terminated) and ports. -/
def info_store_endpoints (pp_info : pp_info_t) (src dst : List Nat) (sp dp : Nat) :
    pp_info_t :=
  { pp_info with
    src_addr := storeCStr pp_info.src_addr src,
    dst_addr := storeCStr pp_info.dst_addr dst,
    src_port := sp,
    dst_port := dp }

/-- Copy both 108-byte Unix path fields verbatim. -/
def info_copy_unix (pp_info : pp_info_t) (src dst : List Nat) : pp_info_t :=
  { pp_info with
    src_addr := memcpyFront pp_info.src_addr src,
    dst_addr := memcpyFront pp_info.dst_addr dst }

/-- Store the parsed v1 family and protocol. -/
def info_set_family (pp_info : pp_info_t) (af tp : Nat) : pp_info_t :=
  { pp_info with address_family := af, transport_protocol := tp }

/-- memcpy a v1 address token onto the source-address array. -/
def info_copy_src (pp_info : pp_info_t) (l : List Nat) : pp_info_t :=
  { pp_info with src_addr := memcpyFront pp_info.src_addr l }

/-- memcpy a v1 address token onto the destination-address array. -/
def info_copy_dst (pp_info : pp_info_t) (l : List Nat) : pp_info_t :=
  { pp_info with dst_addr := memcpyFront pp_info.dst_addr l }

/-- Store a parsed source port. -/
def info_set_src_port (pp_info : pp_info_t) (v : Nat) : pp_info_t :=
  { pp_info with src_port := v }

/-- Store a parsed destination port. -/
def info_set_dst_port (pp_info : pp_info_t) (v : Nat) : pp_info_t :=
  { pp_info with dst_port := v }

/-! ## Builder operations -/

def pp_info_add_alpn (pp_info : pp_info_t) (length : Nat) (alpn : List Nat) : pp_info_t :=
  { pp_info with pp2_info.tlv_array :=
      tlv_array_append_tlv_new pp_info.pp2_info.tlv_array PP2_TYPE_ALPN length alpn }

def pp_info_add_authority (pp_info : pp_info_t) (length : Nat) (host_name : List Nat) :
    pp_info_t :=
  { pp_info with pp2_info.tlv_array :=
      tlv_array_append_tlv_new pp_info.pp2_info.tlv_array PP2_TYPE_AUTHORITY length host_name }

/-- `pp_info_add_unique_id`; returns none (failure, info unchanged) for length > 128. -/
def pp_info_add_unique_id (pp_info : pp_info_t) (length : Nat) (unique_id : List Nat) :
    Option pp_info_t :=
  if length > 128 then none
  else some { pp_info with pp2_info.tlv_array :=
      tlv_array_append_tlv_new pp_info.pp2_info.tlv_array PP2_TYPE_UNIQUE_ID length unique_id }

/-- `pp_info_add_subtype_ssl`: the bytes a non-empty sub-field contributes to
the composed SSL value (empty or NULL sub-fields contribute nothing). -/
def ssl_subtype_bytes (subtype_ssl : Nat) (length : Nat) (v : Option (List Nat)) : List Nat :=
  match v with
  | none => []
  | some s =>
    if length = 0 then []
    else subtype_ssl :: (length % 65536) / 256 :: (length % 65536) % 256 ::
      (List.takeD length (s.map (· % 256)) 0)

/-- The composed value of `pp_info_add_ssl` before it is wrapped in the SSL
TLV: client byte, verify word, then the non-empty sub-TLVs.  Note the client
byte of the source derives both bit 1 and bit 2 from cert_in_connection. -/
def pp_info_add_ssl_value (s : pp2_ssl_info_t) (version cipher sig_alg key_alg : Option (List Nat))
    (cn : Option (List Nat)) (cn_value_len : Nat) : List Nat :=
  let client := (s.ssl % 256 |||
    (s.cert_in_connection % 256) <<< 1 ||| (s.cert_in_connection % 256) <<< 2) % 256
  let verify : Nat := if s.cert_verified % 256 = 0 then 1 else 0
  client :: (le32 verify
    ++ ssl_subtype_bytes PP2_SUBTYPE_SSL_VERSION ((version.getD []).length % 65536) version
    ++ ssl_subtype_bytes PP2_SUBTYPE_SSL_CIPHER ((cipher.getD []).length % 65536) cipher
    ++ ssl_subtype_bytes PP2_SUBTYPE_SSL_SIG_ALG ((sig_alg.getD []).length % 65536) sig_alg
    ++ ssl_subtype_bytes PP2_SUBTYPE_SSL_KEY_ALG ((key_alg.getD []).length % 65536) key_alg
    ++ ssl_subtype_bytes PP2_SUBTYPE_SSL_CN cn_value_len cn)

/-- `pp_info_add_ssl`.  The declared length counts a 3-byte header for all
five sub-fields even when some are skipped; the tail of the malloc-ed
value buffer then stays uninitialised (modelled as zero bytes, via the
padding in `tlv_new`).  Returns none when the total exceeds 65535. -/
def pp_info_add_ssl (pp_info : pp_info_t) (version cipher sig_alg key_alg : Option (List Nat))
    (cn : Option (List Nat)) (cn_value_len : Nat) : Option pp_info_t :=
  let length := 1 + 4
    + 3 + (version.getD []).length
    + 3 + (cipher.getD []).length
    + 3 + (sig_alg.getD []).length
    + 3 + (key_alg.getD []).length
    + 3 + cn_value_len
  if length > 65535 then none
  else some { pp_info with pp2_info.tlv_array :=
    (tlv_array_append_tlv_new pp_info.pp2_info.tlv_array PP2_TYPE_SSL length
      (pp_info_add_ssl_value pp_info.pp2_info.pp2_ssl_info version cipher sig_alg key_alg
        cn cn_value_len)) }

def pp_info_add_netns (pp_info : pp_info_t) (netns : List Nat) : pp_info_t :=
  { pp_info with pp2_info.tlv_array :=
      tlv_array_append_tlv_new pp_info.pp2_info.tlv_array PP2_TYPE_NETNS netns.length netns }

def pp_info_add_aws_vpce_id (pp_info : pp_info_t) (vpce_id : List Nat) : pp_info_t :=
  { pp_info with pp2_info.tlv_array :=
      (tlv_array_append_tlv_new pp_info.pp2_info.tlv_array PP2_TYPE_AWS
        ((1 + vpce_id.length) % 65536) (PP2_SUBTYPE_AWS_VPCE_ID :: vpce_id)) }

def pp_info_add_azure_linkid (pp_info : pp_info_t) (linkid : Nat) : pp_info_t :=
  { pp_info with pp2_info.tlv_array :=
      (tlv_array_append_tlv_new pp_info.pp2_info.tlv_array PP2_TYPE_AZURE 5
        (PP2_SUBTYPE_AZURE_PRIVATEENDPOINT_LINKID :: le32 linkid)) }

/-! ## Getter operations -/

/-- The loop body of `pp_info_get_tlv_value` over the TLV array: the scan
stops at the first TLV whose type matches; `*length` has already been set
to that TLV's length when the optional subtype comparison fails, and the
decrement of `*length` is a `uint16_t` wrap-around decrement. -/
def get_tlv_value_loop (tlvs : List pp2_tlv_t) (ty subtype : Nat) : Option (List Nat) × Nat :=
  match tlvs with
  | [] => (none, 0)
  | t :: rest =>
    if t.type = ty then
      let length := t.len
      if subtype > 0 then
        if t.value.getD 0 0 = subtype then (some (t.value.drop 1), (length + 65535) % 65536)
        else (none, length)
      else (some t.value, length)
    else get_tlv_value_loop rest ty subtype

/-- `pp_info_get_tlv_value`: the returned pointer is modelled as the suffix
of the stored value it points into, paired with the output length. -/
def pp_info_get_tlv_value (pp_info : pp_info_t) (ty subtype : Nat) : Option (List Nat) × Nat :=
  get_tlv_value_loop pp_info.pp2_info.tlv_array ty subtype

def pp_info_get_alpn (pp_info : pp_info_t) : Option (List Nat) × Nat :=
  pp_info_get_tlv_value pp_info PP2_TYPE_ALPN 0

def pp_info_get_authority (pp_info : pp_info_t) : Option (List Nat) × Nat :=
  pp_info_get_tlv_value pp_info PP2_TYPE_AUTHORITY 0

def pp_info_get_crc32c (pp_info : pp_info_t) : Option (List Nat) × Nat :=
  pp_info_get_tlv_value pp_info PP2_TYPE_CRC32C 0

def pp_info_get_unique_id (pp_info : pp_info_t) : Option (List Nat) × Nat :=
  pp_info_get_tlv_value pp_info PP2_TYPE_UNIQUE_ID 0

def pp_info_get_ssl_version (pp_info : pp_info_t) : Option (List Nat) × Nat :=
  pp_info_get_tlv_value pp_info PP2_SUBTYPE_SSL_VERSION 0

def pp_info_get_ssl_cn (pp_info : pp_info_t) : Option (List Nat) × Nat :=
  pp_info_get_tlv_value pp_info PP2_SUBTYPE_SSL_CN 0

def pp_info_get_ssl_cipher (pp_info : pp_info_t) : Option (List Nat) × Nat :=
  pp_info_get_tlv_value pp_info PP2_SUBTYPE_SSL_CIPHER 0

def pp_info_get_ssl_sig_alg (pp_info : pp_info_t) : Option (List Nat) × Nat :=
  pp_info_get_tlv_value pp_info PP2_SUBTYPE_SSL_SIG_ALG 0

def pp_info_get_ssl_key_alg (pp_info : pp_info_t) : Option (List Nat) × Nat :=
  pp_info_get_tlv_value pp_info PP2_SUBTYPE_SSL_KEY_ALG 0

def pp_info_get_netns (pp_info : pp_info_t) : Option (List Nat) × Nat :=
  pp_info_get_tlv_value pp_info PP2_TYPE_NETNS 0

def pp_info_get_aws_vpce_id (pp_info : pp_info_t) : Option (List Nat) × Nat :=
  pp_info_get_tlv_value pp_info PP2_TYPE_AWS PP2_SUBTYPE_AWS_VPCE_ID

def pp_info_get_azure_linkid (pp_info : pp_info_t) : Option (List Nat) × Nat :=
  pp_info_get_tlv_value pp_info PP2_TYPE_AZURE PP2_SUBTYPE_AZURE_PRIVATEENDPOINT_LINKID

/-! ## CRC32c (Castagnoli), table-driven exactly as in the source -/

/-- The 256-entry Rocksoft-generated lookup table from `proxy_protocol.c`. -/
def crctable : List Nat := [
  0x00000000, 0xF26B8303, 0xE13B70F7, 0x1350F3F4,
  0xC79A971F, 0x35F1141C, 0x26A1E7E8, 0xD4CA64EB,
  0x8AD958CF, 0x78B2DBCC, 0x6BE22838, 0x9989AB3B,
  0x4D43CFD0, 0xBF284CD3, 0xAC78BF27, 0x5E133C24,
  0x105EC76F, 0xE235446C, 0xF165B798, 0x030E349B,
  0xD7C45070, 0x25AFD373, 0x36FF2087, 0xC494A384,
  0x9A879FA0, 0x68EC1CA3, 0x7BBCEF57, 0x89D76C54,
  0x5D1D08BF, 0xAF768BBC, 0xBC267848, 0x4E4DFB4B,
  0x20BD8EDE, 0xD2D60DDD, 0xC186FE29, 0x33ED7D2A,
  0xE72719C1, 0x154C9AC2, 0x061C6936, 0xF477EA35,
  0xAA64D611, 0x580F5512, 0x4B5FA6E6, 0xB93425E5,
  0x6DFE410E, 0x9F95C20D, 0x8CC531F9, 0x7EAEB2FA,
  0x30E349B1, 0xC288CAB2, 0xD1D83946, 0x23B3BA45,
  0xF779DEAE, 0x05125DAD, 0x1642AE59, 0xE4292D5A,
  0xBA3A117E, 0x4851927D, 0x5B016189, 0xA96AE28A,
  0x7DA08661, 0x8FCB0562, 0x9C9BF696, 0x6EF07595,
  0x417B1DBC, 0xB3109EBF, 0xA0406D4B, 0x522BEE48,
  0x86E18AA3, 0x748A09A0, 0x67DAFA54, 0x95B17957,
  0xCBA24573, 0x39C9C670, 0x2A993584, 0xD8F2B687,
  0x0C38D26C, 0xFE53516F, 0xED03A29B, 0x1F682198,
  0x5125DAD3, 0xA34E59D0, 0xB01EAA24, 0x42752927,
  0x96BF4DCC, 0x64D4CECF, 0x77843D3B, 0x85EFBE38,
  0xDBFC821C, 0x2997011F, 0x3AC7F2EB, 0xC8AC71E8,
  0x1C661503, 0xEE0D9600, 0xFD5D65F4, 0x0F36E6F7,
  0x61C69362, 0x93AD1061, 0x80FDE395, 0x72966096,
  0xA65C047D, 0x5437877E, 0x4767748A, 0xB50CF789,
  0xEB1FCBAD, 0x197448AE, 0x0A24BB5A, 0xF84F3859,
  0x2C855CB2, 0xDEEEDFB1, 0xCDBE2C45, 0x3FD5AF46,
  0x7198540D, 0x83F3D70E, 0x90A324FA, 0x62C8A7F9,
  0xB602C312, 0x44694011, 0x5739B3E5, 0xA55230E6,
  0xFB410CC2, 0x092A8FC1, 0x1A7A7C35, 0xE811FF36,
  0x3CDB9BDD, 0xCEB018DE, 0xDDE0EB2A, 0x2F8B6829,
  0x82F63B78, 0x709DB87B, 0x63CD4B8F, 0x91A6C88C,
  0x456CAC67, 0xB7072F64, 0xA457DC90, 0x563C5F93,
  0x082F63B7, 0xFA44E0B4, 0xE9141340, 0x1B7F9043,
  0xCFB5F4A8, 0x3DDE77AB, 0x2E8E845F, 0xDCE5075C,
  0x92A8FC17, 0x60C37F14, 0x73938CE0, 0x81F80FE3,
  0x55326B08, 0xA759E80B, 0xB4091BFF, 0x466298FC,
  0x1871A4D8, 0xEA1A27DB, 0xF94AD42F, 0x0B21572C,
  0xDFEB33C7, 0x2D80B0C4, 0x3ED04330, 0xCCBBC033,
  0xA24BB5A6, 0x502036A5, 0x4370C551, 0xB11B4652,
  0x65D122B9, 0x97BAA1BA, 0x84EA524E, 0x7681D14D,
  0x2892ED69, 0xDAF96E6A, 0xC9A99D9E, 0x3BC21E9D,
  0xEF087A76, 0x1D63F975, 0x0E330A81, 0xFC588982,
  0xB21572C9, 0x407EF1CA, 0x532E023E, 0xA145813D,
  0x758FE5D6, 0x87E466D5, 0x94B49521, 0x66DF1622,
  0x38CC2A06, 0xCAA7A905, 0xD9F75AF1, 0x2B9CD9F2,
  0xFF56BD19, 0x0D3D3E1A, 0x1E6DCDEE, 0xEC064EED,
  0xC38D26C4, 0x31E6A5C7, 0x22B65633, 0xD0DDD530,
  0x0417B1DB, 0xF67C32D8, 0xE52CC12C, 0x1747422F,
  0x49547E0B, 0xBB3FFD08, 0xA86F0EFC, 0x5A048DFF,
  0x8ECEE914, 0x7CA56A17, 0x6FF599E3, 0x9D9E1AE0,
  0xD3D3E1AB, 0x21B862A8, 0x32E8915C, 0xC083125F,
  0x144976B4, 0xE622F5B7, 0xF5720643, 0x07198540,
  0x590AB964, 0xAB613A67, 0xB831C993, 0x4A5A4A90,
  0x9E902E7B, 0x6CFBAD78, 0x7FAB5E8C, 0x8DC0DD8F,
  0xE330A81A, 0x115B2B19, 0x020BD8ED, 0xF0605BEE,
  0x24AA3F05, 0xD6C1BC06, 0xC5914FF2, 0x37FACCF1,
  0x69E9F0D5, 0x9B8273D6, 0x88D28022, 0x7AB90321,
  0xAE7367CA, 0x5C18E4C9, 0x4F48173D, 0xBD23943E,
  0xF36E6F75, 0x0105EC76, 0x12551F82, 0xE03E9C81,
  0x34F4F86A, 0xC69F7B69, 0xD5CF889D, 0x27A40B9E,
  0x79B737BA, 0x8BDCB4B9, 0x988C474D, 0x6AE7C44E,
  0xBE2DA0A5, 0x4C4623A6, 0x5F16D052, 0xAD7D5351]

/-- The 256 table entries packed into one numeral, entry i occupying bits
32*i to 32*i+31: a kernel-reduction-friendly encoding of `crctable`
(`crctable_packed_spec` below proves the two agree entry by entry). -/
def crctable_packed : Nat := 739192992287711479272199505450802174180944935565270117958735211195864883404034321072575759094604862722103638970562105654534965976895685875045062592379112792078985738769595739548904202597956689934399229134939183684703714920378025961387270778473281346239181994539903784708069763525514523240966634758967547723819948093640238732618841930738396489733218495472825776362786651876001733504161834172818020394346043168775838788836904094212573134772649703407841545716218812283123984658267516726659948613643534969466376019494666614718815429190684246327365394372519258139400530706807260825564948901732507176286259752944669944548605679086391305931301222988237278526118373278492307487107474296386730408839343753629123128283572704772544098648517013212824233746728729854273945055038163572363387039908578405517982904131040319505009390255243990278860523606265815895619710957563380635837315129012976704357344131429050367435482781212454439427280336740616644805562249867251859340971513883299426874200217165290071196282711253218164865174241416073419876796213293517950780480733835793334181716730049909888366296838117288969681076010175182486226749959458237712061794030512295298309798453151350168298336411933176330063767835252143862258384197256040876755067274410026075604127347481305827849130625987059819492849891529288490451730106428376839488665315100810248841715739596040091270955624355315201462555945279029196416991040143682248153287045556144390819759753283690710943841433520922330785319143598322120010359670046292912296136999474302691355293324886616216537430761212949134977443278613456733727644009057088654822989287437792990360527449046917776586498554113667460252688333953726837853077886002223252717428049737186417130969568838070377296274375688487884511950345697105344492065413654582468965021167618282726469469929715764674333614324035309623813703284835732759643444816186743644084768553800456975483023122915759126937036001171360984116527371042249105866775992680472790331893395027602898497596949565462107432141452181910127216554936352241472142685417685618824675396402282974391037184848625305334079832924861339728594832024687877422901193159812755254516361032103358958860399075665489958680801135040793967932263797765198140728704255468134266160630916650637156666977854355604551105352627939572551570066195951258251545213658746024110892771407706843609824354401912642345941057507434795836161327506684973593222243082074173577446865175872619707633030268690896528048779238513612740446475572226293760

/-- Table lookup, through the packed encoding. -/
def crctable_at (i : Nat) : Nat := crctable_packed >>> (32 * i) % 4294967296

/-- One step of the CRC32c loop: crc = (crc >> 8) ^ table[(crc ^ byte) & 0xFF]. -/
def crc32c_step (crc b : Nat) : Nat :=
  (crc >>> 8) ^^^ crctable_at ((crc ^^^ b % 256) % 256)

/-- `crc32c(buf, len)`: reflected Castagnoli CRC, init and final xor 0xffffffff. -/
def crc32c (buf : List Nat) : Nat :=
  (buf.foldl crc32c_step 0xffffffff) ^^^ 0xffffffff

/-! ## libc text conversion models (inet_pton / inet_ntop)

These model the glibc behaviour the source calls into; they are part of
the environment, not of the repository. -/

/-- Is an ASCII decimal digit. -/
def isDigitB (c : Nat) : Bool := 48 ≤ c && c ≤ 57

/-- The decimal digits (ASCII) of an octet value 0..255. -/
def dec_digits (n : Nat) : List Nat :=
  if n < 10 then [48 + n]
  else if n < 100 then [48 + n / 10, 48 + n % 10]
  else [48 + n / 100, 48 + n / 10 % 10, 48 + n % 10]

/-- A dotted-quad octet token: 1..3 decimal digits, value at most 255, no
leading zero (glibc inet_pton rejects a zero digit that starts a longer
token). -/
def dec_octet (s : List Nat) : Option Nat :=
  match s with
  | [d] => if isDigitB d then some (d - 48) else none
  | [d1, d2] =>
    if 49 ≤ d1 && d1 ≤ 57 && isDigitB d2 then some ((d1 - 48) * 10 + (d2 - 48)) else none
  | [d1, d2, d3] =>
    if 49 ≤ d1 && d1 ≤ 57 && isDigitB d2 && isDigitB d3 &&
        (d1 - 48) * 100 + (d2 - 48) * 10 + (d3 - 48) ≤ 255 then
      some ((d1 - 48) * 100 + (d2 - 48) * 10 + (d3 - 48))
    else none
  | _ => none

/-- Split a byte list on a separator byte (the groups between occurrences). -/
def split_on_byte (c : Nat) : List Nat → List (List Nat)
  | [] => [[]]
  | x :: xs =>
    if x = c then [] :: split_on_byte c xs
    else
      match split_on_byte c xs with
      | [] => [[x]]
      | g :: gs => (x :: g) :: gs

/-- inet_pton for AF_INET: exactly four dot-separated octet tokens; the
result is the four address bytes in network order. -/
def inet_pton4 (s : List Nat) : Option (List Nat) :=
  match split_on_byte 46 s with
  | [a, b, c, d] => do
    let va ← dec_octet a
    let vb ← dec_octet b
    let vc ← dec_octet c
    let vd ← dec_octet d
    pure [va, vb, vc, vd]
  | _ => none

/-- inet_ntop for AF_INET: canonical dotted-quad text of 4 address bytes. -/
def inet_ntop4 (b : List Nat) : List Nat :=
  dec_digits (b.getD 0 0 % 256) ++ 46 :: dec_digits (b.getD 1 0 % 256) ++
    46 :: dec_digits (b.getD 2 0 % 256) ++ 46 :: dec_digits (b.getD 3 0 % 256)

/-- Hexadecimal digit value of an ASCII byte. -/
def hex_val (c : Nat) : Option Nat :=
  if 48 ≤ c ∧ c ≤ 57 then some (c - 48)
  else if 97 ≤ c ∧ c ≤ 102 then some (c - 97 + 10)
  else if 65 ≤ c ∧ c ≤ 70 then some (c - 65 + 10)
  else none

/-- A 16-bit group token of an IPv6 address: 1..4 hex digits. -/
def hex_group (s : List Nat) : Option Nat :=
  if s.length = 0 ∨ s.length > 4 then none
  else s.foldlM (fun acc c => (hex_val c).map (fun v => acc * 16 + v)) 0

/-- 16-bit words to their big-endian byte list. -/
def words_to_bytes (ws : List Nat) : List Nat :=
  ws.flatMap (fun w => [w / 256 % 256, w % 256])

/-- Parse the group tokens of one side of an IPv6 address; the last token
may be a dotted-quad (v4-mapped tail), contributing two words. -/
def pton6_groups : List (List Nat) → Option (List Nat)
  | [] => some []
  | [g] =>
    match hex_group g with
    | some w => some [w]
    | none =>
      match inet_pton4 g with
      | some [a, b, c, d] => some [a * 256 + b, c * 256 + d]
      | _ => none
  | g :: gs => do
    let w ← hex_group g
    let ws ← pton6_groups gs
    pure (w :: ws)

/-- inet_pton for AF_INET6: colon-separated hex groups with at most one
double-colon compression and an optional dotted-quad tail; result is the
16 address bytes. -/
def inet_pton6 (s : List Nat) : Option (List Nat) :=
  let gs : List (List Nat) := split_on_byte 58 s
  -- a double colon shows up as an empty group in the middle, or two empty
  -- groups at an end ("::a" splits to ["","","a"]), or three for "::"
  let emptyCount := (gs.filter (·.isEmpty)).length
  if emptyCount = 0 then
    match pton6_groups gs with
    | some ws => if ws.length = 8 then some (words_to_bytes ws) else none
    | none => none
  else
    -- normalise the end forms to a single interior hole
    let gs' : Option (List (List Nat)) :=
      match gs with
      | [] :: [] :: [] :: [] => some [[], []] -- "::" alone
      | [] :: [] :: rest => if rest.all (fun g => ¬ g.isEmpty) then some ([] :: rest) else none
      | _ =>
        match gs.reverse with
        | [] :: [] :: rest =>
          if rest.all (fun g => ¬ g.isEmpty) then some (rest.reverse ++ [[]]) else none
        | _ => if (gs.filter (·.isEmpty)).length = 1 then some gs else none
    match gs' with
    | none => none
    | some gs'' =>
      let left := gs''.takeWhile (fun g => ¬ g.isEmpty)
      let right := (gs''.dropWhile (fun g => ¬ g.isEmpty)).drop 1
      if right.any (·.isEmpty) then none
      else
        match pton6_groups left, pton6_groups right with
        | some lw, some rw =>
          if lw.length + rw.length ≤ 7 then
            some (words_to_bytes (lw ++ List.replicate (8 - lw.length - rw.length) 0 ++ rw))
          else none
        | _, _ => none

/-- The lowercase hex digits (ASCII) of a 16-bit word, no leading zeros. -/
def hex_digits (n : Nat) : List Nat :=
  let d := fun (k : Nat) => if k < 10 then 48 + k else 87 + k
  if n < 16 then [d n]
  else if n < 256 then [d (n / 16), d (n % 16)]
  else if n < 4096 then [d (n / 256), d (n / 16 % 16), d (n % 16)]
  else [d (n / 4096), d (n / 256 % 16), d (n / 16 % 16), d (n % 16)]

/-- The longest run of zero words (start, length), leftmost-best, runs of
length 1 not considered (glibc inet_ntop6). -/
def best_zero_run (ws : List Nat) : Nat × Nat :=
  let rec go (i cs cl bs bl : Nat) (l : List Nat) : Nat × Nat :=
    match l with
    | [] => if cl > bl then (cs, cl) else (bs, bl)
    | w :: rest =>
      if w = 0 then
        let cs' := if cl = 0 then i else cs
        go (i + 1) cs' (cl + 1) bs bl rest
      else if cl > bl then go (i + 1) 0 0 cs cl rest
      else go (i + 1) 0 0 bs bl rest
  let (s, l) := go 0 0 0 0 0 ws
  if l ≥ 2 then (s, l) else (0, 0)

/-- inet_ntop for AF_INET6 (glibc shape): hex groups, best zero run
compressed with a double colon, v4-style tail for v4-compatible and
v4-mapped addresses. -/
def inet_ntop6 (b : List Nat) : List Nat :=
  let ws := (List.range 8).map (fun i => (b.getD (2 * i) 0 % 256) * 256 + b.getD (2 * i + 1) 0 % 256)
  let (bs, bl) := best_zero_run ws
  let v4tail : Bool := bs = 0 ∧ (bl = 6 ∨ (bl = 7 ∧ ws.getD 7 0 ≠ 1) ∨ (bl = 5 ∧ ws.getD 5 0 = 0xffff))
  if v4tail then
    (if bl = 5 then strBytes "::ffff:" else strBytes "::") ++
      inet_ntop4 (b.drop 12)
  else if bl = 0 then
    List.intercalate [58] (ws.map hex_digits)
  else
    List.intercalate [58] ((ws.take bs).map hex_digits) ++ [58, 58] ++
      List.intercalate [58] ((ws.drop (bs + bl)).map hex_digits)

/-! ## v2 serializer (pp2_create_hdr) -/

/-- The wire bytes of a stored TLV: the serializer memcpy-s
`sizeof_pp2_tlv_t + declared length` bytes starting at the record header
(3 header bytes then the value; missing bytes read as 0). -/
def tlv_wire (t : pp2_tlv_t) : List Nat :=
  List.takeD ((3 + t.len) % 65536)
    (t.type % 256 :: t.length_hi % 256 :: t.length_lo % 256 :: t.value.map (· % 256)) 0

/-- The family-dependent first phase of `pp2_create_hdr`: the `ver_cmd`
byte, the address-block bytes and `proxy_addr_len`. -/
def pp2_create_addr (pp_info : pp_info_t) : Except Int (Nat × List Nat × Nat) :=
  let af := pp_info.address_family % 256
  if af = ADDR_FAMILY_UNSPEC then
    if pp_info.pp2_info.local_flag % 256 = 0 then .error (-ERR_PP2_CMD)
    else .ok (0x20, [], 0)
  else if af = ADDR_FAMILY_INET then
    match inet_pton4 (cstr pp_info.src_addr) with
    | none => .error (-ERR_PP2_IPV4_SRC_IP)
    | some srcB =>
      match inet_pton4 (cstr pp_info.dst_addr) with
      | none => .error (-ERR_PP2_IPV4_DST_IP)
      | some dstB =>
        .ok (0x21, srcB ++ dstB ++ be16 pp_info.src_port ++ be16 pp_info.dst_port, 12)
  else if af = ADDR_FAMILY_INET6 then
    match inet_pton6 (cstr pp_info.src_addr) with
    | none => .error (-ERR_PP2_IPV6_SRC_IP)
    | some srcB =>
      match inet_pton6 (cstr pp_info.dst_addr) with
      | none => .error (-ERR_PP2_IPV6_DST_IP)
      | some dstB =>
        .ok (0x21, srcB ++ dstB ++ be16 pp_info.src_port ++ be16 pp_info.dst_port, 36)
  else if af = ADDR_FAMILY_UNIX then
    .ok (0x21, arr108 pp_info.src_addr ++ arr108 pp_info.dst_addr, 216)
  else .error (-ERR_PP2_ADDR_FAMILY)

/-- `pp2_create_hdr`: serialize a `pp_info_t` into a v2 header.  Returns
the written byte sequence together with the returned `*pp2_hdr_len`.
All `uint16_t` arithmetic of the source wraps mod 65536.  Note that the
written sequence can be longer than the returned length: when
`alignment_power > 1` but the unpadded size is already a multiple of the
alignment, the source still writes a NOOP TLV header (and the CRC TLV
after it) past the end of its `malloc(*pp2_hdr_len)` allocation. -/
def pp2_create_hdr (pp_info : pp_info_t) : Except Int (List Nat × Nat) :=
  match pp2_create_addr pp_info with
  | .error e => .error e
  | .ok (ver_cmd, addrB, proxy_addr_len) =>
    if pp_info.transport_protocol % 256 > TRANSPORT_PROTOCOL_DGRAM then
      .error (-ERR_PP2_TRANSPORT_PROTOCOL)
    else
      let fam := ((pp_info.address_family % 256) <<< 4 ||| pp_info.transport_protocol % 256) % 256
      let len0 := pp_info.pp2_info.tlv_array.foldl
        (fun acc t => (acc + (3 + t.len) % 65536) % 65536) proxy_addr_len
      let len1 := if pp_info.pp2_info.crc32c % 256 ≠ 0 then (len0 + 7) % 65536 else len0
      let hdr_len0 := (16 + len1) % 65536
      let step2 : Nat × Nat × Nat :=
        if pp_info.pp2_info.alignment_power % 256 > 1 then
          let alignment := (2 ^ (pp_info.pp2_info.alignment_power % 256)) % 65536
          if hdr_len0 % alignment ≠ 0 then
            let padded0 := ((hdr_len0 / alignment + 1) * alignment) % 65536
            let padded :=
              if (padded0 : Int) - (hdr_len0 : Int) < 3 then (padded0 + alignment) % 65536
              else padded0
            let pb := (((padded : Int) - 16 - (len1 : Int) - 3).emod 65536).toNat
            (padded, (((padded : Int) - 16).emod 65536).toNat, pb)
          else (hdr_len0, len1, 0)
        else (hdr_len0, len1, 0)
      let hdr_len := step2.1
      let len := step2.2.1
      let padding_bytes := step2.2.2
      let base := pp2_sig ++ ver_cmd :: fam :: be16 len ++ addrB ++
        (pp_info.pp2_info.tlv_array.map tlv_wire).flatten
      let withNoop :=
        if pp_info.pp2_info.alignment_power % 256 > 1 then
          base ++ PP2_TYPE_NOOP :: (padding_bytes / 256 % 256) :: (padding_bytes % 256) ::
            List.replicate padding_bytes 0
        else base
      let out :=
        if pp_info.pp2_info.crc32c % 256 ≠ 0 then
          let pre := withNoop ++ [PP2_TYPE_CRC32C, 0, 4]
          let crcval := crc32c (List.takeD hdr_len (pre ++ [0, 0, 0, 0]) 0)
          pre ++ le32 crcval
        else withNoop
      .ok (out, hdr_len)

/-! ## v2 parser (pp2_parse_hdr) -/

/-- Totalisation sentinel: the corresponding C loop never terminates (its
`uint16_t` offset arithmetic wrapped).  Returned in place of an error code
on executions the C program cannot complete; no verified property and no
real error code uses this value. -/
def ERR_MODEL_LOOP : Int := -1073741824

/-- The sub-TLV walk inside the SSL composite TLV.  `value` is the byte
region starting at `pp2_tlv->value` (the sub-TLV area begins at its
offset 5: client byte plus verify word); `limit` is `pp2_tlvs_ssl_len`;
`off` the running `pp2_sub_tlv_offset` (uint16).  Returns the final
offset, the version-found flag and the grown TLV array, or the error.
`fuel` totalises the loop: each iteration moves `off` to a value that
already occurred only if the C loop diverges, so fuel 65537 covers every
terminating C execution. -/
def ssl_sub_loop (value : List Nat) (limit : Nat) :
    Nat → Nat → Nat → List pp2_tlv_t → Except Int (Nat × Nat × List pp2_tlv_t)
  | fuel0, off, found, arr =>
    if ¬ off < limit then .ok (off, found, arr)
    else match fuel0 with
      | 0 => .error ERR_MODEL_LOOP
      | fuel + 1 =>
        let sty := value.getD (5 + off) 0 % 256
        let slen := rd16 (value.getD (5 + off + 1) 0) (value.getD (5 + off + 2) 0)
        let svalue := value.drop (5 + off + 3)
        let off2 := (off + 3 + slen) % 65536
        if sty = PP2_SUBTYPE_SSL_VERSION then
          ssl_sub_loop value limit fuel off2 1
            (tlv_array_append_tlv_new_usascii arr sty slen svalue)
        else if sty = PP2_SUBTYPE_SSL_CIPHER ∨ sty = PP2_SUBTYPE_SSL_SIG_ALG ∨
            sty = PP2_SUBTYPE_SSL_KEY_ALG then
          ssl_sub_loop value limit fuel off2 found
            (tlv_array_append_tlv_new_usascii arr sty slen svalue)
        else if sty = PP2_SUBTYPE_SSL_CN then
          ssl_sub_loop value limit fuel off2 found
            (tlv_array_append_tlv_new arr sty slen svalue)
        else .error (-ERR_PP2_TYPE_SSL)

/-- One `switch (pp2_tlv->type)` dispatch of the v2 TLV walk.  `pre` is the
consumed part of the buffer, `suf` the rest (the current TLV record starts
at its head), `hdr_span` is `sizeof(proxy_hdr_v2_t) + len` (the range the
CRC is computed over).  On success returns the possibly mutated `suf` and
the updated info; on error, the error code with the buffer and info as
they stand at the return statement. -/
def pp2_tlv_step (hdr_span : Nat) (pre suf : List Nat) (tlv_len : Nat) (pp_info : pp_info_t) :
    Except (Int × List Nat × pp_info_t) (List Nat × pp_info_t) :=
  match suf.getD 0 0 % 256 with
  | 0x01 -- PP2_TYPE_ALPN
  | 0x02 => -- PP2_TYPE_AUTHORITY
    .ok (suf, info_append_tlv pp_info (suf.getD 0 0 % 256) tlv_len (suf.drop 3))
  | 0x03 => -- PP2_TYPE_CRC32C
    if tlv_len ≠ 4 then .error (-ERR_PP2_TYPE_CRC32C, pre ++ suf, pp_info)
    else
      let crc32c_chksum :=
        rdle32 (suf.getD 3 0) (suf.getD 4 0) (suf.getD 5 0) (suf.getD 6 0)
      let suf2 := memsetZero suf 3 4
      let crc32c_calculated := crc32c (List.takeD hdr_span (pre ++ suf2) 0)
      if crc32c_chksum ≠ crc32c_calculated then
        .error (-ERR_PP2_TYPE_CRC32C, pre ++ suf2, pp_info)
      else
        .ok (suf2, info_set_crc (info_append_tlv pp_info 0x03 tlv_len (le32 crc32c_chksum)))
  | 0x04 => .ok (suf, pp_info) -- PP2_TYPE_NOOP
  | 0x05 => -- PP2_TYPE_UNIQUE_ID
    if tlv_len > 128 then .error (-ERR_PP2_TYPE_UNIQUE_ID, pre ++ suf, pp_info)
    else .ok (suf, info_append_tlv pp_info 0x05 tlv_len (suf.drop 3))
  | 0x20 => -- PP2_TYPE_SSL
    let client := suf.getD 3 0 % 256
    let verify := rdle32 (suf.getD 4 0) (suf.getD 5 0) (suf.getD 6 0) (suf.getD 7 0)
    let ssl_info : pp2_ssl_info_t :=
      { ssl := if client &&& 0x01 ≠ 0 then 1 else 0
        cert_in_connection := if client &&& 0x02 ≠ 0 then 1 else 0
        cert_in_session := if client &&& 0x04 ≠ 0 then 1 else 0
        cert_verified := if verify = 0 then 1 else 0 }
    let info2 := info_set_ssl pp_info ssl_info
    let limit := (tlv_len + 65531) % 65536
    match ssl_sub_loop (suf.drop 3) limit 65537 0 0 info2.pp2_info.tlv_array with
    | .error e => .error (e, pre ++ suf, info2)
    | .ok (offF, found, arr) =>
      let info3 := { info2 with pp2_info.tlv_array := arr }
      if offF > limit ∨ (ssl_info.ssl ≠ 0 ∧ found = 0) then
        .error (-ERR_PP2_TYPE_SSL, pre ++ suf, info3)
      else .ok (suf, info3)
  | 0x30 => -- PP2_TYPE_NETNS
    .ok (suf, info_append_tlv_usascii pp_info 0x30 tlv_len (suf.drop 3))
  | 0xEA => -- PP2_TYPE_AWS; the source compares against sizeof(pp2_tlv_aws_t) = 2
    if tlv_len < 2 then .error (-ERR_PP2_TYPE_AWS, pre ++ suf, pp_info)
    else if suf.getD 3 0 % 256 = PP2_SUBTYPE_AWS_VPCE_ID then
      .ok (suf, info_append_tlv_usascii pp_info 0xEA tlv_len (suf.drop 3))
    else .ok (suf, pp_info)
  | 0xEE => -- PP2_TYPE_AZURE
    if tlv_len < 5 then .error (-ERR_PP2_TYPE_AZURE, pre ++ suf, pp_info)
    else if suf.getD 3 0 % 256 = PP2_SUBTYPE_AZURE_PRIVATEENDPOINT_LINKID then
      .ok (suf, info_append_tlv pp_info 0xEE tlv_len (suf.drop 3))
    else .ok (suf, pp_info)
  | _ => .ok (suf, pp_info)

/-- The TLV walk of `pp2_parse_hdr`: runs while more than
`sizeof_pp2_tlv_t` (3) bytes remain.  `pre ++ suf` is the whole buffer;
`remaining` is `tlv_vectors_len`.  Result: optional error code (none when
the walk completed), final buffer, final info.  The first argument is
structural fuel: every iteration either consumes at least one byte of
`remaining` or returns the divergence sentinel, so fuel
`remaining + 1` makes the fuel-exhaustion branch unreachable. -/
def pp2_tlv_loop (hdr_span : Nat) :
    Nat → List Nat → List Nat → Nat → pp_info_t → Option Int × List Nat × pp_info_t
  | fuel0, pre, suf, remaining, pp_info =>
    if remaining > 3 then
      match fuel0 with
      | 0 => (some ERR_MODEL_LOOP, pre ++ suf, pp_info)
      | fuel + 1 =>
        let tlv_len := rd16 (suf.getD 1 0) (suf.getD 2 0)
        let offset := (3 + tlv_len) % 65536
        if offset > remaining then (some (-ERR_PP2_TLV_LENGTH), pre ++ suf, pp_info)
        else
          match pp2_tlv_step hdr_span pre suf tlv_len pp_info with
          | .error (e, buf, info2) => (some e, buf, info2)
          | .ok (suf2, info2) =>
            if offset = 0 then (some ERR_MODEL_LOOP, pre ++ suf2, info2)
            else
              pp2_tlv_loop hdr_span fuel (pre ++ suf2.take offset) (suf2.drop offset)
                (remaining - offset) info2
    else (none, pre ++ suf, pp_info)

/-- The pre-TLV phase of `pp2_parse_hdr`: version/command nibbles,
family/protocol nibbles, declared length against the buffer length, and
the address block.  On error: the code with the info as written so far.
On success: the declared `len`, the TLV region offset into the buffer,
`tlv_vectors_len`, and the info after the address block.  inet_ntop
cannot fail here (the address buffers are large enough), so the source's
ntop error branches are unreachable in the model.  For AF_UNIX the
source does not advance the TLV cursor: `tlv_vectors_len` stays 0 and
the TLV region is never walked. -/
def pp2_parse_prelude (buffer : List Nat) (buffer_length : Nat) (pp_info : pp_info_t) :
    Except (Int × pp_info_t) (Nat × Nat × Nat × pp_info_t) :=
  let ver_cmd := buffer.getD 12 0 % 256
  if ver_cmd >>> 4 ≠ 0x2 then .error (-ERR_PP2_VERSION, pp_info)
  else
    let cmd := ver_cmd % 16
    if ¬ (cmd = 0 ∨ cmd = 1) then .error (-ERR_PP2_CMD, pp_info)
    else
      let info1 := info_set_local pp_info (if cmd = 0 then 1 else 0)
      let fam_byte := buffer.getD 13 0 % 256
      let info2 := info_set_af info1 (fam_byte >>> 4)
      if ¬ (fam_byte >>> 4 = ADDR_FAMILY_UNSPEC ∨ fam_byte >>> 4 = ADDR_FAMILY_INET ∨
          fam_byte >>> 4 = ADDR_FAMILY_INET6 ∨ fam_byte >>> 4 = ADDR_FAMILY_UNIX) then
        .error (-ERR_PP2_ADDR_FAMILY, info2)
      else
        let info3 := info_set_tp info2 (fam_byte % 16)
        if info3.transport_protocol > TRANSPORT_PROTOCOL_DGRAM then
          .error (-ERR_PP2_TRANSPORT_PROTOCOL, info3)
        else
          let len := rd16 (buffer.getD 14 0) (buffer.getD 15 0)
          if buffer_length < 16 + len then .error (-ERR_PP2_LENGTH, info3)
          else
            let af := fam_byte >>> 4
            if af = ADDR_FAMILY_UNSPEC then .ok (len, 16, len, info3)
            else if af = ADDR_FAMILY_INET ∧ len ≥ 12 then
              .ok (len, 28, len - 12, info_store_endpoints info3
                (inet_ntop4 ((buffer.drop 16).take 4))
                (inet_ntop4 ((buffer.drop 20).take 4))
                (rd16 (buffer.getD 24 0) (buffer.getD 25 0))
                (rd16 (buffer.getD 26 0) (buffer.getD 27 0)))
            else if af = ADDR_FAMILY_INET6 ∧ len ≥ 36 then
              .ok (len, 52, len - 36, info_store_endpoints info3
                (inet_ntop6 ((buffer.drop 16).take 16))
                (inet_ntop6 ((buffer.drop 32).take 16))
                (rd16 (buffer.getD 48 0) (buffer.getD 49 0))
                (rd16 (buffer.getD 50 0) (buffer.getD 51 0)))
            else if af = ADDR_FAMILY_UNIX ∧ len ≥ 216 then
              .ok (len, 16, 0, info_copy_unix info3
                (List.takeD 108 ((buffer.drop 16).map (· % 256)) 0)
                (List.takeD 108 ((buffer.drop 124).map (· % 256)) 0))
            else .error (-ERR_PP2_LENGTH, info3)

/-- `pp2_parse_hdr`: verify and parse a v2 header from `buffer` (the 12
signature bytes were already matched by the dispatcher).  Returns the
`int32_t` result together with the buffer (mutated in place during CRC
verification) and the output info as written up to the return point. -/
def pp2_parse_hdr (buffer : List Nat) (buffer_length : Nat) (pp_info : pp_info_t) :
    Int × List Nat × pp_info_t :=
  match pp2_parse_prelude buffer buffer_length pp_info with
  | .error (e, info3) => (e, buffer, info3)
  | .ok (len, tlv_off, tlv_vectors_len, info4) =>
    match pp2_tlv_loop (16 + len) (tlv_vectors_len + 1) (buffer.take tlv_off)
        (buffer.drop tlv_off) tlv_vectors_len info4 with
    | (some e, buf, info5) => (e, buf, info5)
    | (none, buf, info5) => ((16 : Int) + len, buf, info5)

/-! ## v1 parser (pp1_parse_hdr) -/

/-- Index of the first CRLF in a byte list (the strstr over the copied,
NUL-terminated block): a position holding 13 whose successor exists and
holds 10. -/
def find_crlf : List Nat → Option Nat
  | [] => none
  | a :: rest =>
    if a = 13 ∧ rest.headD 0 = 10 ∧ rest ≠ [] then some 0
    else (find_crlf rest).map (· + 1)

/-- strchr within the C string `s` starting from offset `i`. -/
def strchr_from (s : List Nat) (i c : Nat) : Option Nat :=
  ((s.drop i).findIdx? (· == c)).map (· + i)

/-- memcmp of `pat.length` bytes at offset `i` of the block (equality). -/
def memcmp_at (block : List Nat) (i : Nat) (pat : List Nat) : Bool :=
  (block.drop i).take pat.length == pat

/-- strtoul(value, NULL, 10) as `parse_port` uses it: leading whitespace
skipped, optional sign, decimal digits; overflow saturates at ULONG_MAX
and a negated value wraps — only the comparisons against 0 and 65535 are
observable, and every such abnormal token still compares as rejected. -/
def strtoul10 (s : List Nat) : Nat :=
  let s1 := s.dropWhile (fun c => c = 32 ∨ (9 ≤ c ∧ c ≤ 13))
  let signed : Bool × List Nat :=
    match s1 with
    | 43 :: rest => (false, rest)
    | 45 :: rest => (true, rest)
    | _ => (false, s1)
  let digs := signed.2.takeWhile isDigitB
  let v := digs.foldl (fun acc d => acc * 10 + (d - 48)) 0
  let v := min v (2 ^ 64 - 1)
  if signed.1 then (2 ^ 64 - v) % 2 ^ 64 else v

/-- `parse_port`: 0 and out-of-range are rejected (none); the port value
is written only on success. -/
def parse_port (value : List Nat) : Option Nat :=
  let port := strtoul10 value
  if port = 0 ∨ port > 65535 then none else some port

/-- The TCP4/TCP6 continuation of `pp1_parse_hdr` from the byte after the
four-character family token (block offset 10).  The four address-failure
returns use the POSITIVE error constants, exactly as the source does (the
unary minus is missing on those return statements).  The port tokens are
passed to `parse_port` whole: the source memcpy-s them into a 6-byte
stack buffer, which for tokens longer than 5 digits overruns it; every
such token still parses to a rejected value. -/
def pp1_addresses (block s : List Nat) (pp1_hdr_len : Int) (is_v4 : Bool)
    (pp_info : pp_info_t) : Int × pp_info_t :=
  if block.getD 10 0 ≠ 32 then (-ERR_PP1_SPACE, pp_info)
  else
    match strchr_from s 11 32 with
    | none => (if is_v4 then ERR_PP1_IPV4_SRC_IP else ERR_PP1_IPV6_SRC_IP, pp_info)
    | some se =>
      let info1 := info_copy_src pp_info ((block.drop 11).take (se - 11))
      let src_ok := if is_v4 then (inet_pton4 (cstr info1.src_addr)).isSome
        else (inet_pton6 (cstr info1.src_addr)).isSome
      if ¬ src_ok then
        (if is_v4 then ERR_PP1_IPV4_SRC_IP else ERR_PP1_IPV6_SRC_IP, info1)
      else if block.getD se 0 ≠ 32 then (-ERR_PP1_SPACE, info1)
      else
        match strchr_from s (se + 1) 32 with
        | none => (if is_v4 then ERR_PP1_IPV4_DST_IP else ERR_PP1_IPV6_DST_IP, info1)
        | some de =>
          let info2 := info_copy_dst info1 ((block.drop (se + 1)).take (de - (se + 1)))
          let dst_ok := if is_v4 then (inet_pton4 (cstr info2.dst_addr)).isSome
            else (inet_pton6 (cstr info2.dst_addr)).isSome
          if ¬ dst_ok then
            (if is_v4 then ERR_PP1_IPV4_DST_IP else ERR_PP1_IPV6_DST_IP, info2)
          else if block.getD de 0 ≠ 32 then (-ERR_PP1_SPACE, info2)
          else
            match strchr_from s (de + 1) 32 with
            | none => (-ERR_PP1_SRC_PORT, info2)
            | some pe =>
              match parse_port ((block.drop (de + 1)).take (pe - (de + 1))) with
              | none => (-ERR_PP1_SRC_PORT, info2)
              | some sp =>
                let info3 := info_set_src_port info2 sp
                if block.getD pe 0 ≠ 32 then (-ERR_PP1_SPACE, info3)
                else
                  match strchr_from s (pe + 1) 13 with
                  | none => (-ERR_PP1_DST_PORT, info3)
                  | some re =>
                    match parse_port ((block.drop (pe + 1)).take (re - (pe + 1))) with
                    | none => (-ERR_PP1_DST_PORT, info3)
                    | some dp =>
                      let info4 := info_set_dst_port info3 dp
                      if block.getD re 0 = 13 ∧ block.getD (re + 1) 0 = 10 then
                        (pp1_hdr_len, info4)
                      else (-ERR_PP1_CRLF, info4)

/-- `pp1_parse_hdr`: tokenizer over a zero-initialised 108-byte block
holding a copy of (at most) the first 108 buffer bytes. -/
def pp1_parse_hdr (buffer : List Nat) (buffer_length : Nat) (pp_info : pp_info_t) :
    Int × pp_info_t :=
  let block := List.takeD 108 ((buffer.take (min buffer_length 108)).map (· % 256)) 0
  let s := cstr block
  match find_crlf s with
  | none => (-ERR_PP1_CRLF, pp_info)
  | some idx =>
    let pp1_hdr_len : Int := (idx : Int) + 2
    if ¬ memcmp_at block 0 (strBytes "PROXY") then (-ERR_PP1_PROXY, pp_info)
    else if block.getD 5 0 ≠ 32 then (-ERR_PP1_SPACE, pp_info)
    else
      match strchr_from s 6 32 with
      | none =>
        -- unknown connection (short form)
        if pp1_hdr_len = 15 ∨ memcmp_at block 6 (strBytes "UNKNOWN") then
          (pp1_hdr_len, info_set_family pp_info ADDR_FAMILY_UNSPEC TRANSPORT_PROTOCOL_UNSPEC)
        else (-ERR_PP1_TRANSPORT_FAMILY, pp_info)
      | some _ =>
        if memcmp_at block 6 (strBytes "TCP4") then
          pp1_addresses block s pp1_hdr_len true
            (info_set_family pp_info ADDR_FAMILY_INET TRANSPORT_PROTOCOL_STREAM)
        else if memcmp_at block 6 (strBytes "TCP6") then
          pp1_addresses block s pp1_hdr_len false
            (info_set_family pp_info ADDR_FAMILY_INET6 TRANSPORT_PROTOCOL_STREAM)
        else if memcmp_at block 6 (strBytes "UNKNOWN") then
          (pp1_hdr_len, info_set_family pp_info ADDR_FAMILY_UNSPEC TRANSPORT_PROTOCOL_UNSPEC)
        else (-ERR_PP1_TRANSPORT_FAMILY, pp_info)

/-! ## Dispatch (pp_parse_hdr) -/

/-- `pp_parse_hdr`: zeroes the whole output record (memset), then routes
on the buffer prefix; returns the `int32_t` result, the buffer (the v2
path can mutate it) and the output record. -/
def pp_parse_hdr (buffer : List Nat) (buffer_length : Nat) (_pp_info : pp_info_t) :
    Int × List Nat × pp_info_t :=
  if buffer_length ≥ 16 ∧ (buffer.take 12).map (· % 256) = pp2_sig then
    pp2_parse_hdr buffer buffer_length zero_pp_info
  else if buffer_length ≥ 8 ∧ (buffer.take 5).map (· % 256) = strBytes "PROXY" then
    let r := pp1_parse_hdr buffer buffer_length zero_pp_info
    (r.1, buffer, r.2)
  else (0, buffer, zero_pp_info)

/-! ## The semantic equivalence relation of the spec (section 8)

Round-trip results are compared family / protocol / endpoints / local
flag / TLV sequence modulo NOOP padding / SSL flags / CRC presence-flag.
The parser records a received CRC32C TLV both in the sequence and in the
`crc32c` flag while a serializer input carries it only as the flag, so
the sequence comparison is taken modulo NOOP and CRC32C records (the CRC
is compared through the presence flag), matching the spec's reading. -/

/-- The TLV sequence with NOOP padding and the CRC32C record dropped. -/
def tlvs_semantic (ts : List pp2_tlv_t) : List pp2_tlv_t :=
  ts.filter (fun t => ¬ (t.type = PP2_TYPE_NOOP ∨ t.type = PP2_TYPE_CRC32C))

/-- Semantic equivalence of two `pp_info_t` records (spec section 8);
the endpoint texts are compared as C strings. -/
def pp_info_equiv (a b : pp_info_t) : Prop :=
  a.address_family = b.address_family ∧
  a.transport_protocol = b.transport_protocol ∧
  cstr a.src_addr = cstr b.src_addr ∧
  cstr a.dst_addr = cstr b.dst_addr ∧
  a.src_port = b.src_port ∧
  a.dst_port = b.dst_port ∧
  a.pp2_info.local_flag = b.pp2_info.local_flag ∧
  tlvs_semantic a.pp2_info.tlv_array = tlvs_semantic b.pp2_info.tlv_array ∧
  a.pp2_info.pp2_ssl_info = b.pp2_info.pp2_ssl_info ∧
  (a.pp2_info.crc32c = 0 ↔ b.pp2_info.crc32c = 0)

instance (a b : pp_info_t) : Decidable (pp_info_equiv a b) := by
  unfold pp_info_equiv; infer_instance

/-- The wire size contributed by a TLV list (3 header bytes plus the
declared length, per record). -/
def sum_tlv_len (ts : List pp2_tlv_t) : Nat := (ts.map (fun t => 3 + t.len)).sum

/-! ## Concrete inputs used by the counterexamples and witnesses -/

/-- A v2 Local record with a single zero-length ALPN TLV: the serializer
accepts it, but its 3-byte record sits at the very end of the TLV region
and the parser's walk condition (strictly more than 3 bytes remaining)
never visits it. -/
def c1_info : pp_info_t :=
  pp_info_add_alpn { zero_pp_info with pp2_info.local_flag := 1 } 0 []

/-- The serialized form of `c1_info` (19 bytes, len = 3). -/
def c1_bytes : List Nat := pp2_sig ++ [0x20, 0x00, 0x00, 0x03, 0x01, 0x00, 0x00]

/-- A v2 Local record with CRC32C requested and no other TLVs. -/
def c7_info : pp_info_t :=
  { zero_pp_info with pp2_info.local_flag := 1, pp2_info.crc32c := 1 }

/-- The serialized form of `c7_info`: 16-byte fixed header, then the
CRC32C TLV whose value is the CRC of the same bytes with the value
zeroed. -/
def c7_bytes : List Nat :=
  pp2_sig ++ [0x20, 0x00, 0x00, 0x07, 0x03, 0x00, 0x04, 143, 126, 184, 169]

/-- The representative CRC-protected header of the C2 property: Proxy /
Inet / Stream, 1.2.3.4:80 -> 5.6.7.8:443, an ALPN TLV "hi", CRC32C. -/
def c2_info : pp_info_t :=
  pp_info_add_alpn { zero_pp_info with
    address_family := ADDR_FAMILY_INET,
    transport_protocol := TRANSPORT_PROTOCOL_STREAM,
    src_addr := strBytes "1.2.3.4",
    dst_addr := strBytes "5.6.7.8",
    src_port := 80,
    dst_port := 443,
    pp2_info.crc32c := 1 } 2 (strBytes "hi")

/-- The serialized form of `c2_info` (40 bytes). -/
def c2_bytes : List Nat :=
  pp2_sig ++ [0x21, 0x11, 0x00, 0x18, 1, 2, 3, 4, 5, 6, 7, 8, 0, 80, 1, 187,
    0x01, 0x00, 0x02, 104, 105, 0x03, 0x00, 0x04, 39, 144, 217, 182]

/-- The byte positions of `c2_bytes` that lie outside the CRC field and
outside everything the parser validates before the CRC comparison: the
12 signature bytes, the 12 address-block bytes and the 2 ALPN value
bytes.  (Bytes 12..15 are the version/command, family/protocol and
length fields, bytes 16+12..18+12 and 33..35 are TLV type/length
framing, bytes 36..39 are the CRC field.) -/
def c2_flip_positions : List Nat :=
  (List.range 12) ++ (List.range 12).map (16 + ·) ++ [31, 32]

/-- An `alignment_power` input whose unpadded size (16) is already a
multiple of the alignment (4): the failing input of claim C3. -/
def c3_info : pp_info_t :=
  { zero_pp_info with pp2_info.local_flag := 1, pp2_info.alignment_power := 2 }

/-- A v2 Unix header (family nibble 3, Stream) whose declared length 220
leaves a 4-byte TLV region declaring a 10-byte length: the region
overruns, but the parser never walks TLVs for the Unix family. -/
def c5_bytes : List Nat :=
  pp2_sig ++ [0x21, 0x31] ++ be16 220 ++ List.replicate 216 0 ++ [0x01, 0x00, 0x0A, 0x00]

/-- An SSL flag record with `cert_in_connection = 0` and
`cert_in_session = 1`: the failing input of claim C6. -/
def c6_ssl_info : pp2_ssl_info_t :=
  { ssl := 1, cert_in_connection := 0, cert_in_session := 1, cert_verified := 1 }

/-- A record with two AWS TLVs: the first carries subtype 2, the second
carries subtype 1 (the VPCE one): the failing input of claim C9. -/
def c9_info : pp_info_t :=
  { zero_pp_info with pp2_info.tlv_array :=
    [tlv_new PP2_TYPE_AWS 2 [2, 65], tlv_new PP2_TYPE_AWS 2 [1, 66]] }

/-- The claim-C4 failing input: a v1 TCP4 header whose source address
token fails inet_pton. -/
def c4_bytes : List Nat := strBytes "PROXY TCP4 999.0.0.1 2.2.2.2 7 7\r\n"

/-- The claim-C8 counterexample: a 15-byte v1 header whose token after
PROXY is garbage and is followed directly by the CRLF. -/
def c8_bytes : List Nat := strBytes "PROXY ZZZZZZZ\r\n"

/-- Buffer `b` differs from `a` only by in-place zeroing: same length,
and every byte is either unchanged or zero.  The only store
`pp2_parse_hdr` performs into the caller's buffer is the memset of a CRC
TLV's value. -/
def onlyZeroed (a b : List Nat) : Prop :=
  b.length = a.length ∧ ∀ i, b.getD i 0 = a.getD i 0 ∨ b.getD i 0 = 0

/-- The concatenated wire bytes of a TLV array (the serializer's TLV
region). -/
def tlvs_wire (ts : List pp2_tlv_t) : List Nat := (ts.map tlv_wire).flatten

/-- Wellformedness of a stored TLV record in the round-trip class: the
stored fields are in range, the value has exactly the declared length,
and the type is one the parse walk stores back verbatim (ALPN,
AUTHORITY, or UNIQUE_ID of length at most 128). -/
def tlv_wf (t : pp2_tlv_t) : Prop :=
  t.type < 256 ∧ t.length_hi < 256 ∧ t.length_lo < 256 ∧
  t.value.length = t.len ∧ (∀ b ∈ t.value, b < 256) ∧
  (t.type = PP2_TYPE_ALPN ∨ t.type = PP2_TYPE_AUTHORITY ∨
    (t.type = PP2_TYPE_UNIQUE_ID ∧ t.len ≤ 128))

instance (t : pp2_tlv_t) : Decidable (tlv_wf t) := by
  unfold tlv_wf; infer_instance

/-! ## Theorems -/

set_option maxRecDepth 4000 in
/-- The packed table agrees, entry by entry, with the table copied from
the source. -/
theorem crctable_packed_spec : ∀ i < 256, crctable_at i = crctable.getD i 0 := by decide

/-! ### Generic helper lemmas -/

theorem takeD_exact {l : List Nat} {n : Nat} (d : Nat) (h : l.length = n) :
    List.takeD n l d = l := by
  rw [List.takeD_eq_take d (le_of_eq h.symm), ← h, List.take_length]

theorem takeD_append_exact {l r : List Nat} {n : Nat} (d : Nat) (h : l.length = n) :
    List.takeD n (l ++ r) d = l :=
  List.takeD_left' h

theorem map_mod256_id {l : List Nat} (h : ∀ x ∈ l, x < 256) : l.map (· % 256) = l := by
  induction l with
  | nil => rfl
  | cons a t ih =>
    simp only [List.map_cons, List.cons.injEq]
    exact ⟨Nat.mod_eq_of_lt (h a (by simp)), ih (fun x hx => h x (by simp [hx]))⟩

theorem rd16_be16 {n : Nat} (h : n < 65536) : rd16 (n / 256 % 256) (n % 256) = n := by
  unfold rd16; omega

theorem rdle32_le32 {v : Nat} (h : v < 4294967296) :
    rdle32 (v % 256) (v / 256 % 256) (v / 65536 % 256) (v / 16777216 % 256) = v := by
  unfold rdle32; omega

theorem crctable_at_lt (i : Nat) : crctable_at i < 4294967296 :=
  Nat.mod_lt _ (by omega)

theorem crc32c_step_lt {crc : Nat} (b : Nat) (h : crc < 4294967296) :
    crc32c_step crc b < 4294967296 := by
  unfold crc32c_step
  have h1 : crc >>> 8 < 4294967296 :=
    lt_of_le_of_lt (by rw [Nat.shiftRight_eq_div_pow]; exact Nat.div_le_self _ _) h
  have h2 := crctable_at_lt ((crc ^^^ b % 256) % 256)
  have h32 : (4294967296 : Nat) = 2 ^ 32 := by norm_num
  rw [h32] at h1 h2 ⊢
  exact Nat.xor_lt_two_pow h1 h2

theorem crc32c_foldl_lt (l : List Nat) : ∀ crc, crc < 4294967296 →
    l.foldl crc32c_step crc < 4294967296 := by
  induction l with
  | nil => intro crc h; exact h
  | cons a t ih => intro crc h; exact ih _ (crc32c_step_lt a h)

theorem crc32c_lt (l : List Nat) : crc32c l < 4294967296 := by
  unfold crc32c
  have h1 := crc32c_foldl_lt l 0xffffffff (by norm_num)
  have h32 : (4294967296 : Nat) = 2 ^ 32 := by norm_num
  rw [h32] at h1 ⊢
  exact Nat.xor_lt_two_pow h1 (by norm_num)

/-! ### The getter scan (claim C9) -/

/-- The getter loop's result is determined by the first TLV whose type
matches, found with List.find?. -/
theorem get_tlv_value_loop_eq_find (tlvs : List pp2_tlv_t) (ty subtype : Nat) :
    get_tlv_value_loop tlvs ty subtype =
      match tlvs.find? (fun t => t.type == ty) with
      | none => (none, 0)
      | some t =>
        if subtype > 0 then
          if t.value.getD 0 0 = subtype then
            (some (t.value.drop 1), (t.len + 65535) % 65536)
          else (none, t.len)
        else (some t.value, t.len) := by
  induction tlvs with
  | nil => rfl
  | cons t rest ih =>
    by_cases h : t.type = ty
    · simp [get_tlv_value_loop, List.find?_cons, h]
    · simp [get_tlv_value_loop, List.find?_cons, h, ih]

/-! ### Result signs of the parsers (for claim C10) -/

theorem ssl_sub_loop_error_neg (value : List Nat) (limit : Nat) :
    ∀ fuel off found arr e, ssl_sub_loop value limit fuel off found arr = .error e →
      e < 0 := by
  intro fuel
  induction fuel with
  | zero =>
    intro off found arr e h
    rw [ssl_sub_loop] at h
    split at h
    · exact absurd h (by simp)
    · simp only [Except.error.injEq] at h
      subst h; decide
  | succ n ih =>
    intro off found arr e h
    rw [ssl_sub_loop] at h
    split at h
    · exact absurd h (by simp)
    · dsimp only at h
      split_ifs at h
      · exact ih _ _ _ _ h
      · exact ih _ _ _ _ h
      · exact ih _ _ _ _ h
      · simp only [Except.error.injEq] at h
        subst h; decide

theorem pp2_tlv_step_error_neg (hdr_span : Nat) (pre suf : List Nat) (tlv_len : Nat)
    (info : pp_info_t) {e : Int} {b : List Nat} {i2 : pp_info_t}
    (h : pp2_tlv_step hdr_span pre suf tlv_len info = .error (e, b, i2)) : e < 0 := by
  unfold pp2_tlv_step at h
  dsimp only at h
  repeat' split at h
  all_goals try exact Except.noConfusion h
  all_goals injection h with h
  all_goals simp only [Prod.mk.injEq] at h
  all_goals obtain ⟨he, -⟩ := h
  all_goals subst he
  all_goals try decide
  all_goals exact ssl_sub_loop_error_neg _ _ _ _ _ _ _ (by assumption)

theorem pp2_tlv_loop_some_neg (hdr_span : Nat) :
    ∀ fuel pre suf remaining info e b i2,
      pp2_tlv_loop hdr_span fuel pre suf remaining info = (some e, b, i2) → e < 0 := by
  intro fuel
  induction fuel with
  | zero =>
    intro pre suf remaining info e b i2 h
    rw [pp2_tlv_loop] at h
    split at h
    · simp only [Prod.mk.injEq, Option.some.injEq] at h
      obtain ⟨he, -⟩ := h; subst he; decide
    · exact absurd h (by simp)
  | succ n ih =>
    intro pre suf remaining info e b i2 h
    rw [pp2_tlv_loop] at h
    split at h
    · dsimp only at h
      repeat' split at h
      · simp only [Prod.mk.injEq, Option.some.injEq] at h
        obtain ⟨he, -⟩ := h; subst he; decide
      · rename_i heq
        simp only [Prod.mk.injEq, Option.some.injEq] at h
        obtain ⟨he, -⟩ := h; subst he
        exact pp2_tlv_step_error_neg _ _ _ _ _ heq
      · simp only [Prod.mk.injEq, Option.some.injEq] at h
        obtain ⟨he, -⟩ := h; subst he; decide
      · exact ih _ _ _ _ _ _ _ h
    · exact absurd h (by simp)

theorem pp2_parse_prelude_error_neg (b : List Nat) (l : Nat) (i : pp_info_t)
    {e : Int} {i3 : pp_info_t}
    (h : pp2_parse_prelude b l i = .error (e, i3)) : e < 0 := by
  unfold pp2_parse_prelude at h
  dsimp only at h
  have errcase : ∀ (c : Int) (j : pp_info_t), c < 0 →
      ((Except.error (c, j) : Except (Int × pp_info_t) (Nat × Nat × Nat × pp_info_t))
        = .error (e, i3)) → e < 0 := by
    intro c j hc heq
    injection heq with heq
    simp only [Prod.mk.injEq] at heq
    omega
  by_cases h1 : (b.getD 12 0 % 256) >>> 4 ≠ 2
  · rw [if_pos h1] at h; exact errcase _ _ (by decide) h
  rw [if_neg h1] at h
  by_cases h2 : ¬ (b.getD 12 0 % 256 % 16 = 0 ∨ b.getD 12 0 % 256 % 16 = 1)
  · rw [if_pos h2] at h; exact errcase _ _ (by decide) h
  rw [if_neg h2] at h
  by_cases h3 : ¬ ((b.getD 13 0 % 256) >>> 4 = ADDR_FAMILY_UNSPEC ∨
      (b.getD 13 0 % 256) >>> 4 = ADDR_FAMILY_INET ∨
      (b.getD 13 0 % 256) >>> 4 = ADDR_FAMILY_INET6 ∨
      (b.getD 13 0 % 256) >>> 4 = ADDR_FAMILY_UNIX)
  · rw [if_pos h3] at h; exact errcase _ _ (by decide) h
  rw [if_neg h3] at h
  by_cases h4 : (info_set_tp (info_set_af (info_set_local i
      (if b.getD 12 0 % 256 % 16 = 0 then 1 else 0)) ((b.getD 13 0 % 256) >>> 4))
      (b.getD 13 0 % 256 % 16)).transport_protocol > TRANSPORT_PROTOCOL_DGRAM
  · rw [if_pos h4] at h; exact errcase _ _ (by decide) h
  rw [if_neg h4] at h
  by_cases h5 : l < 16 + rd16 (b.getD 14 0) (b.getD 15 0)
  · rw [if_pos h5] at h; exact errcase _ _ (by decide) h
  rw [if_neg h5] at h
  by_cases h6 : (b.getD 13 0 % 256) >>> 4 = ADDR_FAMILY_UNSPEC
  · rw [if_pos h6] at h; exact Except.noConfusion h
  rw [if_neg h6] at h
  by_cases h7 : (b.getD 13 0 % 256) >>> 4 = ADDR_FAMILY_INET ∧
      rd16 (b.getD 14 0) (b.getD 15 0) ≥ 12
  · rw [if_pos h7] at h; exact Except.noConfusion h
  rw [if_neg h7] at h
  by_cases h8 : (b.getD 13 0 % 256) >>> 4 = ADDR_FAMILY_INET6 ∧
      rd16 (b.getD 14 0) (b.getD 15 0) ≥ 36
  · rw [if_pos h8] at h; exact Except.noConfusion h
  rw [if_neg h8] at h
  by_cases h9 : (b.getD 13 0 % 256) >>> 4 = ADDR_FAMILY_UNIX ∧
      rd16 (b.getD 14 0) (b.getD 15 0) ≥ 216
  · rw [if_pos h9] at h; exact Except.noConfusion h
  rw [if_neg h9] at h
  exact errcase _ _ (by decide) h

theorem pp2_parse_hdr_fst_ne_zero (b : List Nat) (l : Nat) (i : pp_info_t) :
    (pp2_parse_hdr b l i).1 ≠ 0 := by
  unfold pp2_parse_hdr
  rcases hpre : pp2_parse_prelude b l i with ⟨e, i3⟩ | ⟨len, off, tlen, i4⟩
  · have := pp2_parse_prelude_error_neg b l i hpre
    dsimp only
    intro hc; omega
  · dsimp only
    rcases hloop : pp2_tlv_loop (16 + len) (tlen + 1) (b.take off) (b.drop off) tlen i4 with
      ⟨oe, buf, i5⟩
    rcases oe with - | e
    · dsimp only; intro hc; omega
    · have := pp2_tlv_loop_some_neg _ _ _ _ _ _ _ _ _ hloop
      dsimp only; intro hc; omega

theorem pp1_addresses_fst (block s : List Nat) (L : Int) (v4 : Bool) (i : pp_info_t) :
    (pp1_addresses block s L v4 i).1 = L ∨ (pp1_addresses block s L v4 i).1 ≠ 0 := by
  unfold pp1_addresses
  dsimp only
  repeat' split
  all_goals dsimp only
  all_goals first
    | (left; rfl)
    | (right; decide)

theorem pp1_parse_hdr_fst_ne_zero (b : List Nat) (l : Nat) (i : pp_info_t) :
    (pp1_parse_hdr b l i).1 ≠ 0 := by
  unfold pp1_parse_hdr
  dsimp only
  intro hc
  repeat' split at hc
  all_goals try dsimp only at hc
  all_goals try exact absurd hc (by decide)
  all_goals try omega
  all_goals rcases pp1_addresses_fst _ _ _ _ _ with hL | hne
  all_goals try (rw [hL] at hc; omega)
  all_goals exact hne hc

/-! ### Walk-shape lemmas (claims C5 and C1) -/

/-- The walk stops, without error and without visiting anything, as soon
as at most 3 bytes remain. -/
theorem pp2_tlv_loop_done (hdr_span fuel : Nat) (pre suf : List Nat) (remaining : Nat)
    (info : pp_info_t) (h : remaining ≤ 3) :
    pp2_tlv_loop hdr_span fuel pre suf remaining info = (none, pre ++ suf, info) := by
  rw [pp2_tlv_loop.eq_def]
  dsimp only
  rw [if_neg (by omega)]

/-- With more than 3 bytes remaining, a record whose 3 + declared length
(as the uint16 of the source computes it) exceeds the remaining bytes
makes the walk fail with ERR_PP2_TLV_LENGTH. -/
theorem pp2_tlv_loop_overrun (hdr_span fuel : Nat) (pre suf : List Nat) (remaining : Nat)
    (info : pp_info_t) (h1 : remaining > 3)
    (h2 : (3 + rd16 (suf.getD 1 0) (suf.getD 2 0)) % 65536 > remaining) :
    pp2_tlv_loop hdr_span (fuel + 1) pre suf remaining info =
      (some (-ERR_PP2_TLV_LENGTH), pre ++ suf, info) := by
  rw [pp2_tlv_loop.eq_def]
  try dsimp only
  rw [if_pos h1]
  try dsimp only
  rw [if_pos h2]

/-- Reading bytes just after the 12-byte signature. -/
theorem getD_sig_append (x : List Nat) (k d : Nat) :
    (pp2_sig ++ x).getD (12 + k) d = x.getD k d := by
  rw [List.getD_append_right]
  · norm_num [pp2_sig]
  · norm_num [pp2_sig]

/-- The prelude accepts a well-formed Unix-family header and hands the
walk an empty TLV region, whatever the region bytes hold. -/
theorem pp2_parse_prelude_unix (proto len : Nat) (body : List Nat) (info : pp_info_t)
    (hproto : proto ≤ 2) (h216 : 216 ≤ len) (hlen : len ≤ 65535)
    (hbody : body.length = len) :
    pp2_parse_prelude (pp2_sig ++ 0x21 :: (48 + proto) :: (be16 len ++ body)) (16 + len)
        info =
      .ok (len, 16, 0, info_copy_unix (info_set_tp (info_set_af (info_set_local info 0) 3)
        proto)
        (List.takeD 108 (body.map (· % 256)) 0)
        (List.takeD 108 ((body.drop 108).map (· % 256)) 0)) := by
  have h12 : (pp2_sig ++ 0x21 :: (48 + proto) :: (be16 len ++ body)).getD 12 0 = 0x21 := by
    have := getD_sig_append (0x21 :: (48 + proto) :: (be16 len ++ body)) 0 0
    simpa using this
  have h13 : (pp2_sig ++ 0x21 :: (48 + proto) :: (be16 len ++ body)).getD 13 0 =
      48 + proto := by
    have := getD_sig_append (0x21 :: (48 + proto) :: (be16 len ++ body)) 1 0
    simpa using this
  have h14 : (pp2_sig ++ 0x21 :: (48 + proto) :: (be16 len ++ body)).getD 14 0 =
      len / 256 % 256 := by
    have := getD_sig_append (0x21 :: (48 + proto) :: (be16 len ++ body)) 2 0
    simpa [be16] using this
  have h15 : (pp2_sig ++ 0x21 :: (48 + proto) :: (be16 len ++ body)).getD 15 0 =
      len % 256 := by
    have := getD_sig_append (0x21 :: (48 + proto) :: (be16 len ++ body)) 3 0
    simpa [be16] using this
  have hdrop16 : (pp2_sig ++ 0x21 :: (48 + proto) :: (be16 len ++ body)).drop 16 = body := by
    have hlen16 : (pp2_sig ++ [0x21, 48 + proto] ++ be16 len).length = 16 := by
      simp [pp2_sig, be16]
    calc (pp2_sig ++ 0x21 :: (48 + proto) :: (be16 len ++ body)).drop 16
      = ((pp2_sig ++ [0x21, 48 + proto] ++ be16 len) ++ body).drop 16 := by simp
    _ = body := by rw [← hlen16, List.drop_left]
  unfold pp2_parse_prelude
  dsimp only
  rw [h12, h13, h14, h15]
  have hmod : (48 + proto) % 256 = 48 + proto := by omega
  rw [hmod]
  have hshift : (48 + proto) >>> 4 = 3 := by
    rw [Nat.shiftRight_eq_div_pow]; omega
  rw [hshift]
  have hvc : (0x21 : Nat) % 256 = 0x21 := by norm_num
  rw [hvc]
  have hrd : rd16 (len / 256 % 256) (len % 256) = len := rd16_be16 (by omega)
  rw [hrd]
  rw [if_neg (by decide)]
  rw [if_neg (by decide)]
  rw [if_neg (by decide)]
  rw [if_neg (by simp [info_set_tp, info_set_af, info_set_local,
    TRANSPORT_PROTOCOL_DGRAM]; omega)]
  rw [if_neg (by omega)]
  rw [if_neg (by decide), if_neg (by simp [ADDR_FAMILY_INET]),
    if_neg (by simp [ADDR_FAMILY_INET6]), if_pos (by exact ⟨rfl, h216⟩)]
  have h21 : (0x21 : Nat) % 16 = 1 := by norm_num
  simp only [h21]
  have hp16 : (48 + proto) % 16 = proto := by omega
  rw [hp16]
  rw [hdrop16]
  have hdrop124 : (pp2_sig ++ 0x21 :: (48 + proto) :: (be16 len ++ body)).drop 124 =
      body.drop 108 := by
    rw [show (124 : Nat) = 16 + 108 by rfl, ← List.drop_drop, hdrop16]
  rw [hdrop124]
  rw [if_neg (by decide : ¬ (1 = 0))]

/-- Claim C5 (amended): the walk runs only while strictly more than 3
bytes remain — a trailing record of exactly 3 bytes, or 1..3 leftover
bytes, is skipped silently, not visited; while more than 3 bytes remain,
a record whose 3 + declared length exceeds them yields
ERR_PP2_TLV_LENGTH; and for the Unix family the TLV region is never
walked at all: a well-formed Unix header parses to 16 + len with no TLV
stored and the buffer untouched, whatever the region bytes hold. -/
theorem C5_tlv_walk_amended :
    (∀ hdr_span fuel pre suf remaining info, remaining ≤ 3 →
      pp2_tlv_loop hdr_span fuel pre suf remaining info = (none, pre ++ suf, info)) ∧
    (∀ hdr_span fuel pre suf remaining info, remaining > 3 →
      (3 + rd16 (suf.getD 1 0) (suf.getD 2 0)) % 65536 > remaining →
      pp2_tlv_loop hdr_span (fuel + 1) pre suf remaining info =
        (some (-ERR_PP2_TLV_LENGTH), pre ++ suf, info)) ∧
    (∀ proto len body, proto ≤ 2 → 216 ≤ len → len ≤ 65535 → body.length = len →
      (pp2_parse_hdr (pp2_sig ++ 0x21 :: (48 + proto) :: (be16 len ++ body)) (16 + len)
          zero_pp_info).1 = 16 + len ∧
      (pp2_parse_hdr (pp2_sig ++ 0x21 :: (48 + proto) :: (be16 len ++ body)) (16 + len)
          zero_pp_info).2.1 = pp2_sig ++ 0x21 :: (48 + proto) :: (be16 len ++ body) ∧
      (pp2_parse_hdr (pp2_sig ++ 0x21 :: (48 + proto) :: (be16 len ++ body)) (16 + len)
          zero_pp_info).2.2.pp2_info.tlv_array = []) := by
  refine ⟨fun h f p s r i h1 => pp2_tlv_loop_done h f p s r i h1,
    fun h f p s r i h1 h2 => pp2_tlv_loop_overrun h f p s r i h1 h2,
    fun proto len body hproto h216 hlen hbody => ?_⟩
  unfold pp2_parse_hdr
  rw [pp2_parse_prelude_unix proto len body zero_pp_info hproto h216 hlen hbody]
  dsimp only
  rw [pp2_tlv_loop_done _ _ _ _ _ _ (by omega)]
  dsimp only
  refine ⟨rfl, by rw [List.take_append_drop], rfl⟩

set_option maxRecDepth 8000 in
/-- Witness for the amended C5: the three parts applied at concrete
inputs (a 3-byte leftover, an overrunning record, and a 232-byte Unix
header). -/
theorem C5_tlv_walk_amended_witness :
    pp2_tlv_loop 0 5 [] [1, 2, 3] 3 zero_pp_info = (none, [1, 2, 3], zero_pp_info) ∧
    pp2_tlv_loop 0 5 [] [1, 0, 10, 0] 4 zero_pp_info =
      (some (-ERR_PP2_TLV_LENGTH), [1, 0, 10, 0], zero_pp_info) ∧
    (pp2_parse_hdr (pp2_sig ++ 0x21 :: (48 + 0) :: (be16 216 ++ List.replicate 216 0))
        (16 + 216) zero_pp_info).1 = 16 + 216 :=
  ⟨C5_tlv_walk_amended.1 0 5 [] [1, 2, 3] 3 zero_pp_info (by omega),
   C5_tlv_walk_amended.2.1 0 4 [] [1, 0, 10, 0] 4 zero_pp_info (by omega) (by decide),
   (C5_tlv_walk_amended.2.2 0 216 (List.replicate 216 0) (by omega) (by omega)
      (by omega) (by simp)).1⟩

/-! ### Buffer-mutation invariant (claim C7) -/

theorem onlyZeroed_refl (l : List Nat) : onlyZeroed l l := ⟨rfl, fun _ => .inl rfl⟩

theorem onlyZeroed_trans {a b c : List Nat} (h1 : onlyZeroed a b) (h2 : onlyZeroed b c) :
    onlyZeroed a c := by
  refine ⟨h2.1.trans h1.1, fun i => ?_⟩
  rcases h2.2 i with h | h
  · rw [h]; exact h1.2 i
  · exact .inr h

theorem onlyZeroed_set {a b : List Nat} (i : Nat) (h : onlyZeroed a b) :
    onlyZeroed a (b.set i 0) := by
  refine ⟨(List.length_set b i 0).trans h.1, fun j => ?_⟩
  rw [List.getD_eq_getElem?_getD, List.getElem?_set]
  split_ifs with hij hlt
  · right; rfl
  · right; rfl
  · rw [← List.getD_eq_getElem?_getD]; exact h.2 j

theorem onlyZeroed_memsetZero (l : List Nat) (off n : Nat) :
    onlyZeroed l (memsetZero l off n) := by
  unfold memsetZero
  induction n with
  | zero => exact onlyZeroed_refl l
  | succ k ih =>
    rw [List.range_succ, List.foldl_append]
    simp only [List.foldl_cons, List.foldl_nil]
    exact onlyZeroed_set _ ih

theorem onlyZeroed_append {suf suf2 : List Nat} (pre : List Nat)
    (h : onlyZeroed suf suf2) : onlyZeroed (pre ++ suf) (pre ++ suf2) := by
  refine ⟨by simp [h.1], fun i => ?_⟩
  by_cases hi : i < pre.length
  · rw [List.getD_append _ _ _ _ hi, List.getD_append _ _ _ _ hi]
    exact .inl rfl
  · rw [List.getD_append_right _ _ _ _ (by omega),
      List.getD_append_right _ _ _ _ (by omega)]
    exact h.2 _

theorem pp2_tlv_step_buffer_ok (hdr_span : Nat) (pre suf : List Nat) (tlv_len : Nat)
    (info : pp_info_t) {suf2 : List Nat} {info2 : pp_info_t}
    (h : pp2_tlv_step hdr_span pre suf tlv_len info = .ok (suf2, info2)) :
    onlyZeroed suf suf2 := by
  unfold pp2_tlv_step at h
  dsimp only at h
  repeat' split at h
  all_goals try exact Except.noConfusion h
  all_goals injection h with h
  all_goals simp only [Prod.mk.injEq] at h
  all_goals obtain ⟨he, -⟩ := h
  all_goals subst he
  all_goals try exact onlyZeroed_refl suf
  all_goals exact onlyZeroed_memsetZero suf 3 4

theorem pp2_tlv_step_buffer_error (hdr_span : Nat) (pre suf : List Nat) (tlv_len : Nat)
    (info : pp_info_t) {e : Int} {buf : List Nat} {info2 : pp_info_t}
    (h : pp2_tlv_step hdr_span pre suf tlv_len info = .error (e, buf, info2)) :
    onlyZeroed (pre ++ suf) buf := by
  unfold pp2_tlv_step at h
  dsimp only at h
  repeat' split at h
  all_goals try exact Except.noConfusion h
  all_goals injection h with h
  all_goals simp only [Prod.mk.injEq] at h
  all_goals obtain ⟨-, hb, -⟩ := h
  all_goals subst hb
  all_goals try exact onlyZeroed_refl _
  all_goals exact onlyZeroed_append pre (onlyZeroed_memsetZero suf 3 4)

theorem pp2_tlv_loop_buffer (hdr_span : Nat) :
    ∀ fuel pre suf remaining info o buf info2,
      pp2_tlv_loop hdr_span fuel pre suf remaining info = (o, buf, info2) →
      onlyZeroed (pre ++ suf) buf := by
  intro fuel
  induction fuel with
  | zero =>
    intro pre suf remaining info o buf info2 h
    rw [pp2_tlv_loop.eq_def] at h
    dsimp only at h
    split at h <;>
      (simp only [Prod.mk.injEq] at h; obtain ⟨-, hb, -⟩ := h; subst hb;
       exact onlyZeroed_refl _)
  | succ n ih =>
    intro pre suf remaining info o buf info2 h
    rw [pp2_tlv_loop.eq_def] at h
    dsimp only at h
    split at h
    · split at h
      · simp only [Prod.mk.injEq] at h
        obtain ⟨-, hb, -⟩ := h; subst hb
        exact onlyZeroed_refl _
      · split at h
        · rename_i heq
          simp only [Prod.mk.injEq] at h
          obtain ⟨-, hb, -⟩ := h; subst hb
          exact pp2_tlv_step_buffer_error _ _ _ _ _ heq
        · rename_i suf2 info2' heq
          split at h
          · simp only [Prod.mk.injEq] at h
            obtain ⟨-, hb, -⟩ := h; subst hb
            exact onlyZeroed_append pre (pp2_tlv_step_buffer_ok _ _ _ _ _ heq)
          · have hrec := ih _ _ _ _ _ _ _ h
            rw [List.append_assoc, List.take_append_drop] at hrec
            exact onlyZeroed_trans
              (onlyZeroed_append pre (pp2_tlv_step_buffer_ok _ _ _ _ _ heq)) hrec
    · simp only [Prod.mk.injEq] at h
      obtain ⟨-, hb, -⟩ := h; subst hb
      exact onlyZeroed_refl _

/-- Claim C7 (amended): on return from `pp2_parse_hdr` the caller's
buffer keeps its length and every byte is either its original value or
has been zeroed in place (the parser's only store into the buffer is the
memset of a CRC32C TLV's 4-byte value, which it never restores — see the
counterexample, where the CRC field is zeroed on return). -/
theorem C7_buffer_mutation_amended (buffer : List Nat) (buffer_length : Nat)
    (info : pp_info_t) :
    onlyZeroed buffer (pp2_parse_hdr buffer buffer_length info).2.1 := by
  unfold pp2_parse_hdr
  rcases hpre : pp2_parse_prelude buffer buffer_length info with ⟨e, i3⟩ | ⟨len, off, tlen, i4⟩
  · dsimp only
    exact onlyZeroed_refl buffer
  · dsimp only
    rcases hloop : pp2_tlv_loop (16 + len) (tlen + 1) (buffer.take off) (buffer.drop off)
        tlen i4 with ⟨o, buf, i5⟩
    have h := pp2_tlv_loop_buffer _ _ _ _ _ _ _ _ _ hloop
    rw [List.take_append_drop] at h
    rcases o with - | e <;> exact h

/-! ### v1 tokenizer lemmas (claim C8) -/

theorem takeD_pad {l : List Nat} {n : Nat} (d : Nat) (h : l.length ≤ n) :
    List.takeD n l d = l ++ List.replicate (n - l.length) d := by
  induction l generalizing n with
  | nil => simp
  | cons a t ih =>
    cases n with
    | zero => simp at h
    | succ m =>
      simp only [List.takeD_succ, List.head?_cons, Option.getD_some, List.tail_cons,
        List.cons_append, List.cons.injEq, true_and]
      rw [ih (by simpa using h)]
      simp [Nat.succ_sub_succ]

theorem cstr_append_replicate {A : List Nat} (k : Nat) (hA : ∀ c ∈ A, c ≠ 0) :
    cstr (A ++ List.replicate k 0) = A := by
  unfold cstr
  induction A with
  | nil =>
    cases k with
    | zero => rfl
    | succ m => simp [List.replicate_succ, List.takeWhile_cons]
  | cons a t ih =>
    rw [List.cons_append, List.takeWhile_cons]
    have ha : a ≠ 0 := hA a (by simp)
    rw [if_pos (by simp [ha]), ih (fun c hc => hA c (by simp [hc]))]

theorem find_crlf_append {A : List Nat} (r : List Nat) (hA : ∀ c ∈ A, c ≠ 13) :
    find_crlf (A ++ 13 :: 10 :: r) = some A.length := by
  induction A with
  | nil => simp [find_crlf]
  | cons a t ih =>
    have ha : a ≠ 13 := hA a (by simp)
    rw [List.cons_append]
    simp only [find_crlf, ha, false_and, if_false]
    rw [ih (fun c hc => hA c (by simp [hc]))]
    simp

theorem findIdx?_none_of_all {l : List Nat} (c : Nat) (h : ∀ x ∈ l, x ≠ c) :
    l.findIdx? (· == c) = none := by
  induction l with
  | nil => rfl
  | cons a t ih =>
    rw [List.findIdx?_cons]
    have ha : a ≠ c := h a (by simp)
    simp only [beq_eq_false_iff_ne.2 ha, Bool.false_eq_true, if_false]
    have := ih (fun x hx => h x (by simp [hx]))
    rw [List.findIdx?_succ]
    simp [this]

theorem findIdx?_append_found {A : List Nat} (c : Nat) (r : List Nat)
    (h : ∀ x ∈ A, x ≠ c) : (A ++ c :: r).findIdx? (· == c) = some A.length := by
  induction A with
  | nil => simp [List.findIdx?_cons]
  | cons a t ih =>
    rw [List.cons_append, List.findIdx?_cons]
    have ha : a ≠ c := h a (by simp)
    simp only [beq_eq_false_iff_ne.2 ha, Bool.false_eq_true, if_false]
    rw [List.findIdx?_succ, ih (fun x hx => h x (by simp [hx]))]
    simp

theorem take_append_replicate {A : List Nat} {n m : Nat} (h : n ≤ A.length + m) :
    (A ++ List.replicate m 0).take n = List.takeD n A 0 := by
  induction A generalizing n with
  | nil =>
    rw [List.nil_append, List.take_replicate]
    simp only [List.length_nil, Nat.zero_add] at h
    simp [Nat.min_eq_left h, List.takeD_nil]
  | cons a t ih =>
    cases n with
    | zero => simp
    | succ k =>
      simp only [List.cons_append, List.take_succ_cons, List.takeD_succ, List.head?_cons,
        Option.getD_some, List.tail_cons, List.cons.injEq, true_and]
      exact ih (by simp at h ⊢; omega)

/-- All bytes of the v1 header prefix are nonzero, below 256 and not CR. -/
theorem proxy_prefix_bytes : ∀ c ∈ strBytes "PROXY ", 0 < c ∧ c < 256 ∧ c ≠ 13 := by decide

/-- The memcmp the family dispatch performs, reduced to the token region:
comparing `pat.length` bytes at block offset 6 is comparing against the
token region padded with the CRLF and zero fill. -/
theorem memcmp_at_block6 (T pat : List Nat) (hpat : pat.length ≤ 102) :
    memcmp_at ((strBytes "PROXY " ++ T ++ [13, 10]) ++ List.replicate (100 - T.length) 0)
        6 pat = (List.takeD pat.length (T ++ [13, 10]) 0 == pat) := by
  unfold memcmp_at
  have hd : ((strBytes "PROXY " ++ T ++ [13, 10]) ++ List.replicate (100 - T.length) 0).drop 6
      = (T ++ [13, 10]) ++ List.replicate (100 - T.length) 0 := by
    have : (strBytes "PROXY " ++ T ++ [13, 10]) ++ List.replicate (100 - T.length) 0
        = strBytes "PROXY " ++ ((T ++ [13, 10]) ++ List.replicate (100 - T.length) 0) := by
      simp [List.append_assoc]
    rw [this, show (6 : Nat) = (strBytes "PROXY ").length from rfl, List.drop_left]
  rw [hd, take_append_replicate (by simp; omega)]

/-- Reduction of `pp1_parse_hdr` on a header PROXY SP T CRLF whose body
T holds no NUL and no CR: the block, the C string and the CRLF position
all compute, leaving the family dispatch. -/
theorem pp1_parse_hdr_reduce (T : List Nat)
    (hT : ∀ c ∈ T, 0 < c ∧ c < 256 ∧ c ≠ 13) (hlen : T.length ≤ 99) :
    pp1_parse_hdr (strBytes "PROXY " ++ T ++ [13, 10])
        (strBytes "PROXY " ++ T ++ [13, 10]).length zero_pp_info =
      (let block := (strBytes "PROXY " ++ T ++ [13, 10]) ++
          List.replicate (100 - T.length) 0
       let s := strBytes "PROXY " ++ T ++ [13, 10]
       let L : Int := ((6 + T.length : Nat) : Int) + 2
       match strchr_from s 6 32 with
       | none =>
         if L = 15 ∨ memcmp_at block 6 (strBytes "UNKNOWN") then
           (L, info_set_family zero_pp_info ADDR_FAMILY_UNSPEC TRANSPORT_PROTOCOL_UNSPEC)
         else (-ERR_PP1_TRANSPORT_FAMILY, zero_pp_info)
       | some _ =>
         if memcmp_at block 6 (strBytes "TCP4") then
           pp1_addresses block s L true
             (info_set_family zero_pp_info ADDR_FAMILY_INET TRANSPORT_PROTOCOL_STREAM)
         else if memcmp_at block 6 (strBytes "TCP6") then
           pp1_addresses block s L false
             (info_set_family zero_pp_info ADDR_FAMILY_INET6 TRANSPORT_PROTOCOL_STREAM)
         else if memcmp_at block 6 (strBytes "UNKNOWN") then
           (L, info_set_family zero_pp_info ADDR_FAMILY_UNSPEC TRANSPORT_PROTOCOL_UNSPEC)
         else (-ERR_PP1_TRANSPORT_FAMILY, zero_pp_info)) := by
  have hlenB : (strBytes "PROXY " ++ T ++ [13, 10]).length = 8 + T.length := by
    simp [strBytes]; omega
  have hbytes : ∀ x ∈ strBytes "PROXY " ++ T ++ [13, 10], x < 256 := by
    intro x hx
    rcases List.mem_append.1 hx with hx | hx
    · rcases List.mem_append.1 hx with hx | hx
      · exact (proxy_prefix_bytes x hx).2.1
      · exact (hT x hx).2.1
    · simp only [List.mem_cons, List.not_mem_nil, or_false] at hx
      rcases hx with rfl | rfl <;> omega
  have hnozero : ∀ x ∈ strBytes "PROXY " ++ T ++ [13, 10], x ≠ 0 := by
    intro x hx
    rcases List.mem_append.1 hx with hx | hx
    · rcases List.mem_append.1 hx with hx | hx
      · have := (proxy_prefix_bytes x hx).1; omega
      · have := (hT x hx).1; omega
    · simp only [List.mem_cons, List.not_mem_nil, or_false] at hx
      rcases hx with rfl | rfl <;> omega
  have hnoCR : ∀ x ∈ strBytes "PROXY " ++ T, x ≠ 13 := by
    intro x hx
    rcases List.mem_append.1 hx with hx | hx
    · exact (proxy_prefix_bytes x hx).2.2
    · exact (hT x hx).2.2
  unfold pp1_parse_hdr
  dsimp only
  rw [hlenB]
  rw [Nat.min_eq_left (by omega : 8 + T.length ≤ 108)]
  have htake : (strBytes "PROXY " ++ T ++ [13, 10]).take (8 + T.length)
      = strBytes "PROXY " ++ T ++ [13, 10] := by
    rw [← hlenB, List.take_length]
  rw [htake, map_mod256_id hbytes]
  have hblock : List.takeD 108 (strBytes "PROXY " ++ T ++ [13, 10]) 0
      = (strBytes "PROXY " ++ T ++ [13, 10]) ++ List.replicate (100 - T.length) 0 := by
    rw [takeD_pad 0 (by rw [hlenB]; omega), hlenB]
    have h8 : 108 - (8 + T.length) = 100 - T.length := by omega
    rw [h8]
  rw [hblock]
  have hs : cstr ((strBytes "PROXY " ++ T ++ [13, 10]) ++ List.replicate (100 - T.length) 0)
      = strBytes "PROXY " ++ T ++ [13, 10] := cstr_append_replicate _ hnozero
  rw [hs]
  have hcrlf : find_crlf (strBytes "PROXY " ++ T ++ [13, 10]) = some (6 + T.length) := by
    have : strBytes "PROXY " ++ T ++ [13, 10]
        = (strBytes "PROXY " ++ T) ++ 13 :: 10 :: [] := by simp
    rw [this, find_crlf_append _ hnoCR]
    simp [strBytes]
    omega
  rw [hcrlf]
  have hproxy : memcmp_at ((strBytes "PROXY " ++ T ++ [13, 10]) ++
      List.replicate (100 - T.length) 0) 0 (strBytes "PROXY") = true := by
    unfold memcmp_at
    rfl
  rw [hproxy]
  have hspace : ((strBytes "PROXY " ++ T ++ [13, 10]) ++
      List.replicate (100 - T.length) 0).getD 5 0 = 32 := rfl
  rw [hspace]
  dsimp only
  rw [if_neg (by simp)]
  rw [if_neg (by simp)]

theorem drop6_proxy (T : List Nat) :
    (strBytes "PROXY " ++ T ++ [13, 10]).drop 6 = T ++ [13, 10] := by
  rw [List.append_assoc, show (6 : Nat) = (strBytes "PROXY ").length from rfl, List.drop_left]

theorem strchr_from_none_of_no_space (T : List Nat) (h : ∀ c ∈ T, c ≠ 32) :
    strchr_from (strBytes "PROXY " ++ T ++ [13, 10]) 6 32 = none := by
  unfold strchr_from
  have hall : ∀ x ∈ T ++ [13, 10], x ≠ 32 := by
    intro x hx
    rcases List.mem_append.1 hx with hx | hx
    · exact h x hx
    · simp only [List.mem_cons, List.not_mem_nil, or_false] at hx
      rcases hx with rfl | rfl <;> omega
  rw [drop6_proxy, findIdx?_none_of_all 32 hall]
  rfl

theorem findIdx?_isSome_of_mem {l : List Nat} (c : Nat) (h : c ∈ l) :
    (l.findIdx? (· == c)).isSome = true := by
  induction l with
  | nil => cases h
  | cons a t ih =>
    rw [List.findIdx?_cons]
    by_cases hac : (a == c) = true
    · rw [if_pos hac]; rfl
    · rw [if_neg hac, List.findIdx?_succ]
      have hct : c ∈ t := by
        rcases List.mem_cons.1 h with rfl | ht
        · exact absurd (by simp) hac
        · exact ht
      simpa using ih hct

theorem strchr_from_isSome_of_space (T : List Nat) (h : 32 ∈ T) :
    (strchr_from (strBytes "PROXY " ++ T ++ [13, 10]) 6 32).isSome = true := by
  unfold strchr_from
  rw [drop6_proxy]
  simpa using findIdx?_isSome_of_mem 32 (List.mem_append_left [13, 10] h)

/-- Claim C8 (amended): for a v1 header `PROXY <T>\r\n` whose token body
T holds no NUL and no CR, the v1 parser returns `-ERR_PP1_TRANSPORT_FAMILY`
precisely outside the code's acceptance conditions, which are wider than
UNKNOWN/TCP4/TCP6 equality: with no space in T, a header of exactly 15
bytes (T of 7 bytes) is accepted as the UNKNOWN short form REGARDLESS of
the token's content, and otherwise acceptance needs only the first 7 bytes
after "PROXY " to equal "UNKNOWN" (a prefix match, not a token match);
with a space in T, the error is returned whenever none of the prefix
comparisons against "TCP4", "TCP6", "UNKNOWN" at offset 6 succeeds. -/
theorem C8_transport_family_amended (T : List Nat)
    (hT : ∀ c ∈ T, 0 < c ∧ c < 256 ∧ c ≠ 13) (hlen : T.length ≤ 99) :
    ((∀ c ∈ T, c ≠ 32) →
      (T.length = 7 →
        pp1_parse_hdr (strBytes "PROXY " ++ T ++ [13, 10])
            (strBytes "PROXY " ++ T ++ [13, 10]).length zero_pp_info =
          (15, info_set_family zero_pp_info ADDR_FAMILY_UNSPEC TRANSPORT_PROTOCOL_UNSPEC)) ∧
      (T.length ≠ 7 → List.takeD 7 (T ++ [13, 10]) 0 ≠ strBytes "UNKNOWN" →
        (pp1_parse_hdr (strBytes "PROXY " ++ T ++ [13, 10])
            (strBytes "PROXY " ++ T ++ [13, 10]).length zero_pp_info).1 =
          -ERR_PP1_TRANSPORT_FAMILY)) ∧
    (32 ∈ T →
      List.takeD 4 (T ++ [13, 10]) 0 ≠ strBytes "TCP4" →
      List.takeD 4 (T ++ [13, 10]) 0 ≠ strBytes "TCP6" →
      List.takeD 7 (T ++ [13, 10]) 0 ≠ strBytes "UNKNOWN" →
      (pp1_parse_hdr (strBytes "PROXY " ++ T ++ [13, 10])
          (strBytes "PROXY " ++ T ++ [13, 10]).length zero_pp_info).1 =
        -ERR_PP1_TRANSPORT_FAMILY) := by
  rw [pp1_parse_hdr_reduce T hT hlen]
  dsimp only
  refine ⟨fun hnosp => ?_, fun hsp h4 h6 h7 => ?_⟩
  · rw [strchr_from_none_of_no_space T hnosp]
    dsimp only
    refine ⟨fun hT7 => ?_, fun hT7 hUNK => ?_⟩
    · rw [if_pos (Or.inl (by rw [hT7]; rfl))]
      rw [hT7]
      rfl
    · rw [memcmp_at_block6 T (strBytes "UNKNOWN") (by decide),
        show (strBytes "UNKNOWN").length = 7 from rfl]
      rw [if_neg ?_]
      rintro (h1 | h2)
      · exact hT7 (by omega)
      · exact hUNK (eq_of_beq h2)
  · obtain ⟨j, hj⟩ := Option.isSome_iff_exists.1 (strchr_from_isSome_of_space T hsp)
    rw [hj]
    dsimp only
    rw [memcmp_at_block6 T (strBytes "TCP4") (by decide),
      show (strBytes "TCP4").length = 4 from rfl,
      memcmp_at_block6 T (strBytes "TCP6") (by decide),
      show (strBytes "TCP6").length = 4 from rfl,
      memcmp_at_block6 T (strBytes "UNKNOWN") (by decide),
      show (strBytes "UNKNOWN").length = 7 from rfl]
    rw [if_neg (fun h => h4 (eq_of_beq h)), if_neg (fun h => h6 (eq_of_beq h)),
      if_neg (fun h => h7 (eq_of_beq h))]

/-- Witness for the amended C8: the header "PROXY JUNK X\r\n" (a space,
but a token matching none of the three prefixes) is rejected with
-ERR_PP1_TRANSPORT_FAMILY. -/
theorem C8_transport_family_amended_witness :
    (pp1_parse_hdr (strBytes "PROXY " ++ strBytes "JUNK X" ++ [13, 10])
        (strBytes "PROXY " ++ strBytes "JUNK X" ++ [13, 10]).length zero_pp_info).1 =
      -ERR_PP1_TRANSPORT_FAMILY :=
  (C8_transport_family_amended (strBytes "JUNK X") (by decide) (by decide)).2
    (by decide) (by decide) (by decide) (by decide)

/-- Claim C9 (amended): a getter inspects only the FIRST stored TLV whose
type matches.  When no TLV of the type exists the result is null with
length 0; when the first type-match needs no subtype, its value and
declared length are returned; with a required subtype, a matching leading
byte yields value+1 and length-1, and a differing leading byte yields
null with the output length left at that first TLV's declared length (not
0) — even when a later TLV of the same type carries the wanted subtype. -/
theorem C9_getter_amended (info : pp_info_t) (ty subtype : Nat) :
    (info.pp2_info.tlv_array.find? (fun t => t.type == ty) = none →
      pp_info_get_tlv_value info ty subtype = (none, 0)) ∧
    (∀ t, info.pp2_info.tlv_array.find? (fun t => t.type == ty) = some t →
      (subtype = 0 → pp_info_get_tlv_value info ty subtype = (some t.value, t.len)) ∧
      (subtype > 0 → t.value.getD 0 0 = subtype →
        pp_info_get_tlv_value info ty subtype =
          (some (t.value.drop 1), (t.len + 65535) % 65536)) ∧
      (subtype > 0 → t.value.getD 0 0 ≠ subtype →
        pp_info_get_tlv_value info ty subtype = (none, t.len))) := by
  unfold pp_info_get_tlv_value
  rw [get_tlv_value_loop_eq_find]
  constructor
  · intro h; rw [h]
  · intro t h; rw [h]; dsimp only
    refine ⟨fun h0 => ?_, fun h1 h2 => ?_, fun h1 h2 => ?_⟩
    · rw [if_neg (by omega)]
    · rw [if_pos h1, if_pos h2]
    · rw [if_pos h1, if_neg h2]

/-- Witness for the amended C9, at the two-AWS-TLV record. -/
theorem C9_getter_amended_witness :
    pp_info_get_tlv_value c9_info PP2_TYPE_AWS PP2_SUBTYPE_AWS_VPCE_ID =
      (none, (tlv_new PP2_TYPE_AWS 2 [2, 65]).len) := by
  exact ((C9_getter_amended c9_info PP2_TYPE_AWS PP2_SUBTYPE_AWS_VPCE_ID).2
    (tlv_new PP2_TYPE_AWS 2 [2, 65]) (by decide)).2.2 (by decide) (by decide)

/-- Claim C10 (confirmed): `pp_parse_hdr` zero-initialises the entire
output record before any parsing — its result does not depend on the
prior content of the output record — and whenever it returns 0 the
output record is entirely zeroed. -/
theorem C10_zero_init_confirmed (buffer : List Nat) (buffer_length : Nat)
    (prior : pp_info_t) :
    pp_parse_hdr buffer buffer_length prior =
      pp_parse_hdr buffer buffer_length zero_pp_info ∧
    ((pp_parse_hdr buffer buffer_length prior).1 = 0 →
      (pp_parse_hdr buffer buffer_length prior).2.2 = zero_pp_info) := by
  refine ⟨rfl, ?_⟩
  unfold pp_parse_hdr
  split_ifs with h1 h2
  · intro h; exact absurd h (pp2_parse_hdr_fst_ne_zero _ _ _)
  · intro h; exact absurd h (pp1_parse_hdr_fst_ne_zero _ _ _)
  · intro _; rfl

/-- Witness for C10 at a non-matching buffer and a nonzero prior record. -/
theorem C10_zero_init_confirmed_witness :
    pp_parse_hdr [1, 2, 3] 3 { zero_pp_info with src_port := 7 } =
      pp_parse_hdr [1, 2, 3] 3 zero_pp_info ∧
    (pp_parse_hdr [1, 2, 3] 3 { zero_pp_info with src_port := 7 }).2.2 = zero_pp_info :=
  ⟨(C10_zero_init_confirmed [1, 2, 3] 3 { zero_pp_info with src_port := 7 }).1,
   (C10_zero_init_confirmed [1, 2, 3] 3 { zero_pp_info with src_port := 7 }).2 (by decide)⟩

/-- Claim C4 (code bug): on a v1 TCP4 header whose source address fails
inet_pton, `pp1_parse_hdr` returns the POSITIVE value
`ERR_PP1_IPV4_SRC_IP = 22` — the unary minus is missing in the source —
while the claim (and the return-value contract of the spec) requires the
negative code. -/
theorem C4_v1_positive_error_code_bug :
    (pp1_parse_hdr c4_bytes c4_bytes.length zero_pp_info).1 = ERR_PP1_IPV4_SRC_IP ∧
    (0 : Int) < (pp1_parse_hdr c4_bytes c4_bytes.length zero_pp_info).1 := by decide

/-- Claim C6 (code bug): `pp_info_add_ssl` derives bit 2 of the client
byte from `cert_in_connection` instead of `cert_in_session`.  With
`ssl = 1, cert_in_connection = 0, cert_in_session = 1` the composed value
starts with client byte 1, whereas the claim's formula
`ssl OR cert_in_connection << 1 OR cert_in_session << 2` gives 5. -/
theorem C6_add_ssl_client_code_bug :
    (pp_info_add_ssl_value c6_ssl_info (some (strBytes "TLSv1.3")) none none none none
      0).getD 0 999 = 1 ∧
    c6_ssl_info.ssl ||| c6_ssl_info.cert_in_connection <<< 1 |||
      c6_ssl_info.cert_in_session <<< 2 = 5 := by decide

/-- Claim C3 (code bug): with `alignment_power = 2` and an unpadded size
of 16 (already a multiple of 4), `pp2_create_hdr` returns header length
16 — but still writes the 3 NOOP TLV header bytes, placing them at
offsets 16..18, past the end of its 16-byte allocation: the written
sequence is 19 bytes long while the returned length is 16, and no NOOP
TLV lies inside the returned 16 bytes. -/
theorem C3_alignment_code_bug :
    pp2_create_hdr c3_info =
      .ok (pp2_sig ++ [0x20, 0x00, 0x00, 0x00, 0x04, 0x00, 0x00], 16) ∧
    (pp2_sig ++ [(0x20 : Nat), 0x00, 0x00, 0x00, 0x04, 0x00, 0x00]).length = 19 :=
  ⟨by rfl, by decide⟩

/-- Claim C9 (counterexample): on a record holding an AWS TLV of subtype
2 followed by an AWS TLV of subtype 1, the AWS getter stops at the first
type match, returns null because its subtype differs, and leaves the
output length at that first TLV's length (2): it neither returns the
matching second TLV nor sets the length to 0. -/
theorem C9_getter_counterexample :
    pp_info_get_aws_vpce_id c9_info = (none, 2) := by decide

/-- Claim C8 (counterexample): the 15-byte header "PROXY ZZZZZZZ\r\n",
whose token is none of UNKNOWN/TCP4/TCP6, is accepted (returns 15, the
UNKNOWN short form) instead of returning -ERR_PP1_TRANSPORT_FAMILY. -/
theorem C8_transport_family_counterexample :
    (pp1_parse_hdr c8_bytes c8_bytes.length zero_pp_info).1 = 15 ∧
    (15 : Int) ≠ -ERR_PP1_TRANSPORT_FAMILY := by decide

/-- Claim C1 (counterexample): the record `c1_info` (Local, one
zero-length ALPN TLV) is accepted by the serializer, re-parsing its 19
serialized bytes succeeds, but the zero-length ALPN record is never
visited (the walk stops with exactly 3 bytes remaining), so the TLV
sequences differ and the semantic equivalence fails. -/
theorem C1_roundtrip_counterexample :
    pp2_create_hdr c1_info = .ok (c1_bytes, 19) ∧
    (pp2_parse_hdr c1_bytes 19 zero_pp_info).1 = 19 ∧
    ¬ pp_info_equiv c1_info (pp2_parse_hdr c1_bytes 19 zero_pp_info).2.2 :=
  ⟨by rfl, by decide, by decide⟩

/-- Claim C7 (counterexample): parsing the CRC-protected header
`c7_bytes` succeeds, but the caller's buffer is NOT unchanged on return:
the four CRC bytes are zeroed in place and never restored. -/
theorem C7_buffer_mutation_counterexample :
    pp2_create_hdr c7_info = .ok (c7_bytes, 23) ∧
    (pp2_parse_hdr c7_bytes 23 zero_pp_info).1 = 23 ∧
    (pp2_parse_hdr c7_bytes 23 zero_pp_info).2.1 ≠ c7_bytes :=
  ⟨by rfl, by decide, by decide⟩

/-- Claim C5 (counterexample): a Unix-family v2 header whose TLV region
holds a record whose 3 + declared length (13) exceeds the remaining 4
bytes.  The claim requires ERR_PP2_TLV_LENGTH; the parser accepts the
header (236) because it never walks the TLV region of a Unix header. -/
theorem C5_tlv_walk_counterexample :
    (pp2_parse_hdr c5_bytes 236 zero_pp_info).1 = 236 ∧
    (pp2_parse_hdr c5_bytes 236 zero_pp_info).2.2.pp2_info.tlv_array = [] ∧
    (236 : Int) ≠ -ERR_PP2_TLV_LENGTH := by decide

/-- Claim C2 (counterexample): flipping byte 12 (the version/command
byte) of the CRC-protected serialized header `c7_bytes` — a position
outside the 4-byte CRC field — makes re-parse fail with
-ERR_PP2_VERSION, not -ERR_PP2_TYPE_CRC32C. -/
theorem C2_crc_flip_counterexample :
    (pp2_parse_hdr (c7_bytes.set 12 (255 - 0x20)) 23 zero_pp_info).1 = -ERR_PP2_VERSION ∧
    -ERR_PP2_VERSION ≠ -ERR_PP2_TYPE_CRC32C := by decide

/-- Claim C2 (amended): for the CRC-protected serialized header
`c2_bytes` of `c2_info`, re-parse accepts and records the CRC flag; and
flipping (complementing) the byte at any position outside the 4-byte CRC
field that the parser does not validate before the CRC comparison — all
12 signature bytes, all 12 address-block bytes and both ALPN value
bytes — makes re-parse fail with -ERR_PP2_TYPE_CRC32C.  (Flips of bytes
12..15 or of TLV framing bytes can yield other errors — see the
counterexample — or even success, when the CRC TLV's own type byte is
changed and the TLV becomes unrecognized.) -/
theorem C2_crc_flip_amended :
    pp2_create_hdr c2_info = .ok (c2_bytes, 40) ∧
    (pp2_parse_hdr c2_bytes 40 zero_pp_info).1 = 40 ∧
    (pp2_parse_hdr c2_bytes 40 zero_pp_info).2.2.pp2_info.crc32c = 1 ∧
    c2_flip_positions.all (fun i =>
      (pp2_parse_hdr (c2_bytes.set i (255 - c2_bytes.getD i 0)) 40 zero_pp_info).1 ==
        -ERR_PP2_TYPE_CRC32C) = true :=
  ⟨by rfl, by decide, by decide, by decide⟩


/-! ### Round-trip infrastructure (claim C1) -/

theorem rd16_lt (hi lo : Nat) : rd16 hi lo < 65536 := by unfold rd16; omega

theorem tlv_len_lt (t : pp2_tlv_t) : t.len < 65536 := by
  unfold pp2_tlv_t.len; exact rd16_lt _ _

set_option maxRecDepth 4000 in
theorem dec_octet_dec_digits : ∀ n, n < 256 → dec_octet (dec_digits n) = some n := by decide

set_option maxRecDepth 4000 in
theorem dec_digits_digit : ∀ n, n < 256 → ∀ c ∈ dec_digits n, 48 ≤ c ∧ c ≤ 57 := by decide

theorem split_on_byte_no_sep {c : Nat} {A : List Nat} (h : ∀ x ∈ A, x ≠ c) :
    split_on_byte c A = [A] := by
  induction A with
  | nil => rfl
  | cons x xs ih =>
    rw [split_on_byte.eq_def]
    dsimp only
    rw [if_neg (h x (by simp)), ih (fun y hy => h y (by simp [hy]))]

theorem split_on_byte_append {c : Nat} {A : List Nat} (B : List Nat)
    (h : ∀ x ∈ A, x ≠ c) :
    split_on_byte c (A ++ c :: B) = A :: split_on_byte c B := by
  induction A with
  | nil =>
    rw [List.nil_append, split_on_byte.eq_def]
    dsimp only
    rw [if_pos rfl]
  | cons x xs ih =>
    rw [List.cons_append, split_on_byte.eq_def]
    dsimp only
    rw [if_neg (h x (by simp)), ih (fun y hy => h y (by simp [hy]))]

theorem inet_ntop4_eq {a b c d : Nat} (ha : a < 256) (hb : b < 256) (hc : c < 256)
    (hd : d < 256) :
    inet_ntop4 [a, b, c, d] =
      dec_digits a ++ (46 :: (dec_digits b ++ (46 :: (dec_digits c ++ (46 :: dec_digits d))))) := by
  unfold inet_ntop4
  have g0 : ([a, b, c, d] : List Nat).getD 0 0 = a := rfl
  have g1 : ([a, b, c, d] : List Nat).getD 1 0 = b := rfl
  have g2 : ([a, b, c, d] : List Nat).getD 2 0 = c := rfl
  have g3 : ([a, b, c, d] : List Nat).getD 3 0 = d := rfl
  rw [g0, g1, g2, g3, Nat.mod_eq_of_lt ha, Nat.mod_eq_of_lt hb, Nat.mod_eq_of_lt hc,
    Nat.mod_eq_of_lt hd]
  simp [List.append_assoc]

theorem dec_digits_ne_sep {n : Nat} (hn : n < 256) : ∀ x ∈ dec_digits n, x ≠ 46 := by
  intro x hx
  have := dec_digits_digit n hn x hx
  omega

theorem inet_pton4_ntop4 {a b c d : Nat} (ha : a < 256) (hb : b < 256) (hc : c < 256)
    (hd : d < 256) :
    inet_pton4 (inet_ntop4 [a, b, c, d]) = some [a, b, c, d] := by
  rw [inet_ntop4_eq ha hb hc hd]
  unfold inet_pton4
  rw [split_on_byte_append _ (dec_digits_ne_sep ha),
    split_on_byte_append _ (dec_digits_ne_sep hb),
    split_on_byte_append _ (dec_digits_ne_sep hc),
    split_on_byte_no_sep (dec_digits_ne_sep hd)]
  dsimp only
  rw [dec_octet_dec_digits a ha, dec_octet_dec_digits b hb, dec_octet_dec_digits c hc,
    dec_octet_dec_digits d hd]
  rfl

theorem inet_ntop4_nonzero {a b c d : Nat} (ha : a < 256) (hb : b < 256) (hc : c < 256)
    (hd : d < 256) : ∀ x ∈ inet_ntop4 [a, b, c, d], x ≠ 0 := by
  rw [inet_ntop4_eq ha hb hc hd]
  intro x hx
  rcases List.mem_append.1 hx with h1 | h1
  · have := dec_digits_digit a ha x h1; omega
  · rcases List.mem_cons.1 h1 with rfl | h1
    · omega
    · rcases List.mem_append.1 h1 with h2 | h2
      · have := dec_digits_digit b hb x h2; omega
      · rcases List.mem_cons.1 h2 with rfl | h2
        · omega
        · rcases List.mem_append.1 h2 with h3 | h3
          · have := dec_digits_digit c hc x h3; omega
          · rcases List.mem_cons.1 h3 with rfl | h3
            · omega
            · have := dec_digits_digit d hd x h3; omega

theorem cstr_storeCStr {text : List Nat} (h : ∀ c ∈ text, c ≠ 0) :
    cstr (storeCStr (List.replicate 108 0) text) = text := by
  unfold storeCStr memcpyFront
  rw [List.drop_replicate]
  have hmerge : (text ++ [0]) ++ List.replicate (108 - (text ++ [0]).length) 0
      = text ++ List.replicate (108 - (text ++ [0]).length + 1) 0 := by
    rw [List.append_assoc, List.singleton_append, ← List.replicate_succ]
  rw [hmerge, cstr_append_replicate _ h]

theorem foldl_tlv_len (ts : List pp2_tlv_t) : ∀ init, init + sum_tlv_len ts ≤ 65535 →
    ts.foldl (fun acc t => (acc + (3 + t.len) % 65536) % 65536) init
      = init + sum_tlv_len ts := by
  induction ts with
  | nil => intro init h; simp [sum_tlv_len]
  | cons t rest ih =>
    intro init h
    have hsum : sum_tlv_len (t :: rest) = 3 + t.len + sum_tlv_len rest := by
      simp [sum_tlv_len]
    rw [hsum] at h
    rw [List.foldl_cons, Nat.mod_eq_of_lt (show 3 + t.len < 65536 by omega),
      Nat.mod_eq_of_lt (show init + (3 + t.len) < 65536 by omega),
      ih _ (by omega), hsum]
    omega

theorem sum_tlv_len_cons (t : pp2_tlv_t) (rest : List pp2_tlv_t) :
    sum_tlv_len (t :: rest) = 3 + t.len + sum_tlv_len rest := by
  simp [sum_tlv_len]

theorem sum_tlv_len_ge (ts : List pp2_tlv_t) : ts.length ≤ sum_tlv_len ts := by
  induction ts with
  | nil => simp [sum_tlv_len]
  | cons t rest ih =>
    rw [sum_tlv_len_cons]
    simp only [List.length_cons]
    omega

theorem tlv_wire_length {t : pp2_tlv_t} (hb : 3 + t.len ≤ 65535) :
    (tlv_wire t).length = 3 + t.len := by
  unfold tlv_wire
  rw [List.takeD_length, Nat.mod_eq_of_lt (by omega)]

theorem tlv_wire_eq {t : pp2_tlv_t} (h1 : t.type < 256) (h2 : t.length_hi < 256)
    (h3 : t.length_lo < 256) (h4 : t.value.length = t.len) (h5 : ∀ b ∈ t.value, b < 256)
    (hb : 3 + t.len ≤ 65535) :
    tlv_wire t = t.type :: t.length_hi :: t.length_lo :: t.value := by
  unfold tlv_wire
  rw [Nat.mod_eq_of_lt (show 3 + t.len < 65536 by omega), Nat.mod_eq_of_lt h1,
    Nat.mod_eq_of_lt h2, Nat.mod_eq_of_lt h3, map_mod256_id h5]
  exact takeD_exact 0 (by simp only [List.length_cons, h4]; omega)

theorem tlv_len_decomp {t : pp2_tlv_t} (h2 : t.length_hi < 256) (h3 : t.length_lo < 256) :
    t.len = t.length_hi * 256 + t.length_lo := by
  unfold pp2_tlv_t.len rd16; omega

theorem tlv_new_wf_eq {t : pp2_tlv_t} (hwf : tlv_wf t) (X : List Nat) :
    tlv_new t.type t.len (t.value ++ X) = t := by
  obtain ⟨h1, h2, h3, h4, h5, -⟩ := hwf
  have hlt : t.len < 65536 := tlv_len_lt t
  have hdec := tlv_len_decomp h2 h3
  unfold tlv_new
  dsimp only
  rw [Nat.mod_eq_of_lt hlt]
  cases t with
  | mk ty hi lo v =>
    simp only [pp2_tlv_t.mk.injEq] at *
    refine ⟨Nat.mod_eq_of_lt h1, by omega, by omega, ?_⟩
    rw [List.map_append, takeD_append_exact 0 (by simp [h4])]
    exact map_mod256_id h5

theorem tlvs_wire_cons (t : pp2_tlv_t) (ts : List pp2_tlv_t) :
    tlvs_wire (t :: ts) = tlv_wire t ++ tlvs_wire ts := by
  simp [tlvs_wire]

theorem tlvs_wire_length (ts : List pp2_tlv_t) (h : sum_tlv_len ts ≤ 65535) :
    (tlvs_wire ts).length = sum_tlv_len ts := by
  induction ts with
  | nil => simp [tlvs_wire, sum_tlv_len]
  | cons t rest ih =>
    rw [sum_tlv_len_cons] at h
    rw [tlvs_wire_cons, List.length_append, tlv_wire_length (by omega), ih (by omega),
      sum_tlv_len_cons]

theorem tlvs_semantic_eq_self {ts : List pp2_tlv_t} (h : ∀ t ∈ ts, tlv_wf t) :
    tlvs_semantic ts = ts := by
  unfold tlvs_semantic
  refine List.filter_eq_self.2 (fun t ht => ?_)
  have h6 := (h t ht).2.2.2.2.2
  simp only [decide_eq_true_eq]
  rcases h6 with h6 | h6 | ⟨h6, -⟩ <;>
    simp [h6, PP2_TYPE_ALPN, PP2_TYPE_AUTHORITY, PP2_TYPE_UNIQUE_ID, PP2_TYPE_NOOP,
      PP2_TYPE_CRC32C]

theorem tlvs_semantic_append_crc {ts : List pp2_tlv_t} (h : ∀ t ∈ ts, tlv_wf t)
    (v : List Nat) :
    tlvs_semantic (ts ++ [tlv_new PP2_TYPE_CRC32C 4 v]) = ts := by
  have h1 : tlvs_semantic (ts ++ [tlv_new PP2_TYPE_CRC32C 4 v])
      = tlvs_semantic ts ++ tlvs_semantic [tlv_new PP2_TYPE_CRC32C 4 v] := by
    simp [tlvs_semantic, List.filter_append]
  have h2 : tlvs_semantic [tlv_new PP2_TYPE_CRC32C 4 v] = [] := by
    simp [tlvs_semantic, tlv_new, PP2_TYPE_CRC32C, PP2_TYPE_NOOP]
  rw [h1, h2, tlvs_semantic_eq_self h, List.append_nil]

theorem or16_eq : ∀ tp, tp < 16 → (16 ||| tp) = 16 + tp := by decide

theorem info_append_tlv_wf {info : pp_info_t} {t : pp2_tlv_t} (hwf : tlv_wf t)
    (R : List Nat) :
    info_append_tlv info t.type t.len (t.value ++ R)
      = { info with pp2_info.tlv_array := info.pp2_info.tlv_array ++ [t] } := by
  unfold info_append_tlv tlv_array_append_tlv_new
  rw [tlv_new_wf_eq hwf R]

theorem pp2_tlv_step_wf (hspan : Nat) (pre : List Nat) (t : pp2_tlv_t) (R : List Nat)
    (info : pp_info_t) (hwf : tlv_wf t) :
    pp2_tlv_step hspan pre (t.type :: t.length_hi :: t.length_lo :: (t.value ++ R)) t.len
        info
      = .ok (t.type :: t.length_hi :: t.length_lo :: (t.value ++ R),
          { info with pp2_info.tlv_array := info.pp2_info.tlv_array ++ [t] }) := by
  obtain ⟨h1, h2, h3, h4, h5, hty⟩ := hwf
  rcases hty with hty | hty | ⟨hty, hle⟩
  · have hnew := tlv_new_wf_eq ⟨h1, h2, h3, h4, h5, .inl hty⟩ R
    rw [hty] at hnew ⊢
    have hstep : pp2_tlv_step hspan pre
        (PP2_TYPE_ALPN :: t.length_hi :: t.length_lo :: (t.value ++ R)) t.len info
        = .ok (PP2_TYPE_ALPN :: t.length_hi :: t.length_lo :: (t.value ++ R),
            info_append_tlv info PP2_TYPE_ALPN t.len (t.value ++ R)) := rfl
    rw [hstep]
    simp only [info_append_tlv, tlv_array_append_tlv_new, hnew]
  · have hnew := tlv_new_wf_eq ⟨h1, h2, h3, h4, h5, .inr (.inl hty)⟩ R
    rw [hty] at hnew ⊢
    have hstep : pp2_tlv_step hspan pre
        (PP2_TYPE_AUTHORITY :: t.length_hi :: t.length_lo :: (t.value ++ R)) t.len info
        = .ok (PP2_TYPE_AUTHORITY :: t.length_hi :: t.length_lo :: (t.value ++ R),
            info_append_tlv info PP2_TYPE_AUTHORITY t.len (t.value ++ R)) := rfl
    rw [hstep]
    simp only [info_append_tlv, tlv_array_append_tlv_new, hnew]
  · have hnew := tlv_new_wf_eq ⟨h1, h2, h3, h4, h5, .inr (.inr ⟨hty, hle⟩)⟩ R
    rw [hty] at hnew ⊢
    have hstep : pp2_tlv_step hspan pre
        (PP2_TYPE_UNIQUE_ID :: t.length_hi :: t.length_lo :: (t.value ++ R)) t.len info
        = if t.len > 128 then
            .error (-ERR_PP2_TYPE_UNIQUE_ID,
              pre ++ (PP2_TYPE_UNIQUE_ID :: t.length_hi :: t.length_lo :: (t.value ++ R)),
              info)
          else .ok (PP2_TYPE_UNIQUE_ID :: t.length_hi :: t.length_lo :: (t.value ++ R),
            info_append_tlv info PP2_TYPE_UNIQUE_ID t.len (t.value ++ R)) := rfl
    rw [hstep, if_neg (by omega)]
    simp only [info_append_tlv, tlv_array_append_tlv_new, hnew]

theorem pp2_tlv_loop_wires (hspan : Nat) :
    ∀ (ts : List pp2_tlv_t), (∀ t ∈ ts, tlv_wf t) → sum_tlv_len ts ≤ 65532 →
    ∀ k, (0 < k ∨ ∀ tl, ts.getLast? = some tl → 0 < tl.len) →
    ∀ f pre tail info,
    pp2_tlv_loop hspan (ts.length + f) pre (tlvs_wire ts ++ tail) (sum_tlv_len ts + k)
        info =
      pp2_tlv_loop hspan f (pre ++ tlvs_wire ts) tail k
        { info with pp2_info.tlv_array := info.pp2_info.tlv_array ++ ts } := by
  intro ts
  induction ts with
  | nil =>
    intro _ _ k _ f pre tail info
    simp only [List.length_nil, Nat.zero_add, tlvs_wire, List.map_nil, List.flatten_nil,
      List.nil_append, sum_tlv_len, List.sum_nil, List.append_nil]
  | cons t rest ih =>
    intro hwf hbound k hk f pre tail info
    obtain ⟨h1, h2, h3, h4, h5, hty⟩ := hwf t (by simp)
    have hwfc : tlv_wf t := ⟨h1, h2, h3, h4, h5, hty⟩
    have hsum := sum_tlv_len_cons t rest
    have hb3 : 3 + t.len ≤ 65535 := by omega
    have hsuf : tlvs_wire (t :: rest) ++ tail
        = t.type :: t.length_hi :: t.length_lo :: (t.value ++ (tlvs_wire rest ++ tail)) := by
      rw [tlvs_wire_cons, tlv_wire_eq h1 h2 h3 h4 h5 hb3]
      simp [List.append_assoc]
    rw [hsuf]
    have hgt : sum_tlv_len (t :: rest) + k > 3 := by
      rcases rest with _ | ⟨r, rs⟩
      · rcases hk with hk | hk
        · omega
        · have := hk t (by simp)
          omega
      · have hs2 := sum_tlv_len_cons r rs
        omega
    conv_lhs => rw [pp2_tlv_loop.eq_def]
    dsimp only
    rw [if_pos hgt]
    have hfuel : (t :: rest).length + f = rest.length + f + 1 := by
      simp only [List.length_cons]
      omega
    rw [hfuel]
    dsimp only
    rw [show (t.type :: t.length_hi :: t.length_lo ::
        (t.value ++ (tlvs_wire rest ++ tail))).getD 1 0 = t.length_hi from rfl,
      show (t.type :: t.length_hi :: t.length_lo ::
        (t.value ++ (tlvs_wire rest ++ tail))).getD 2 0 = t.length_lo from rfl,
      show rd16 t.length_hi t.length_lo = t.len from rfl,
      Nat.mod_eq_of_lt (show 3 + t.len < 65536 by omega),
      if_neg (show ¬ 3 + t.len > sum_tlv_len (t :: rest) + k by omega),
      pp2_tlv_step_wf hspan pre t (tlvs_wire rest ++ tail) info hwfc]
    dsimp only
    rw [if_neg (show ¬ 3 + t.len = 0 by omega)]
    have htake : (t.type :: t.length_hi :: t.length_lo ::
        (t.value ++ (tlvs_wire rest ++ tail))).take (3 + t.len)
        = t.type :: t.length_hi :: t.length_lo :: t.value := by
      rw [show 3 + t.len = t.len + 1 + 1 + 1 from by omega]
      simp only [List.take_succ_cons]
      rw [← h4, List.take_left]
    have hdrop : (t.type :: t.length_hi :: t.length_lo ::
        (t.value ++ (tlvs_wire rest ++ tail))).drop (3 + t.len)
        = tlvs_wire rest ++ tail := by
      rw [show 3 + t.len = t.len + 1 + 1 + 1 from by omega]
      simp only [List.drop_succ_cons]
      rw [← h4, List.drop_left]
    rw [htake, hdrop]
    have hrem : sum_tlv_len (t :: rest) + k - (3 + t.len) = sum_tlv_len rest + k := by
      omega
    rw [hrem]
    have hk2 : 0 < k ∨ ∀ tl, rest.getLast? = some tl → 0 < tl.len := by
      rcases hk with hk | hk
      · exact .inl hk
      · right
        intro tl htl
        apply hk
        rcases rest with _ | ⟨r, rs⟩
        · simp at htl
        · rw [List.getLast?_cons_cons]
          exact htl
    rw [ih (fun x hx => hwf x (by simp [hx])) (by omega) k hk2 f
      (pre ++ (t.type :: t.length_hi :: t.length_lo :: t.value)) tail
      { info with pp2_info.tlv_array := info.pp2_info.tlv_array ++ [t] }]
    congr 1
    · rw [tlvs_wire_cons, tlv_wire_eq h1 h2 h3 h4 h5 hb3]
      simp [List.append_assoc]
    · cases info with
      | mk af tp sa da sp dp p2 =>
        cases p2 with
        | mk lf crc ap ssl arr =>
          simp [List.append_assoc]

theorem pp2_create_addr_unspec (pi : pp_info_t)
    (haf : pi.address_family = ADDR_FAMILY_UNSPEC)
    (hloc : pi.pp2_info.local_flag % 256 ≠ 0) :
    pp2_create_addr pi = .ok (0x20, [], 0) := by
  unfold pp2_create_addr
  rw [haf]
  rw [if_pos (by decide : (ADDR_FAMILY_UNSPEC : Nat) % 256 = ADDR_FAMILY_UNSPEC)]
  rw [if_neg hloc]

theorem pp2_create_addr_inet (pi : pp_info_t) (a1 a2 a3 a4 b1 b2 b3 b4 : Nat)
    (haf : pi.address_family = ADDR_FAMILY_INET)
    (ha1 : a1 < 256) (ha2 : a2 < 256) (ha3 : a3 < 256) (ha4 : a4 < 256)
    (hb1 : b1 < 256) (hb2 : b2 < 256) (hb3 : b3 < 256) (hb4 : b4 < 256)
    (hsrc : cstr pi.src_addr = inet_ntop4 [a1, a2, a3, a4])
    (hdst : cstr pi.dst_addr = inet_ntop4 [b1, b2, b3, b4]) :
    pp2_create_addr pi = .ok (0x21,
      [a1, a2, a3, a4] ++ [b1, b2, b3, b4] ++ be16 pi.src_port ++ be16 pi.dst_port,
      12) := by
  unfold pp2_create_addr
  rw [haf]
  rw [if_neg (by decide : ¬ (ADDR_FAMILY_INET : Nat) % 256 = ADDR_FAMILY_UNSPEC)]
  rw [if_pos (by decide : (ADDR_FAMILY_INET : Nat) % 256 = ADDR_FAMILY_INET)]
  rw [hsrc, inet_pton4_ntop4 ha1 ha2 ha3 ha4]
  dsimp only
  rw [hdst, inet_pton4_ntop4 hb1 hb2 hb3 hb4]

theorem pp2_create_hdr_eval (pi : pp_info_t) (ver_cmd : Nat) (addrB : List Nat) (pal : Nat)
    (haddr : pp2_create_addr pi = .ok (ver_cmd, addrB, pal))
    (haddrlen : addrB.length = pal)
    (htp : pi.transport_protocol % 256 ≤ 2)
    (halign : pi.pp2_info.alignment_power % 256 ≤ 1)
    (hsz : 16 + pal + sum_tlv_len pi.pp2_info.tlv_array + 7 ≤ 65535) :
    pp2_create_hdr pi = .ok (
      (if pi.pp2_info.crc32c % 256 ≠ 0 then
        ((pp2_sig ++ ver_cmd ::
            (((pi.address_family % 256) <<< 4 ||| pi.transport_protocol % 256) % 256) ::
            be16 (pal + sum_tlv_len pi.pp2_info.tlv_array + 7) ++ addrB ++
            tlvs_wire pi.pp2_info.tlv_array) ++ [PP2_TYPE_CRC32C, 0, 4]) ++
          le32 (crc32c
            ((pp2_sig ++ ver_cmd ::
                (((pi.address_family % 256) <<< 4 ||| pi.transport_protocol % 256) % 256) ::
                be16 (pal + sum_tlv_len pi.pp2_info.tlv_array + 7) ++ addrB ++
                tlvs_wire pi.pp2_info.tlv_array) ++ [PP2_TYPE_CRC32C, 0, 4, 0, 0, 0, 0]))
      else
        pp2_sig ++ ver_cmd ::
          (((pi.address_family % 256) <<< 4 ||| pi.transport_protocol % 256) % 256) ::
          be16 (pal + sum_tlv_len pi.pp2_info.tlv_array) ++ addrB ++
          tlvs_wire pi.pp2_info.tlv_array),
      if pi.pp2_info.crc32c % 256 ≠ 0 then
        16 + (pal + sum_tlv_len pi.pp2_info.tlv_array + 7)
      else 16 + (pal + sum_tlv_len pi.pp2_info.tlv_array)) := by
  unfold pp2_create_hdr
  rw [haddr]
  dsimp only
  rw [if_neg (show ¬ pi.transport_protocol % 256 > TRANSPORT_PROTOCOL_DGRAM from by
    simp only [TRANSPORT_PROTOCOL_DGRAM]; omega)]
  rw [foldl_tlv_len _ pal (by omega)]
  by_cases hc : pi.pp2_info.crc32c % 256 = 0
  · simp only [if_neg (show ¬ pi.pp2_info.crc32c % 256 ≠ 0 from by omega)]
    rw [Nat.mod_eq_of_lt (show 16 + (pal + sum_tlv_len pi.pp2_info.tlv_array) < 65536 from
      by omega)]
    simp only [if_neg (show ¬ pi.pp2_info.alignment_power % 256 > 1 from by omega)]
    rfl
  · simp only [if_pos (show pi.pp2_info.crc32c % 256 ≠ 0 from hc)]
    rw [Nat.mod_eq_of_lt (show pal + sum_tlv_len pi.pp2_info.tlv_array + 7 < 65536 from
      by omega)]
    rw [Nat.mod_eq_of_lt (show 16 + (pal + sum_tlv_len pi.pp2_info.tlv_array + 7) < 65536
      from by omega)]
    simp only [if_neg (show ¬ pi.pp2_info.alignment_power % 256 > 1 from by omega)]
    have hBlen : (pp2_sig ++ ver_cmd ::
        (((pi.address_family % 256) <<< 4 ||| pi.transport_protocol % 256) % 256) ::
        be16 (pal + sum_tlv_len pi.pp2_info.tlv_array + 7) ++ addrB ++
        (pi.pp2_info.tlv_array.map tlv_wire).flatten).length
        = 16 + pal + sum_tlv_len pi.pp2_info.tlv_array := by
      rw [show (pi.pp2_info.tlv_array.map tlv_wire).flatten
          = tlvs_wire pi.pp2_info.tlv_array from rfl]
      simp only [List.length_append, List.length_cons, haddrlen,
        tlvs_wire_length pi.pp2_info.tlv_array (by omega), pp2_sig, be16,
        List.length_nil]
    have hpre4 : ((pp2_sig ++ ver_cmd ::
        (((pi.address_family % 256) <<< 4 ||| pi.transport_protocol % 256) % 256) ::
        be16 (pal + sum_tlv_len pi.pp2_info.tlv_array + 7) ++ addrB ++
        (pi.pp2_info.tlv_array.map tlv_wire).flatten) ++ [PP2_TYPE_CRC32C, 0, 4]) ++
        [0, 0, 0, 0]
        = (pp2_sig ++ ver_cmd ::
        (((pi.address_family % 256) <<< 4 ||| pi.transport_protocol % 256) % 256) ::
        be16 (pal + sum_tlv_len pi.pp2_info.tlv_array + 7) ++ addrB ++
        (pi.pp2_info.tlv_array.map tlv_wire).flatten) ++
        [PP2_TYPE_CRC32C, 0, 4, 0, 0, 0, 0] := by
      simp
    rw [hpre4, takeD_exact 0 (by
      simp only [List.length_append, hBlen, List.length_cons, List.length_nil]
      omega)]
    rfl

/-- The prelude accepts a well-formed Inet-family header (flat byte
form) and hands the walk the region after the 12-byte address block. -/
theorem pp2_parse_prelude_inet (tp L1 sp dp a1 a2 a3 a4 b1 b2 b3 b4 : Nat)
    (rest : List Nat) (info : pp_info_t)
    (htp : tp ≤ 2) (hL : 12 ≤ L1) (hL2 : L1 ≤ 65535) (hsp : sp < 65536)
    (hdp : dp < 65536) :
    pp2_parse_prelude (pp2_sig ++ 0x21 :: (16 + tp) :: (L1 / 256 % 256) :: (L1 % 256) :: a1 :: a2 :: a3 :: a4 :: b1 :: b2 :: b3 :: b4 :: (sp / 256 % 256) :: (sp % 256) :: (dp / 256 % 256) :: (dp % 256) :: rest) (16 + L1) info
      = .ok (L1, 28, L1 - 12,
          info_store_endpoints (info_set_tp (info_set_af (info_set_local info 0) 1) tp)
            (inet_ntop4 [a1, a2, a3, a4]) (inet_ntop4 [b1, b2, b3, b4]) sp dp) := by
  have h12 : (pp2_sig ++ 0x21 :: (16 + tp) :: (L1 / 256 % 256) :: (L1 % 256) :: a1 :: a2 :: a3 :: a4 :: b1 :: b2 :: b3 :: b4 :: (sp / 256 % 256) :: (sp % 256) :: (dp / 256 % 256) :: (dp % 256) :: rest).getD 12 0 = 0x21 := by
    have := getD_sig_append (0x21 :: (16 + tp) :: (L1 / 256 % 256) :: (L1 % 256) :: a1 :: a2 :: a3 :: a4 :: b1 :: b2 :: b3 :: b4 :: (sp / 256 % 256) :: (sp % 256) :: (dp / 256 % 256) :: (dp % 256) :: rest) 0 0
    simpa using this
  have h13 : (pp2_sig ++ 0x21 :: (16 + tp) :: (L1 / 256 % 256) :: (L1 % 256) :: a1 :: a2 :: a3 :: a4 :: b1 :: b2 :: b3 :: b4 :: (sp / 256 % 256) :: (sp % 256) :: (dp / 256 % 256) :: (dp % 256) :: rest).getD 13 0 = 16 + tp := by
    have := getD_sig_append (0x21 :: (16 + tp) :: (L1 / 256 % 256) :: (L1 % 256) :: a1 :: a2 :: a3 :: a4 :: b1 :: b2 :: b3 :: b4 :: (sp / 256 % 256) :: (sp % 256) :: (dp / 256 % 256) :: (dp % 256) :: rest) 1 0
    simpa using this
  have h14 : (pp2_sig ++ 0x21 :: (16 + tp) :: (L1 / 256 % 256) :: (L1 % 256) :: a1 :: a2 :: a3 :: a4 :: b1 :: b2 :: b3 :: b4 :: (sp / 256 % 256) :: (sp % 256) :: (dp / 256 % 256) :: (dp % 256) :: rest).getD 14 0 = L1 / 256 % 256 := by
    have := getD_sig_append (0x21 :: (16 + tp) :: (L1 / 256 % 256) :: (L1 % 256) :: a1 :: a2 :: a3 :: a4 :: b1 :: b2 :: b3 :: b4 :: (sp / 256 % 256) :: (sp % 256) :: (dp / 256 % 256) :: (dp % 256) :: rest) 2 0
    simpa using this
  have h15 : (pp2_sig ++ 0x21 :: (16 + tp) :: (L1 / 256 % 256) :: (L1 % 256) :: a1 :: a2 :: a3 :: a4 :: b1 :: b2 :: b3 :: b4 :: (sp / 256 % 256) :: (sp % 256) :: (dp / 256 % 256) :: (dp % 256) :: rest).getD 15 0 = L1 % 256 := by
    have := getD_sig_append (0x21 :: (16 + tp) :: (L1 / 256 % 256) :: (L1 % 256) :: a1 :: a2 :: a3 :: a4 :: b1 :: b2 :: b3 :: b4 :: (sp / 256 % 256) :: (sp % 256) :: (dp / 256 % 256) :: (dp % 256) :: rest) 3 0
    simpa using this
  have h24 : (pp2_sig ++ 0x21 :: (16 + tp) :: (L1 / 256 % 256) :: (L1 % 256) :: a1 :: a2 :: a3 :: a4 :: b1 :: b2 :: b3 :: b4 :: (sp / 256 % 256) :: (sp % 256) :: (dp / 256 % 256) :: (dp % 256) :: rest).getD 24 0 = sp / 256 % 256 := by
    have := getD_sig_append (0x21 :: (16 + tp) :: (L1 / 256 % 256) :: (L1 % 256) :: a1 :: a2 :: a3 :: a4 :: b1 :: b2 :: b3 :: b4 :: (sp / 256 % 256) :: (sp % 256) :: (dp / 256 % 256) :: (dp % 256) :: rest) 12 0
    simpa using this
  have h25 : (pp2_sig ++ 0x21 :: (16 + tp) :: (L1 / 256 % 256) :: (L1 % 256) :: a1 :: a2 :: a3 :: a4 :: b1 :: b2 :: b3 :: b4 :: (sp / 256 % 256) :: (sp % 256) :: (dp / 256 % 256) :: (dp % 256) :: rest).getD 25 0 = sp % 256 := by
    have := getD_sig_append (0x21 :: (16 + tp) :: (L1 / 256 % 256) :: (L1 % 256) :: a1 :: a2 :: a3 :: a4 :: b1 :: b2 :: b3 :: b4 :: (sp / 256 % 256) :: (sp % 256) :: (dp / 256 % 256) :: (dp % 256) :: rest) 13 0
    simpa using this
  have h26 : (pp2_sig ++ 0x21 :: (16 + tp) :: (L1 / 256 % 256) :: (L1 % 256) :: a1 :: a2 :: a3 :: a4 :: b1 :: b2 :: b3 :: b4 :: (sp / 256 % 256) :: (sp % 256) :: (dp / 256 % 256) :: (dp % 256) :: rest).getD 26 0 = dp / 256 % 256 := by
    have := getD_sig_append (0x21 :: (16 + tp) :: (L1 / 256 % 256) :: (L1 % 256) :: a1 :: a2 :: a3 :: a4 :: b1 :: b2 :: b3 :: b4 :: (sp / 256 % 256) :: (sp % 256) :: (dp / 256 % 256) :: (dp % 256) :: rest) 14 0
    simpa using this
  have h27 : (pp2_sig ++ 0x21 :: (16 + tp) :: (L1 / 256 % 256) :: (L1 % 256) :: a1 :: a2 :: a3 :: a4 :: b1 :: b2 :: b3 :: b4 :: (sp / 256 % 256) :: (sp % 256) :: (dp / 256 % 256) :: (dp % 256) :: rest).getD 27 0 = dp % 256 := by
    have := getD_sig_append (0x21 :: (16 + tp) :: (L1 / 256 % 256) :: (L1 % 256) :: a1 :: a2 :: a3 :: a4 :: b1 :: b2 :: b3 :: b4 :: (sp / 256 % 256) :: (sp % 256) :: (dp / 256 % 256) :: (dp % 256) :: rest) 15 0
    simpa using this
  unfold pp2_parse_prelude
  dsimp only
  rw [h12, h13, h14, h15]
  rw [show (0x21 : Nat) % 256 = 0x21 from rfl]
  rw [if_neg (by decide : ¬ (0x21 : Nat) >>> 4 ≠ 0x2)]
  rw [if_neg (by decide : ¬ ¬ ((0x21 : Nat) % 16 = 0 ∨ (0x21 : Nat) % 16 = 1))]
  rw [Nat.mod_eq_of_lt (show 16 + tp < 256 by omega)]
  have hshift : (16 + tp) >>> 4 = 1 := by
    rw [Nat.shiftRight_eq_div_pow]
    omega
  rw [hshift]
  rw [if_neg (by decide : ¬ ¬ ((1 : Nat) = ADDR_FAMILY_UNSPEC ∨ (1 : Nat) = ADDR_FAMILY_INET
    ∨ (1 : Nat) = ADDR_FAMILY_INET6 ∨ (1 : Nat) = ADDR_FAMILY_UNIX))]
  have hp16 : (16 + tp) % 16 = tp := by omega
  rw [hp16]
  rw [if_neg (by simp [info_set_tp, info_set_af, info_set_local,
    TRANSPORT_PROTOCOL_DGRAM]; omega)]
  rw [rd16_be16 (show L1 < 65536 by omega)]
  rw [if_neg (by omega : ¬ 16 + L1 < 16 + L1)]
  rw [if_neg (by decide : ¬ (1 : Nat) = ADDR_FAMILY_UNSPEC)]
  rw [if_pos (show (1 : Nat) = ADDR_FAMILY_INET ∧ L1 ≥ 12 from ⟨rfl, hL⟩)]
  rw [show (pp2_sig ++ 0x21 :: (16 + tp) :: (L1 / 256 % 256) :: (L1 % 256) :: a1 :: a2 :: a3 :: a4 :: b1 :: b2 :: b3 :: b4 :: (sp / 256 % 256) :: (sp % 256) :: (dp / 256 % 256) :: (dp % 256) :: rest).drop 16 = a1 :: a2 :: a3 :: a4 :: b1 :: b2 :: b3 :: b4 :: (sp / 256 % 256) :: (sp % 256) :: (dp / 256 % 256) :: (dp % 256) :: rest from rfl]
  rw [show (a1 :: a2 :: a3 :: a4 :: b1 :: b2 :: b3 :: b4 :: (sp / 256 % 256) :: (sp % 256) :: (dp / 256 % 256) :: (dp % 256) :: rest).take 4 = [a1, a2, a3, a4] from rfl]
  rw [show (pp2_sig ++ 0x21 :: (16 + tp) :: (L1 / 256 % 256) :: (L1 % 256) :: a1 :: a2 :: a3 :: a4 :: b1 :: b2 :: b3 :: b4 :: (sp / 256 % 256) :: (sp % 256) :: (dp / 256 % 256) :: (dp % 256) :: rest).drop 20 = b1 :: b2 :: b3 :: b4 :: (sp / 256 % 256) :: (sp % 256) :: (dp / 256 % 256) :: (dp % 256) :: rest from rfl]
  rw [show (b1 :: b2 :: b3 :: b4 :: (sp / 256 % 256) :: (sp % 256) :: (dp / 256 % 256) :: (dp % 256) :: rest).take 4 = [b1, b2, b3, b4] from rfl]
  rw [h24, h25, h26, h27]
  rw [rd16_be16 hsp, rd16_be16 hdp]
  rw [if_neg (by decide : ¬ (0x21 : Nat) % 16 = 0)]

/-- The prelude accepts a well-formed Local/Unspec header (flat byte
form): the whole declared length is the TLV region. -/
theorem pp2_parse_prelude_unspec (tp L1 : Nat) (rest : List Nat) (info : pp_info_t)
    (htp : tp ≤ 2) (hL2 : L1 ≤ 65535) :
    pp2_parse_prelude (pp2_sig ++ 0x20 :: tp :: (L1 / 256 % 256) :: (L1 % 256) :: rest) (16 + L1) info
      = .ok (L1, 16, L1, info_set_tp (info_set_af (info_set_local info 1) 0) tp) := by
  have h12 : (pp2_sig ++ 0x20 :: tp :: (L1 / 256 % 256) :: (L1 % 256) :: rest).getD 12 0 = 0x20 := by
    have := getD_sig_append (0x20 :: tp :: (L1 / 256 % 256) :: (L1 % 256) :: rest) 0 0
    simpa using this
  have h13 : (pp2_sig ++ 0x20 :: tp :: (L1 / 256 % 256) :: (L1 % 256) :: rest).getD 13 0 = tp := by
    have := getD_sig_append (0x20 :: tp :: (L1 / 256 % 256) :: (L1 % 256) :: rest) 1 0
    simpa using this
  have h14 : (pp2_sig ++ 0x20 :: tp :: (L1 / 256 % 256) :: (L1 % 256) :: rest).getD 14 0 = L1 / 256 % 256 := by
    have := getD_sig_append (0x20 :: tp :: (L1 / 256 % 256) :: (L1 % 256) :: rest) 2 0
    simpa using this
  have h15 : (pp2_sig ++ 0x20 :: tp :: (L1 / 256 % 256) :: (L1 % 256) :: rest).getD 15 0 = L1 % 256 := by
    have := getD_sig_append (0x20 :: tp :: (L1 / 256 % 256) :: (L1 % 256) :: rest) 3 0
    simpa using this
  unfold pp2_parse_prelude
  dsimp only
  rw [h12, h13, h14, h15]
  rw [show (0x20 : Nat) % 256 = 0x20 from rfl]
  rw [if_neg (by decide : ¬ (0x20 : Nat) >>> 4 ≠ 0x2)]
  rw [if_neg (by decide : ¬ ¬ ((0x20 : Nat) % 16 = 0 ∨ (0x20 : Nat) % 16 = 1))]
  rw [Nat.mod_eq_of_lt (show tp < 256 by omega)]
  have hshift : tp >>> 4 = 0 := by
    rw [Nat.shiftRight_eq_div_pow]
    omega
  rw [hshift]
  rw [if_neg (by decide : ¬ ¬ ((0 : Nat) = ADDR_FAMILY_UNSPEC ∨ (0 : Nat) = ADDR_FAMILY_INET
    ∨ (0 : Nat) = ADDR_FAMILY_INET6 ∨ (0 : Nat) = ADDR_FAMILY_UNIX))]
  have hp16 : tp % 16 = tp := by omega
  rw [hp16]
  rw [if_neg (by simp [info_set_tp, info_set_af, info_set_local,
    TRANSPORT_PROTOCOL_DGRAM]; omega)]
  rw [rd16_be16 (show L1 < 65536 by omega)]
  rw [if_neg (by omega : ¬ 16 + L1 < 16 + L1)]
  rw [if_pos (by decide : (0 : Nat) = ADDR_FAMILY_UNSPEC)]
  rw [show (0x20 : Nat) % 16 = 0 from rfl]
  rw [if_pos (rfl : (0 : Nat) = 0)]

set_option maxRecDepth 4000 in
/-- A CRC32C TLV closing the region: the received little-endian word
equals the CRC of the span with the value bytes zeroed, so the walk
stores the record, sets the flag and completes. -/
theorem pp2_tlv_loop_crc_tail (hspan f : Nat) (pre : List Nat) (info : pp_info_t) (v : Nat)
    (hv : v < 4294967296)
    (hcrc : crc32c (List.takeD hspan (pre ++ [PP2_TYPE_CRC32C, 0, 4, 0, 0, 0, 0]) 0) = v) :
    pp2_tlv_loop hspan (f + 1) pre (PP2_TYPE_CRC32C :: 0 :: 4 :: le32 v) 7 info
      = (none, pre ++ [PP2_TYPE_CRC32C, 0, 4, 0, 0, 0, 0],
          info_set_crc (info_append_tlv info PP2_TYPE_CRC32C 4 (le32 v))) := by
  have hm : memsetZero (PP2_TYPE_CRC32C :: 0 :: 4 :: le32 v) 3 4
      = [PP2_TYPE_CRC32C, 0, 4, 0, 0, 0, 0] := by rfl
  have hstep : pp2_tlv_step hspan pre (PP2_TYPE_CRC32C :: 0 :: 4 :: le32 v) 4 info
      = .ok ([PP2_TYPE_CRC32C, 0, 4, 0, 0, 0, 0],
          info_set_crc (info_append_tlv info PP2_TYPE_CRC32C 4 (le32 v))) := by
    unfold pp2_tlv_step
    rw [show (PP2_TYPE_CRC32C :: 0 :: 4 :: le32 v).getD 0 0 % 256 = 3 from rfl]
    dsimp only
    rw [if_neg (by decide : ¬ (4 : Nat) ≠ 4)]
    rw [hm]
    have hchk : rdle32 ((PP2_TYPE_CRC32C :: 0 :: 4 :: le32 v).getD 3 0)
        ((PP2_TYPE_CRC32C :: 0 :: 4 :: le32 v).getD 4 0)
        ((PP2_TYPE_CRC32C :: 0 :: 4 :: le32 v).getD 5 0)
        ((PP2_TYPE_CRC32C :: 0 :: 4 :: le32 v).getD 6 0) = v := by
      show rdle32 (v % 256) (v / 256 % 256) (v / 65536 % 256) (v / 16777216 % 256) = v
      exact rdle32_le32 hv
    rw [hchk, hcrc]
    rw [if_neg (by simp : ¬ v ≠ v)]
    rfl
  conv_lhs => rw [pp2_tlv_loop.eq_def]
  dsimp only
  rw [if_pos (by omega : (7 : Nat) > 3)]
  rw [show rd16 ((PP2_TYPE_CRC32C :: 0 :: 4 :: le32 v).getD 1 0)
      ((PP2_TYPE_CRC32C :: 0 :: 4 :: le32 v).getD 2 0) = 4 from rfl]
  rw [show ((3 : Nat) + 4) % 65536 = 7 from rfl]
  rw [if_neg (by omega : ¬ (7 : Nat) > 7)]
  rw [hstep]
  dsimp only
  rw [if_neg (by omega : ¬ (7 : Nat) = 0)]
  rw [show ([PP2_TYPE_CRC32C, 0, 4, 0, 0, 0, 0] : List Nat).take 7
      = [PP2_TYPE_CRC32C, 0, 4, 0, 0, 0, 0] from rfl,
    show ([PP2_TYPE_CRC32C, 0, 4, 0, 0, 0, 0] : List Nat).drop 7 = ([] : List Nat) from rfl,
    show (7 : Nat) - 7 = 0 from rfl]
  rw [pp2_tlv_loop_done _ _ _ _ _ _ (by omega)]
  rw [List.append_nil]

/-- Complete walk over a well-formed TLV region with no CRC record: all
records are stored and the walk completes (the last record must have a
nonzero length to be reached at all). -/
theorem pp2_tlv_loop_full_nocrc (hspan : Nat) (ts : List pp2_tlv_t)
    (hwf : ∀ t ∈ ts, tlv_wf t) (hb : sum_tlv_len ts ≤ 65532)
    (hlastne : ∀ tl, ts.getLast? = some tl → 0 < tl.len)
    (pre : List Nat) (info : pp_info_t) :
    pp2_tlv_loop hspan (sum_tlv_len ts + 1) pre (tlvs_wire ts) (sum_tlv_len ts) info
      = (none, pre ++ tlvs_wire ts,
          { info with pp2_info.tlv_array := info.pp2_info.tlv_array ++ ts }) := by
  have hW := pp2_tlv_loop_wires hspan ts hwf hb 0 (.inr hlastne)
    (sum_tlv_len ts + 1 - ts.length) pre [] info
  have hlen := sum_tlv_len_ge ts
  simp only [List.append_nil, Nat.add_zero] at hW
  rw [show ts.length + (sum_tlv_len ts + 1 - ts.length) = sum_tlv_len ts + 1 from by omega]
    at hW
  rw [hW, pp2_tlv_loop_done _ _ _ _ _ _ (by omega), List.append_nil]

/-- Complete walk over a well-formed TLV region closed by a matching
CRC32C record: all records and the CRC record are stored, the flag is
set, and the CRC value bytes are zeroed in place. -/
theorem pp2_tlv_loop_full_crc (hspan : Nat) (ts : List pp2_tlv_t)
    (hwf : ∀ t ∈ ts, tlv_wf t) (hb : sum_tlv_len ts ≤ 65528)
    (pre : List Nat) (info : pp_info_t) (v : Nat) (hv : v < 4294967296)
    (hcrc : crc32c (List.takeD hspan
      ((pre ++ tlvs_wire ts) ++ [PP2_TYPE_CRC32C, 0, 4, 0, 0, 0, 0]) 0) = v) :
    pp2_tlv_loop hspan (sum_tlv_len ts + 7 + 1) pre
        (tlvs_wire ts ++ (PP2_TYPE_CRC32C :: 0 :: 4 :: le32 v)) (sum_tlv_len ts + 7) info
      = (none, (pre ++ tlvs_wire ts) ++ [PP2_TYPE_CRC32C, 0, 4, 0, 0, 0, 0],
          info_set_crc (info_append_tlv
            { info with pp2_info.tlv_array := info.pp2_info.tlv_array ++ ts }
            PP2_TYPE_CRC32C 4 (le32 v))) := by
  have hW := pp2_tlv_loop_wires hspan ts hwf (by omega) 7 (.inl (by omega))
    (sum_tlv_len ts + 7 + 1 - ts.length) pre (PP2_TYPE_CRC32C :: 0 :: 4 :: le32 v) info
  have hlen := sum_tlv_len_ge ts
  rw [show ts.length + (sum_tlv_len ts + 7 + 1 - ts.length) = sum_tlv_len ts + 7 + 1
    from by omega] at hW
  rw [hW,
    show sum_tlv_len ts + 7 + 1 - ts.length = (sum_tlv_len ts + 7 - ts.length) + 1
      from by omega]
  exact pp2_tlv_loop_crc_tail hspan _ _ _ v hv hcrc

/-- Parsing a serialized Local/Unspec header without CRC. -/
theorem pp2_parse_unspec_nocrc (pi : pp_info_t)
    (hwf : ∀ t ∈ pi.pp2_info.tlv_array, tlv_wf t)
    (hsz : 35 + sum_tlv_len pi.pp2_info.tlv_array ≤ 65535)
    (htp : pi.transport_protocol ≤ 2)
    (hlastne : ∀ tl, (pi.pp2_info.tlv_array).getLast? = some tl → 0 < tl.len) :
    pp2_parse_hdr (pp2_sig ++ 0x20 :: pi.transport_protocol :: be16 (sum_tlv_len pi.pp2_info.tlv_array) ++ tlvs_wire pi.pp2_info.tlv_array) (16 + (sum_tlv_len pi.pp2_info.tlv_array)) zero_pp_info
      = ((16 : Int) + ((sum_tlv_len pi.pp2_info.tlv_array : Nat) : Int),
         ([13, 10, 13, 10, 0, 13, 10, 81, 85, 73, 84, 10, 0x20, pi.transport_protocol, (sum_tlv_len pi.pp2_info.tlv_array) / 256 % 256, (sum_tlv_len pi.pp2_info.tlv_array) % 256]) ++ tlvs_wire pi.pp2_info.tlv_array,
         { (info_set_tp (info_set_af (info_set_local zero_pp_info 1) 0) pi.transport_protocol) with pp2_info.tlv_array := (info_set_tp (info_set_af (info_set_local zero_pp_info 1) 0) pi.transport_protocol).pp2_info.tlv_array ++ pi.pp2_info.tlv_array }) := by
  rw [show (pp2_sig ++ 0x20 :: pi.transport_protocol :: be16 (sum_tlv_len pi.pp2_info.tlv_array) ++ tlvs_wire pi.pp2_info.tlv_array) = (pp2_sig ++ 0x20 :: pi.transport_protocol :: ((sum_tlv_len pi.pp2_info.tlv_array) / 256 % 256) :: ((sum_tlv_len pi.pp2_info.tlv_array) % 256) :: (tlvs_wire pi.pp2_info.tlv_array)) from by
    simp [be16, List.append_assoc, List.cons_append]]
  unfold pp2_parse_hdr
  rw [pp2_parse_prelude_unspec pi.transport_protocol (sum_tlv_len pi.pp2_info.tlv_array) (tlvs_wire pi.pp2_info.tlv_array) zero_pp_info htp
    (by omega)]
  dsimp only
  rw [show (pp2_sig ++ 0x20 :: pi.transport_protocol :: ((sum_tlv_len pi.pp2_info.tlv_array) / 256 % 256) :: ((sum_tlv_len pi.pp2_info.tlv_array) % 256) :: (tlvs_wire pi.pp2_info.tlv_array)).take 16 = ([13, 10, 13, 10, 0, 13, 10, 81, 85, 73, 84, 10, 0x20, pi.transport_protocol, (sum_tlv_len pi.pp2_info.tlv_array) / 256 % 256, (sum_tlv_len pi.pp2_info.tlv_array) % 256]) from rfl]
  rw [show (pp2_sig ++ 0x20 :: pi.transport_protocol :: ((sum_tlv_len pi.pp2_info.tlv_array) / 256 % 256) :: ((sum_tlv_len pi.pp2_info.tlv_array) % 256) :: (tlvs_wire pi.pp2_info.tlv_array)).drop 16 = tlvs_wire pi.pp2_info.tlv_array from rfl]
  rw [pp2_tlv_loop_full_nocrc (16 + (sum_tlv_len pi.pp2_info.tlv_array)) (pi.pp2_info.tlv_array) hwf (by omega) hlastne
    ([13, 10, 13, 10, 0, 13, 10, 81, 85, 73, 84, 10, 0x20, pi.transport_protocol, (sum_tlv_len pi.pp2_info.tlv_array) / 256 % 256, (sum_tlv_len pi.pp2_info.tlv_array) % 256]) (info_set_tp (info_set_af (info_set_local zero_pp_info 1) 0) pi.transport_protocol)]

/-- Parsing a serialized Local/Unspec header with CRC. -/
theorem pp2_parse_unspec_crc (pi : pp_info_t)
    (hwf : ∀ t ∈ pi.pp2_info.tlv_array, tlv_wf t)
    (hsz : 35 + sum_tlv_len pi.pp2_info.tlv_array ≤ 65535)
    (htp : pi.transport_protocol ≤ 2) :
    pp2_parse_hdr (((pp2_sig ++ 0x20 :: pi.transport_protocol :: be16 (sum_tlv_len pi.pp2_info.tlv_array + 7) ++ tlvs_wire pi.pp2_info.tlv_array) ++ [PP2_TYPE_CRC32C, 0, 4]) ++ le32 (crc32c ((pp2_sig ++ 0x20 :: pi.transport_protocol :: be16 (sum_tlv_len pi.pp2_info.tlv_array + 7) ++ tlvs_wire pi.pp2_info.tlv_array) ++ [PP2_TYPE_CRC32C, 0, 4, 0, 0, 0, 0]))) (16 + (sum_tlv_len pi.pp2_info.tlv_array + 7)) zero_pp_info
      = ((16 : Int) + ((sum_tlv_len pi.pp2_info.tlv_array + 7 : Nat) : Int),
         (([13, 10, 13, 10, 0, 13, 10, 81, 85, 73, 84, 10, 0x20, pi.transport_protocol, (sum_tlv_len pi.pp2_info.tlv_array + 7) / 256 % 256, (sum_tlv_len pi.pp2_info.tlv_array + 7) % 256]) ++ tlvs_wire pi.pp2_info.tlv_array) ++ [PP2_TYPE_CRC32C, 0, 4, 0, 0, 0, 0],
         info_set_crc (info_append_tlv { (info_set_tp (info_set_af (info_set_local zero_pp_info 1) 0) pi.transport_protocol) with pp2_info.tlv_array := (info_set_tp (info_set_af (info_set_local zero_pp_info 1) 0) pi.transport_protocol).pp2_info.tlv_array ++ pi.pp2_info.tlv_array } PP2_TYPE_CRC32C 4 (le32 (crc32c ((pp2_sig ++ 0x20 :: pi.transport_protocol :: be16 (sum_tlv_len pi.pp2_info.tlv_array + 7) ++ tlvs_wire pi.pp2_info.tlv_array) ++ [PP2_TYPE_CRC32C, 0, 4, 0, 0, 0, 0]))))) := by
  rw [show (((pp2_sig ++ 0x20 :: pi.transport_protocol :: be16 (sum_tlv_len pi.pp2_info.tlv_array + 7) ++ tlvs_wire pi.pp2_info.tlv_array) ++ [PP2_TYPE_CRC32C, 0, 4]) ++ le32 (crc32c ((pp2_sig ++ 0x20 :: pi.transport_protocol :: be16 (sum_tlv_len pi.pp2_info.tlv_array + 7) ++ tlvs_wire pi.pp2_info.tlv_array) ++ [PP2_TYPE_CRC32C, 0, 4, 0, 0, 0, 0]))) = (pp2_sig ++ 0x20 :: pi.transport_protocol :: ((sum_tlv_len pi.pp2_info.tlv_array + 7) / 256 % 256) :: ((sum_tlv_len pi.pp2_info.tlv_array + 7) % 256) :: (tlvs_wire pi.pp2_info.tlv_array ++ (PP2_TYPE_CRC32C :: 0 :: 4 :: le32 (crc32c ((pp2_sig ++ 0x20 :: pi.transport_protocol :: be16 (sum_tlv_len pi.pp2_info.tlv_array + 7) ++ tlvs_wire pi.pp2_info.tlv_array) ++ [PP2_TYPE_CRC32C, 0, 4, 0, 0, 0, 0]))))) from by
    simp [be16, List.append_assoc, List.cons_append]]
  unfold pp2_parse_hdr
  rw [pp2_parse_prelude_unspec pi.transport_protocol (sum_tlv_len pi.pp2_info.tlv_array + 7)
    (tlvs_wire pi.pp2_info.tlv_array ++ (PP2_TYPE_CRC32C :: 0 :: 4 :: le32 (crc32c ((pp2_sig ++ 0x20 :: pi.transport_protocol :: be16 (sum_tlv_len pi.pp2_info.tlv_array + 7) ++ tlvs_wire pi.pp2_info.tlv_array) ++ [PP2_TYPE_CRC32C, 0, 4, 0, 0, 0, 0])))) zero_pp_info htp (by omega)]
  dsimp only
  rw [show (pp2_sig ++ 0x20 :: pi.transport_protocol :: ((sum_tlv_len pi.pp2_info.tlv_array + 7) / 256 % 256) :: ((sum_tlv_len pi.pp2_info.tlv_array + 7) % 256) :: (tlvs_wire pi.pp2_info.tlv_array ++ (PP2_TYPE_CRC32C :: 0 :: 4 :: le32 (crc32c ((pp2_sig ++ 0x20 :: pi.transport_protocol :: be16 (sum_tlv_len pi.pp2_info.tlv_array + 7) ++ tlvs_wire pi.pp2_info.tlv_array) ++ [PP2_TYPE_CRC32C, 0, 4, 0, 0, 0, 0]))))).take 16 = ([13, 10, 13, 10, 0, 13, 10, 81, 85, 73, 84, 10, 0x20, pi.transport_protocol, (sum_tlv_len pi.pp2_info.tlv_array + 7) / 256 % 256, (sum_tlv_len pi.pp2_info.tlv_array + 7) % 256]) from rfl]
  rw [show (pp2_sig ++ 0x20 :: pi.transport_protocol :: ((sum_tlv_len pi.pp2_info.tlv_array + 7) / 256 % 256) :: ((sum_tlv_len pi.pp2_info.tlv_array + 7) % 256) :: (tlvs_wire pi.pp2_info.tlv_array ++ (PP2_TYPE_CRC32C :: 0 :: 4 :: le32 (crc32c ((pp2_sig ++ 0x20 :: pi.transport_protocol :: be16 (sum_tlv_len pi.pp2_info.tlv_array + 7) ++ tlvs_wire pi.pp2_info.tlv_array) ++ [PP2_TYPE_CRC32C, 0, 4, 0, 0, 0, 0]))))).drop 16
    = tlvs_wire pi.pp2_info.tlv_array ++ (PP2_TYPE_CRC32C :: 0 :: 4 :: le32 (crc32c ((pp2_sig ++ 0x20 :: pi.transport_protocol :: be16 (sum_tlv_len pi.pp2_info.tlv_array + 7) ++ tlvs_wire pi.pp2_info.tlv_array) ++ [PP2_TYPE_CRC32C, 0, 4, 0, 0, 0, 0]))) from rfl]
  have hTB : ([13, 10, 13, 10, 0, 13, 10, 81, 85, 73, 84, 10, 0x20, pi.transport_protocol, (sum_tlv_len pi.pp2_info.tlv_array + 7) / 256 % 256, (sum_tlv_len pi.pp2_info.tlv_array + 7) % 256]) ++ tlvs_wire pi.pp2_info.tlv_array = pp2_sig ++ 0x20 :: pi.transport_protocol :: be16 (sum_tlv_len pi.pp2_info.tlv_array + 7) ++ tlvs_wire pi.pp2_info.tlv_array := by
    simp [pp2_sig, be16, List.append_assoc, List.cons_append]
  have hcrcEq : crc32c (List.takeD (16 + (sum_tlv_len pi.pp2_info.tlv_array + 7))
      ((([13, 10, 13, 10, 0, 13, 10, 81, 85, 73, 84, 10, 0x20, pi.transport_protocol, (sum_tlv_len pi.pp2_info.tlv_array + 7) / 256 % 256, (sum_tlv_len pi.pp2_info.tlv_array + 7) % 256]) ++ tlvs_wire pi.pp2_info.tlv_array) ++ [PP2_TYPE_CRC32C, 0, 4, 0, 0, 0, 0]) 0) = crc32c ((pp2_sig ++ 0x20 :: pi.transport_protocol :: be16 (sum_tlv_len pi.pp2_info.tlv_array + 7) ++ tlvs_wire pi.pp2_info.tlv_array) ++ [PP2_TYPE_CRC32C, 0, 4, 0, 0, 0, 0]) := by
    rw [hTB, takeD_exact 0 (by
      simp only [List.length_append, List.length_cons, List.length_nil, pp2_sig, be16,
        tlvs_wire_length pi.pp2_info.tlv_array (by omega)]
      omega)]
  rw [pp2_tlv_loop_full_crc (16 + (sum_tlv_len pi.pp2_info.tlv_array + 7)) (pi.pp2_info.tlv_array) hwf (by omega)
    ([13, 10, 13, 10, 0, 13, 10, 81, 85, 73, 84, 10, 0x20, pi.transport_protocol, (sum_tlv_len pi.pp2_info.tlv_array + 7) / 256 % 256, (sum_tlv_len pi.pp2_info.tlv_array + 7) % 256]) (info_set_tp (info_set_af (info_set_local zero_pp_info 1) 0) pi.transport_protocol) (crc32c ((pp2_sig ++ 0x20 :: pi.transport_protocol :: be16 (sum_tlv_len pi.pp2_info.tlv_array + 7) ++ tlvs_wire pi.pp2_info.tlv_array) ++ [PP2_TYPE_CRC32C, 0, 4, 0, 0, 0, 0])) (crc32c_lt _) hcrcEq]

/-- Parsing a serialized Inet header without CRC. -/
theorem pp2_parse_inet_nocrc (pi : pp_info_t) (a1 a2 a3 a4 b1 b2 b3 b4 : Nat)
    (hwf : ∀ t ∈ pi.pp2_info.tlv_array, tlv_wf t)
    (hsz : 35 + sum_tlv_len pi.pp2_info.tlv_array ≤ 65535)
    (htp : pi.transport_protocol ≤ 2)
    (hsp : pi.src_port < 65536) (hdp : pi.dst_port < 65536)
    (hlastne : ∀ tl, (pi.pp2_info.tlv_array).getLast? = some tl → 0 < tl.len) :
    pp2_parse_hdr (pp2_sig ++ 0x21 :: (16 + pi.transport_protocol) :: be16 (12 + sum_tlv_len pi.pp2_info.tlv_array) ++ ([a1, a2, a3, a4] ++ [b1, b2, b3, b4] ++ be16 pi.src_port ++ be16 pi.dst_port) ++ tlvs_wire pi.pp2_info.tlv_array) (16 + (12 + sum_tlv_len pi.pp2_info.tlv_array)) zero_pp_info
      = ((16 : Int) + ((12 + sum_tlv_len pi.pp2_info.tlv_array : Nat) : Int),
         ([13, 10, 13, 10, 0, 13, 10, 81, 85, 73, 84, 10, 0x21, 16 + pi.transport_protocol, (12 + sum_tlv_len pi.pp2_info.tlv_array) / 256 % 256, (12 + sum_tlv_len pi.pp2_info.tlv_array) % 256, a1, a2, a3, a4, b1, b2, b3, b4, pi.src_port / 256 % 256, pi.src_port % 256, pi.dst_port / 256 % 256, pi.dst_port % 256]) ++ tlvs_wire pi.pp2_info.tlv_array,
         { (info_store_endpoints (info_set_tp (info_set_af (info_set_local zero_pp_info 0) 1) pi.transport_protocol) (inet_ntop4 [a1, a2, a3, a4]) (inet_ntop4 [b1, b2, b3, b4]) pi.src_port pi.dst_port) with pp2_info.tlv_array := (info_store_endpoints (info_set_tp (info_set_af (info_set_local zero_pp_info 0) 1) pi.transport_protocol) (inet_ntop4 [a1, a2, a3, a4]) (inet_ntop4 [b1, b2, b3, b4]) pi.src_port pi.dst_port).pp2_info.tlv_array ++ pi.pp2_info.tlv_array }) := by
  rw [show (pp2_sig ++ 0x21 :: (16 + pi.transport_protocol) :: be16 (12 + sum_tlv_len pi.pp2_info.tlv_array) ++ ([a1, a2, a3, a4] ++ [b1, b2, b3, b4] ++ be16 pi.src_port ++ be16 pi.dst_port) ++ tlvs_wire pi.pp2_info.tlv_array) = (pp2_sig ++ 0x21 :: (16 + pi.transport_protocol) :: ((12 + sum_tlv_len pi.pp2_info.tlv_array) / 256 % 256) :: ((12 + sum_tlv_len pi.pp2_info.tlv_array) % 256) :: a1 :: a2 :: a3 :: a4 :: b1 :: b2 :: b3 :: b4 :: (pi.src_port / 256 % 256) :: (pi.src_port % 256) :: (pi.dst_port / 256 % 256) :: (pi.dst_port % 256) :: (tlvs_wire pi.pp2_info.tlv_array)) from by
    simp [be16, List.append_assoc, List.cons_append]]
  unfold pp2_parse_hdr
  rw [pp2_parse_prelude_inet pi.transport_protocol (12 + sum_tlv_len pi.pp2_info.tlv_array) pi.src_port pi.dst_port
    a1 a2 a3 a4 b1 b2 b3 b4 (tlvs_wire pi.pp2_info.tlv_array) zero_pp_info htp (by omega) (by omega) hsp hdp]
  dsimp only
  rw [show 12 + sum_tlv_len pi.pp2_info.tlv_array - 12 = sum_tlv_len pi.pp2_info.tlv_array from by omega]
  rw [show (pp2_sig ++ 0x21 :: (16 + pi.transport_protocol) :: ((12 + sum_tlv_len pi.pp2_info.tlv_array) / 256 % 256) :: ((12 + sum_tlv_len pi.pp2_info.tlv_array) % 256) :: a1 :: a2 :: a3 :: a4 :: b1 :: b2 :: b3 :: b4 :: (pi.src_port / 256 % 256) :: (pi.src_port % 256) :: (pi.dst_port / 256 % 256) :: (pi.dst_port % 256) :: (tlvs_wire pi.pp2_info.tlv_array)).take 28 = ([13, 10, 13, 10, 0, 13, 10, 81, 85, 73, 84, 10, 0x21, 16 + pi.transport_protocol, (12 + sum_tlv_len pi.pp2_info.tlv_array) / 256 % 256, (12 + sum_tlv_len pi.pp2_info.tlv_array) % 256, a1, a2, a3, a4, b1, b2, b3, b4, pi.src_port / 256 % 256, pi.src_port % 256, pi.dst_port / 256 % 256, pi.dst_port % 256]) from rfl]
  rw [show (pp2_sig ++ 0x21 :: (16 + pi.transport_protocol) :: ((12 + sum_tlv_len pi.pp2_info.tlv_array) / 256 % 256) :: ((12 + sum_tlv_len pi.pp2_info.tlv_array) % 256) :: a1 :: a2 :: a3 :: a4 :: b1 :: b2 :: b3 :: b4 :: (pi.src_port / 256 % 256) :: (pi.src_port % 256) :: (pi.dst_port / 256 % 256) :: (pi.dst_port % 256) :: (tlvs_wire pi.pp2_info.tlv_array)).drop 28 = tlvs_wire pi.pp2_info.tlv_array from rfl]
  rw [pp2_tlv_loop_full_nocrc (16 + (12 + sum_tlv_len pi.pp2_info.tlv_array)) (pi.pp2_info.tlv_array) hwf (by omega) hlastne
    ([13, 10, 13, 10, 0, 13, 10, 81, 85, 73, 84, 10, 0x21, 16 + pi.transport_protocol, (12 + sum_tlv_len pi.pp2_info.tlv_array) / 256 % 256, (12 + sum_tlv_len pi.pp2_info.tlv_array) % 256, a1, a2, a3, a4, b1, b2, b3, b4, pi.src_port / 256 % 256, pi.src_port % 256, pi.dst_port / 256 % 256, pi.dst_port % 256]) (info_store_endpoints (info_set_tp (info_set_af (info_set_local zero_pp_info 0) 1) pi.transport_protocol) (inet_ntop4 [a1, a2, a3, a4]) (inet_ntop4 [b1, b2, b3, b4]) pi.src_port pi.dst_port)]

/-- Parsing a serialized Inet header with CRC. -/
theorem pp2_parse_inet_crc (pi : pp_info_t) (a1 a2 a3 a4 b1 b2 b3 b4 : Nat)
    (hwf : ∀ t ∈ pi.pp2_info.tlv_array, tlv_wf t)
    (hsz : 35 + sum_tlv_len pi.pp2_info.tlv_array ≤ 65535)
    (htp : pi.transport_protocol ≤ 2)
    (hsp : pi.src_port < 65536) (hdp : pi.dst_port < 65536) :
    pp2_parse_hdr (((pp2_sig ++ 0x21 :: (16 + pi.transport_protocol) :: be16 (12 + sum_tlv_len pi.pp2_info.tlv_array + 7) ++ ([a1, a2, a3, a4] ++ [b1, b2, b3, b4] ++ be16 pi.src_port ++ be16 pi.dst_port) ++ tlvs_wire pi.pp2_info.tlv_array) ++ [PP2_TYPE_CRC32C, 0, 4]) ++ le32 (crc32c ((pp2_sig ++ 0x21 :: (16 + pi.transport_protocol) :: be16 (12 + sum_tlv_len pi.pp2_info.tlv_array + 7) ++ ([a1, a2, a3, a4] ++ [b1, b2, b3, b4] ++ be16 pi.src_port ++ be16 pi.dst_port) ++ tlvs_wire pi.pp2_info.tlv_array) ++ [PP2_TYPE_CRC32C, 0, 4, 0, 0, 0, 0]))) (16 + (12 + sum_tlv_len pi.pp2_info.tlv_array + 7)) zero_pp_info
      = ((16 : Int) + ((12 + sum_tlv_len pi.pp2_info.tlv_array + 7 : Nat) : Int),
         (([13, 10, 13, 10, 0, 13, 10, 81, 85, 73, 84, 10, 0x21, 16 + pi.transport_protocol, (12 + sum_tlv_len pi.pp2_info.tlv_array + 7) / 256 % 256, (12 + sum_tlv_len pi.pp2_info.tlv_array + 7) % 256, a1, a2, a3, a4, b1, b2, b3, b4, pi.src_port / 256 % 256, pi.src_port % 256, pi.dst_port / 256 % 256, pi.dst_port % 256]) ++ tlvs_wire pi.pp2_info.tlv_array) ++ [PP2_TYPE_CRC32C, 0, 4, 0, 0, 0, 0],
         info_set_crc (info_append_tlv { (info_store_endpoints (info_set_tp (info_set_af (info_set_local zero_pp_info 0) 1) pi.transport_protocol) (inet_ntop4 [a1, a2, a3, a4]) (inet_ntop4 [b1, b2, b3, b4]) pi.src_port pi.dst_port) with pp2_info.tlv_array := (info_store_endpoints (info_set_tp (info_set_af (info_set_local zero_pp_info 0) 1) pi.transport_protocol) (inet_ntop4 [a1, a2, a3, a4]) (inet_ntop4 [b1, b2, b3, b4]) pi.src_port pi.dst_port).pp2_info.tlv_array ++ pi.pp2_info.tlv_array } PP2_TYPE_CRC32C 4 (le32 (crc32c ((pp2_sig ++ 0x21 :: (16 + pi.transport_protocol) :: be16 (12 + sum_tlv_len pi.pp2_info.tlv_array + 7) ++ ([a1, a2, a3, a4] ++ [b1, b2, b3, b4] ++ be16 pi.src_port ++ be16 pi.dst_port) ++ tlvs_wire pi.pp2_info.tlv_array) ++ [PP2_TYPE_CRC32C, 0, 4, 0, 0, 0, 0]))))) := by
  rw [show (((pp2_sig ++ 0x21 :: (16 + pi.transport_protocol) :: be16 (12 + sum_tlv_len pi.pp2_info.tlv_array + 7) ++ ([a1, a2, a3, a4] ++ [b1, b2, b3, b4] ++ be16 pi.src_port ++ be16 pi.dst_port) ++ tlvs_wire pi.pp2_info.tlv_array) ++ [PP2_TYPE_CRC32C, 0, 4]) ++ le32 (crc32c ((pp2_sig ++ 0x21 :: (16 + pi.transport_protocol) :: be16 (12 + sum_tlv_len pi.pp2_info.tlv_array + 7) ++ ([a1, a2, a3, a4] ++ [b1, b2, b3, b4] ++ be16 pi.src_port ++ be16 pi.dst_port) ++ tlvs_wire pi.pp2_info.tlv_array) ++ [PP2_TYPE_CRC32C, 0, 4, 0, 0, 0, 0]))) = (pp2_sig ++ 0x21 :: (16 + pi.transport_protocol) :: ((12 + sum_tlv_len pi.pp2_info.tlv_array + 7) / 256 % 256) :: ((12 + sum_tlv_len pi.pp2_info.tlv_array + 7) % 256) :: a1 :: a2 :: a3 :: a4 :: b1 :: b2 :: b3 :: b4 :: (pi.src_port / 256 % 256) :: (pi.src_port % 256) :: (pi.dst_port / 256 % 256) :: (pi.dst_port % 256) :: (tlvs_wire pi.pp2_info.tlv_array ++ (PP2_TYPE_CRC32C :: 0 :: 4 :: le32 (crc32c ((pp2_sig ++ 0x21 :: (16 + pi.transport_protocol) :: be16 (12 + sum_tlv_len pi.pp2_info.tlv_array + 7) ++ ([a1, a2, a3, a4] ++ [b1, b2, b3, b4] ++ be16 pi.src_port ++ be16 pi.dst_port) ++ tlvs_wire pi.pp2_info.tlv_array) ++ [PP2_TYPE_CRC32C, 0, 4, 0, 0, 0, 0]))))) from by
    simp [be16, List.append_assoc, List.cons_append]]
  unfold pp2_parse_hdr
  rw [pp2_parse_prelude_inet pi.transport_protocol (12 + sum_tlv_len pi.pp2_info.tlv_array + 7) pi.src_port pi.dst_port
    a1 a2 a3 a4 b1 b2 b3 b4
    (tlvs_wire pi.pp2_info.tlv_array ++ (PP2_TYPE_CRC32C :: 0 :: 4 :: le32 (crc32c ((pp2_sig ++ 0x21 :: (16 + pi.transport_protocol) :: be16 (12 + sum_tlv_len pi.pp2_info.tlv_array + 7) ++ ([a1, a2, a3, a4] ++ [b1, b2, b3, b4] ++ be16 pi.src_port ++ be16 pi.dst_port) ++ tlvs_wire pi.pp2_info.tlv_array) ++ [PP2_TYPE_CRC32C, 0, 4, 0, 0, 0, 0])))) zero_pp_info htp
    (by omega) (by omega) hsp hdp]
  dsimp only
  rw [show 12 + sum_tlv_len pi.pp2_info.tlv_array + 7 - 12 = sum_tlv_len pi.pp2_info.tlv_array + 7 from by omega]
  rw [show (pp2_sig ++ 0x21 :: (16 + pi.transport_protocol) :: ((12 + sum_tlv_len pi.pp2_info.tlv_array + 7) / 256 % 256) :: ((12 + sum_tlv_len pi.pp2_info.tlv_array + 7) % 256) :: a1 :: a2 :: a3 :: a4 :: b1 :: b2 :: b3 :: b4 :: (pi.src_port / 256 % 256) :: (pi.src_port % 256) :: (pi.dst_port / 256 % 256) :: (pi.dst_port % 256) :: (tlvs_wire pi.pp2_info.tlv_array ++ (PP2_TYPE_CRC32C :: 0 :: 4 :: le32 (crc32c ((pp2_sig ++ 0x21 :: (16 + pi.transport_protocol) :: be16 (12 + sum_tlv_len pi.pp2_info.tlv_array + 7) ++ ([a1, a2, a3, a4] ++ [b1, b2, b3, b4] ++ be16 pi.src_port ++ be16 pi.dst_port) ++ tlvs_wire pi.pp2_info.tlv_array) ++ [PP2_TYPE_CRC32C, 0, 4, 0, 0, 0, 0]))))).take 28 = ([13, 10, 13, 10, 0, 13, 10, 81, 85, 73, 84, 10, 0x21, 16 + pi.transport_protocol, (12 + sum_tlv_len pi.pp2_info.tlv_array + 7) / 256 % 256, (12 + sum_tlv_len pi.pp2_info.tlv_array + 7) % 256, a1, a2, a3, a4, b1, b2, b3, b4, pi.src_port / 256 % 256, pi.src_port % 256, pi.dst_port / 256 % 256, pi.dst_port % 256]) from rfl]
  rw [show (pp2_sig ++ 0x21 :: (16 + pi.transport_protocol) :: ((12 + sum_tlv_len pi.pp2_info.tlv_array + 7) / 256 % 256) :: ((12 + sum_tlv_len pi.pp2_info.tlv_array + 7) % 256) :: a1 :: a2 :: a3 :: a4 :: b1 :: b2 :: b3 :: b4 :: (pi.src_port / 256 % 256) :: (pi.src_port % 256) :: (pi.dst_port / 256 % 256) :: (pi.dst_port % 256) :: (tlvs_wire pi.pp2_info.tlv_array ++ (PP2_TYPE_CRC32C :: 0 :: 4 :: le32 (crc32c ((pp2_sig ++ 0x21 :: (16 + pi.transport_protocol) :: be16 (12 + sum_tlv_len pi.pp2_info.tlv_array + 7) ++ ([a1, a2, a3, a4] ++ [b1, b2, b3, b4] ++ be16 pi.src_port ++ be16 pi.dst_port) ++ tlvs_wire pi.pp2_info.tlv_array) ++ [PP2_TYPE_CRC32C, 0, 4, 0, 0, 0, 0]))))).drop 28
    = tlvs_wire pi.pp2_info.tlv_array ++ (PP2_TYPE_CRC32C :: 0 :: 4 :: le32 (crc32c ((pp2_sig ++ 0x21 :: (16 + pi.transport_protocol) :: be16 (12 + sum_tlv_len pi.pp2_info.tlv_array + 7) ++ ([a1, a2, a3, a4] ++ [b1, b2, b3, b4] ++ be16 pi.src_port ++ be16 pi.dst_port) ++ tlvs_wire pi.pp2_info.tlv_array) ++ [PP2_TYPE_CRC32C, 0, 4, 0, 0, 0, 0]))) from rfl]
  have hTB : ([13, 10, 13, 10, 0, 13, 10, 81, 85, 73, 84, 10, 0x21, 16 + pi.transport_protocol, (12 + sum_tlv_len pi.pp2_info.tlv_array + 7) / 256 % 256, (12 + sum_tlv_len pi.pp2_info.tlv_array + 7) % 256, a1, a2, a3, a4, b1, b2, b3, b4, pi.src_port / 256 % 256, pi.src_port % 256, pi.dst_port / 256 % 256, pi.dst_port % 256]) ++ tlvs_wire pi.pp2_info.tlv_array = pp2_sig ++ 0x21 :: (16 + pi.transport_protocol) :: be16 (12 + sum_tlv_len pi.pp2_info.tlv_array + 7) ++ ([a1, a2, a3, a4] ++ [b1, b2, b3, b4] ++ be16 pi.src_port ++ be16 pi.dst_port) ++ tlvs_wire pi.pp2_info.tlv_array := by
    simp [pp2_sig, be16, List.append_assoc, List.cons_append]
  have hcrcEq : crc32c (List.takeD (16 + (12 + sum_tlv_len pi.pp2_info.tlv_array + 7))
      ((([13, 10, 13, 10, 0, 13, 10, 81, 85, 73, 84, 10, 0x21, 16 + pi.transport_protocol, (12 + sum_tlv_len pi.pp2_info.tlv_array + 7) / 256 % 256, (12 + sum_tlv_len pi.pp2_info.tlv_array + 7) % 256, a1, a2, a3, a4, b1, b2, b3, b4, pi.src_port / 256 % 256, pi.src_port % 256, pi.dst_port / 256 % 256, pi.dst_port % 256]) ++ tlvs_wire pi.pp2_info.tlv_array) ++ [PP2_TYPE_CRC32C, 0, 4, 0, 0, 0, 0]) 0) = crc32c ((pp2_sig ++ 0x21 :: (16 + pi.transport_protocol) :: be16 (12 + sum_tlv_len pi.pp2_info.tlv_array + 7) ++ ([a1, a2, a3, a4] ++ [b1, b2, b3, b4] ++ be16 pi.src_port ++ be16 pi.dst_port) ++ tlvs_wire pi.pp2_info.tlv_array) ++ [PP2_TYPE_CRC32C, 0, 4, 0, 0, 0, 0]) := by
    rw [hTB, takeD_exact 0 (by
      simp only [List.length_append, List.length_cons, List.length_nil, pp2_sig, be16,
        tlvs_wire_length pi.pp2_info.tlv_array (by omega)]
      omega)]
  rw [pp2_tlv_loop_full_crc (16 + (12 + sum_tlv_len pi.pp2_info.tlv_array + 7)) (pi.pp2_info.tlv_array) hwf (by omega)
    ([13, 10, 13, 10, 0, 13, 10, 81, 85, 73, 84, 10, 0x21, 16 + pi.transport_protocol, (12 + sum_tlv_len pi.pp2_info.tlv_array + 7) / 256 % 256, (12 + sum_tlv_len pi.pp2_info.tlv_array + 7) % 256, a1, a2, a3, a4, b1, b2, b3, b4, pi.src_port / 256 % 256, pi.src_port % 256, pi.dst_port / 256 % 256, pi.dst_port % 256]) (info_store_endpoints (info_set_tp (info_set_af (info_set_local zero_pp_info 0) 1) pi.transport_protocol) (inet_ntop4 [a1, a2, a3, a4]) (inet_ntop4 [b1, b2, b3, b4]) pi.src_port pi.dst_port) (crc32c ((pp2_sig ++ 0x21 :: (16 + pi.transport_protocol) :: be16 (12 + sum_tlv_len pi.pp2_info.tlv_array + 7) ++ ([a1, a2, a3, a4] ++ [b1, b2, b3, b4] ++ be16 pi.src_port ++ be16 pi.dst_port) ++ tlvs_wire pi.pp2_info.tlv_array) ++ [PP2_TYPE_CRC32C, 0, 4, 0, 0, 0, 0])) (crc32c_lt _) hcrcEq]

theorem cstr_replicate_zero : cstr (List.replicate 108 0) = [] := rfl

/-- Claim C1 (amended): the round-trip parse-of-serialize law holds on the
class the counterexample delimits.  For a record with well-formed stored
TLVs (ALPN / AUTHORITY / UNIQUE_ID), total TLV wire size small enough to
fit the uint16 length, no padding requested (alignment_power at most 1),
a zero SSL block, a uint8 crc32c flag, transport protocol at most DGRAM,
and — the corrected condition — either the CRC TLV requested or a nonzero
declared length on the LAST stored TLV (a trailing zero-length record is
silently skipped by the parser's walk), both for a Local/Unspec record
and for an Inet record whose endpoint texts are canonical dotted quads,
the serializer accepts, re-parsing the serialized bytes returns the
header length, and the parsed record is semantically equivalent. -/
theorem C1_roundtrip_amended (pi : pp_info_t)
    (hwf : ∀ t ∈ pi.pp2_info.tlv_array, tlv_wf t)
    (hsz : 35 + sum_tlv_len pi.pp2_info.tlv_array ≤ 65535)
    (halign : pi.pp2_info.alignment_power % 256 ≤ 1)
    (hssl : pi.pp2_info.pp2_ssl_info = zero_ssl_info)
    (hcrc8 : pi.pp2_info.crc32c < 256)
    (hlast : pi.pp2_info.crc32c ≠ 0 ∨
      ∀ tl, pi.pp2_info.tlv_array.getLast? = some tl → 0 < tl.len)
    (htp : pi.transport_protocol ≤ 2) :
    (pi.address_family = ADDR_FAMILY_UNSPEC → pi.pp2_info.local_flag = 1 →
      cstr pi.src_addr = [] → cstr pi.dst_addr = [] →
      pi.src_port = 0 → pi.dst_port = 0 →
      ∃ out hl, pp2_create_hdr pi = .ok (out, hl) ∧ out.length = hl ∧
        (pp2_parse_hdr out hl zero_pp_info).1 = (hl : Int) ∧
        pp_info_equiv pi (pp2_parse_hdr out hl zero_pp_info).2.2) ∧
    (∀ a1 a2 a3 a4 b1 b2 b3 b4 : Nat,
      pi.address_family = ADDR_FAMILY_INET → pi.pp2_info.local_flag = 0 →
      a1 < 256 → a2 < 256 → a3 < 256 → a4 < 256 →
      b1 < 256 → b2 < 256 → b3 < 256 → b4 < 256 →
      cstr pi.src_addr = inet_ntop4 [a1, a2, a3, a4] →
      cstr pi.dst_addr = inet_ntop4 [b1, b2, b3, b4] →
      pi.src_port < 65536 → pi.dst_port < 65536 →
      ∃ out hl, pp2_create_hdr pi = .ok (out, hl) ∧ out.length = hl ∧
        (pp2_parse_hdr out hl zero_pp_info).1 = (hl : Int) ∧
        pp_info_equiv pi (pp2_parse_hdr out hl zero_pp_info).2.2) := by
  have hcmod : pi.pp2_info.crc32c % 256 = pi.pp2_info.crc32c := Nat.mod_eq_of_lt hcrc8
  constructor
  · intro haf hloc hsrcE hdstE hsp0 hdp0
    have haddr := pp2_create_addr_unspec pi haf (by rw [hloc]; decide)
    have hcreate := pp2_create_hdr_eval pi 0x20 [] 0 haddr rfl (by omega) halign (by omega)
    have hfam : ((pi.address_family % 256) <<< 4 ||| pi.transport_protocol % 256) % 256
        = pi.transport_protocol := by
      rw [haf, show ((ADDR_FAMILY_UNSPEC : Nat) % 256) <<< 4 = 0 from rfl, Nat.zero_or]
      omega
    rw [hcmod, hfam] at hcreate
    simp only [Nat.zero_add, List.append_nil] at hcreate
    by_cases hc : pi.pp2_info.crc32c = 0
    · rw [hc] at hcreate
      simp only [if_neg (show ¬ (0 : Nat) ≠ 0 from by omega)] at hcreate
      have hlastne : ∀ tl, pi.pp2_info.tlv_array.getLast? = some tl → 0 < tl.len := by
        rcases hlast with hbad | hok
        · exact absurd hc hbad
        · exact hok
      refine ⟨_, _, hcreate, ?_, ?_, ?_⟩
      · simp only [List.length_append, List.length_cons, List.length_nil, pp2_sig, be16,
          tlvs_wire_length pi.pp2_info.tlv_array (by omega)]
      · rw [pp2_parse_unspec_nocrc pi hwf hsz htp hlastne]
        dsimp only
        omega
      · rw [pp2_parse_unspec_nocrc pi hwf hsz htp hlastne]
        dsimp only
        unfold pp_info_equiv
        dsimp only [info_set_tp, info_set_af, info_set_local, zero_pp_info, zero_pp2_info]
        refine ⟨haf, rfl, ?_, ?_, hsp0, hdp0, hloc, ?_, hssl, by simp [hc]⟩
        · rw [hsrcE, cstr_replicate_zero]
        · rw [hdstE, cstr_replicate_zero]
        · simp only [List.nil_append]
    · simp only [if_pos hc] at hcreate
      refine ⟨_, _, hcreate, ?_, ?_, ?_⟩
      · simp only [List.length_append, List.length_cons, List.length_nil, pp2_sig, be16,
          le32, tlvs_wire_length pi.pp2_info.tlv_array (by omega)]
        omega
      · rw [pp2_parse_unspec_crc pi hwf hsz htp]
        dsimp only
        omega
      · rw [pp2_parse_unspec_crc pi hwf hsz htp]
        dsimp only
        unfold pp_info_equiv
        dsimp only [info_set_tp, info_set_af, info_set_local, info_set_crc,
          info_append_tlv, tlv_array_append_tlv_new, zero_pp_info, zero_pp2_info]
        refine ⟨haf, rfl, ?_, ?_, hsp0, hdp0, hloc, ?_, hssl, by simp [hc]⟩
        · rw [hsrcE, cstr_replicate_zero]
        · rw [hdstE, cstr_replicate_zero]
        · simp only [List.nil_append]
          rw [tlvs_semantic_append_crc hwf, tlvs_semantic_eq_self hwf]
  · intro a1 a2 a3 a4 b1 b2 b3 b4 haf hloc ha1 ha2 ha3 ha4 hb1 hb2 hb3 hb4 hsrc hdst
      hsp hdp
    have haddr := pp2_create_addr_inet pi a1 a2 a3 a4 b1 b2 b3 b4 haf ha1 ha2 ha3 ha4
      hb1 hb2 hb3 hb4 hsrc hdst
    have haddrlen : ([a1, a2, a3, a4] ++ [b1, b2, b3, b4] ++ be16 pi.src_port ++
        be16 pi.dst_port).length = 12 := by
      simp [be16]
    have hcreate := pp2_create_hdr_eval pi 0x21 _ 12 haddr haddrlen (by omega) halign
      (by omega)
    have hfam : ((pi.address_family % 256) <<< 4 ||| pi.transport_protocol % 256) % 256
        = 16 + pi.transport_protocol := by
      rw [haf, show ((ADDR_FAMILY_INET : Nat) % 256) <<< 4 = 16 from rfl,
        Nat.mod_eq_of_lt (show pi.transport_protocol < 256 from by omega),
        or16_eq pi.transport_protocol (by omega)]
      omega
    rw [hcmod, hfam] at hcreate
    by_cases hc : pi.pp2_info.crc32c = 0
    · rw [hc] at hcreate
      simp only [if_neg (show ¬ (0 : Nat) ≠ 0 from by omega)] at hcreate
      have hlastne : ∀ tl, pi.pp2_info.tlv_array.getLast? = some tl → 0 < tl.len := by
        rcases hlast with hbad | hok
        · exact absurd hc hbad
        · exact hok
      refine ⟨_, _, hcreate, ?_, ?_, ?_⟩
      · simp only [List.length_append, List.length_cons, List.length_nil, pp2_sig, be16,
          tlvs_wire_length pi.pp2_info.tlv_array (by omega)]
        omega
      · rw [pp2_parse_inet_nocrc pi a1 a2 a3 a4 b1 b2 b3 b4 hwf hsz htp hsp hdp hlastne]
        dsimp only
        omega
      · rw [pp2_parse_inet_nocrc pi a1 a2 a3 a4 b1 b2 b3 b4 hwf hsz htp hsp hdp hlastne]
        dsimp only
        unfold pp_info_equiv
        dsimp only [info_store_endpoints, info_set_tp, info_set_af, info_set_local,
          zero_pp_info, zero_pp2_info]
        refine ⟨haf, rfl, ?_, ?_, rfl, rfl, hloc, ?_, hssl, by simp [hc]⟩
        · rw [hsrc, cstr_storeCStr (inet_ntop4_nonzero ha1 ha2 ha3 ha4)]
        · rw [hdst, cstr_storeCStr (inet_ntop4_nonzero hb1 hb2 hb3 hb4)]
        · simp only [List.nil_append]
    · simp only [if_pos hc] at hcreate
      refine ⟨_, _, hcreate, ?_, ?_, ?_⟩
      · simp only [List.length_append, List.length_cons, List.length_nil, pp2_sig, be16,
          le32, tlvs_wire_length pi.pp2_info.tlv_array (by omega)]
        omega
      · rw [pp2_parse_inet_crc pi a1 a2 a3 a4 b1 b2 b3 b4 hwf hsz htp hsp hdp]
        dsimp only
        omega
      · rw [pp2_parse_inet_crc pi a1 a2 a3 a4 b1 b2 b3 b4 hwf hsz htp hsp hdp]
        dsimp only
        unfold pp_info_equiv
        dsimp only [info_store_endpoints, info_set_tp, info_set_af, info_set_local,
          info_set_crc, info_append_tlv, tlv_array_append_tlv_new, zero_pp_info,
          zero_pp2_info]
        refine ⟨haf, rfl, ?_, ?_, rfl, rfl, hloc, ?_, hssl, by simp [hc]⟩
        · rw [hsrc, cstr_storeCStr (inet_ntop4_nonzero ha1 ha2 ha3 ha4)]
        · rw [hdst, cstr_storeCStr (inet_ntop4_nonzero hb1 hb2 hb3 hb4)]
        · simp only [List.nil_append]
          rw [tlvs_semantic_append_crc hwf, tlvs_semantic_eq_self hwf]

/-- Witness for the amended C1: the Inet record `c2_info` (1.2.3.4:80 →
5.6.7.8:443, one ALPN TLV, CRC requested) round-trips. -/
theorem C1_roundtrip_amended_witness :
    ∃ out hl, pp2_create_hdr c2_info = .ok (out, hl) ∧ out.length = hl ∧
      (pp2_parse_hdr out hl zero_pp_info).1 = (hl : Int) ∧
      pp_info_equiv c2_info (pp2_parse_hdr out hl zero_pp_info).2.2 :=
  (C1_roundtrip_amended c2_info (by decide) (by decide) (by decide) (by decide)
      (by decide) (.inl (by decide)) (by decide)).2
    1 2 3 4 5 6 7 8 (by decide) (by decide) (by decide) (by decide) (by decide)
    (by decide) (by decide) (by decide) (by decide) (by decide) (by decide)
    (by decide) (by decide) (by decide)

end LibPP
